import Mathlib

/-!
# VulkanUdemy renderer: frame loop, dynamic uniform block and command recording

A shallow embedding of the parts of `VulkanRenderer.cpp` that decide the
stride of the dynamic uniform block, the per-frame `draw` protocol, the packing
done by `updateUniformBuffers`, the commands recorded by `recordCommands`, the
selection of the physical device, the settings chosen for the swapchain, the
sizes of the per-image vectors after `init` and `recreateSwapChain`, the
destroy calls of `cleanupSwapChain` and `cleanup`, the descriptor pools, and
the bounds checks of `updateModel` and `updateModelMesh`.

Unsigned 64-bit quantities (`size_t` on the x64 target, `VkDeviceSize`) are
natural numbers reduced modulo `2 ^ 64`; `uint32_t` values are reduced modulo
`2 ^ 32`.
-/

namespace vulkan

/-! ## 64-bit unsigned arithmetic -/

/-- Sum of two unsigned 64-bit values, wrapping. -/
def add64 (a b : Nat) : Nat := (a + b) % 2 ^ 64

/-- Difference of two unsigned 64-bit values, wrapping below zero. -/
def sub64 (a b : Nat) : Nat := (a % 2 ^ 64 + 2 ^ 64 - b % 2 ^ 64) % 2 ^ 64

/-- Product of two unsigned 64-bit values, wrapping. -/
def mul64 (a b : Nat) : Nat := (a * b) % 2 ^ 64

/-- Bitwise complement `~x` of an unsigned 64-bit value. -/
def not64 (x : Nat) : Nat := 2 ^ 64 - 1 - x % 2 ^ 64

/-- Conversion `static_cast<uint32_t>(x)`. -/
def toU32 (x : Nat) : Nat := x % 2 ^ 32

/-! ## Stride of the dynamic uniform block -/

/-- The value stored in `modelUniformAlignment` by
`allocateDynamicBufferTransferSpace`:
`(sizeof(Model) + minUniformBufferOffset - 1) & ~(minUniformBufferOffset - 1)`,
with `sizeof(Model)` passed as `sizeofModel`. -/
def modelUniformAlignment (sizeofModel minUniformBufferOffset : Nat) : Nat :=
  sub64 (add64 sizeofModel minUniformBufferOffset) 1 &&& not64 (sub64 minUniformBufferOffset 1)

/-- The spec's `roundUp(size, a)`: `size` rounded up to a multiple of `a`. -/
def roundUp (size a : Nat) : Nat := (size + a - 1) / a * a

/-! ## Scene data -/

/-- Payload of a `glm::mat4`. The renderer only copies it, so the sixteen
floats are kept as an uninterpreted list of numerals. -/
structure Mat4 where
  entries : List Int
  deriving DecidableEq, Repr

/-- The `struct Model` of Mesh.h: the per-object block. -/
structure Model where
  model : Mat4
  hasTexture : Bool
  deriving DecidableEq, Repr

/-- The fields of `class Mesh` that the renderer reads through its getters;
buffers are handles. -/
structure Mesh where
  model : Model
  texId : Int
  vertexBuffer : Nat
  indexBuffer : Nat
  indexCount : Int
  deriving DecidableEq, Repr

/-- Modelled from the spec: the class `MeshModel` (MeshModel.h is not among the
sources), an aggregate of meshes sharing one transform; `getMeshCount` is the
length of `meshList`, `getMesh k` its `k`-th entry and `getModel` the field
`model`. -/
structure MeshModel where
  meshList : List Mesh
  model : Model
  deriving DecidableEq, Repr

/-! ## The host transfer block -/

/-- The block `modelTransferSpace` as the log of the `Model` stores made into
it, newest first, each with its byte offset from the start of the block. -/
abbrev TransferSpace := List (Nat × Model)

/-- The assignment `*thisModel = m` with `thisModel` at byte offset `off`. -/
def storeModel (mem : TransferSpace) (off : Nat) (m : Model) : TransferSpace :=
  (off, m) :: mem

/-- Reading a `Model` of `sizeofModel` bytes at byte offset `off`. The newest
store that touches `[off, off + sizeofModel)` decides: its value when it began
at `off`, `none` when it overlaps only partly; `none` too when no store
touches the range (the block comes from `_aligned_malloc`, uninitialised). -/
def loadModel (sizeofModel : Nat) : TransferSpace → Nat → Option Model
  | [], _ => none
  | (o, m) :: rest, off =>
    if o = off then some m
    else if o < off + sizeofModel ∧ off < o + sizeofModel then none
    else loadModel sizeofModel rest off

/-- The contents of a per-image dynamic uniform buffer after the `memcpy` of
`bytes` bytes from the start of the transfer block. -/
structure Upload where
  bytes : Nat
  source : TransferSpace
  deriving DecidableEq, Repr

/-- Reading a `Model` at byte offset `off` of an uploaded buffer: defined by
the upload only when the whole block lies in the copied region. -/
def Upload.load (sizeofModel : Nat) (u : Upload) (off : Nat) : Option Model :=
  if off + sizeofModel ≤ u.bytes then loadModel sizeofModel u.source off else none

/-! ## Commands and command buffers -/

inductive Pipeline where
  | offscreen
  | scene
  deriving DecidableEq, Repr

inductive PipelineLayout where
  | offscreenPipelineLayout
  | pipelineLayout
  deriving DecidableEq, Repr

inductive RenderPass where
  | offscreen
  | scene
  | imgui
  deriving DecidableEq, Repr

/-- The framebuffers named by `recordCommands`. -/
inductive Framebuffer where
  | offscreen
  | swapChain (image : Nat)
  | imgui (image : Nat)
  deriving DecidableEq, Repr

/-- The two extents used for viewport and scissor. -/
inductive Extent where
  | shadowMapDim
  | swapChainExtent
  deriving DecidableEq, Repr

/-- The descriptor sets named by `recordCommands`: `descriptorSets[image]`,
`samplerDescriptorSets[texId]` and `shadowSamplerDescriptorSet`. -/
inductive DescriptorSet where
  | sceneUniform (image : Nat)
  | sampler (texId : Int)
  | shadowSampler
  deriving DecidableEq, Repr

/-- The `vkCmd*` calls made by `recordCommands`. -/
inductive Cmd where
  | beginRenderPass (pass : RenderPass) (framebuffer : Framebuffer)
  | setViewport (extent : Extent)
  | setScissor (extent : Extent)
  | setDepthBias
  | bindPipeline (pipeline : Pipeline)
  | bindVertexBuffers (buffer : Nat)
  | bindIndexBuffer (buffer : Nat)
  | bindDescriptorSets (layout : PipelineLayout) (sets : List DescriptorSet) (dynamicOffset : Nat)
  | pushConstants (layout : PipelineLayout) (block : Model)
  | drawIndexed (indexCount : Int)
  | endRenderPass
  | imguiRenderDrawData
  deriving DecidableEq, Repr

inductive BufferState where
  | initial
  | recording
  | executable
  deriving DecidableEq, Repr

/-- A primary command buffer allocated from a pool created with
`VK_COMMAND_POOL_CREATE_RESET_COMMAND_BUFFER_BIT` (see `createCommandPool`). -/
structure CommandBuffer where
  state : BufferState
  cmds : List Cmd
  deriving DecidableEq, Repr

def CommandBuffer.fresh : CommandBuffer := ⟨BufferState.initial, []⟩

/-- The call `vkBeginCommandBuffer`: with the reset bit on the pool, beginning
a buffer resets it, discarding what it held. -/
def CommandBuffer.begin (_b : CommandBuffer) : CommandBuffer := ⟨BufferState.recording, []⟩

/-- Appending recorded commands. -/
def CommandBuffer.record (b : CommandBuffer) (cs : List Cmd) : CommandBuffer :=
  { b with cmds := b.cmds ++ cs }

/-- The call `vkEndCommandBuffer`. -/
def CommandBuffer.finish (b : CommandBuffer) : CommandBuffer :=
  { b with state := BufferState.executable }

/-! ## Results, fences and renderer state -/

/-- The `VkResult` codes that the frame loop can meet. -/
inductive VkResult where
  | success
  | notReady
  | timeout
  | suboptimalKHR
  | errorOutOfDateKHR
  | errorOutOfHostMemory
  | errorOutOfDeviceMemory
  | errorDeviceLost
  | errorSurfaceLostKHR
  deriving DecidableEq, Repr

/-- State of a fence as the host can know it: `pending` is unsignaled with a
queue submission outstanding that signals it on completion. -/
inductive Fence where
  | signaled
  | unsignaled
  | pending
  deriving DecidableEq, Repr

/-- The `std::runtime_error`s that can leave `draw`. -/
inductive DrawError where
  | acquireFailed
  | recordBeginFailed
  | recordEndFailed
  | submitFailed
  | presentFailed
  | recreateFailed
  deriving DecidableEq, Repr

/-- The part of `VulkanRenderer` that the frame loop reads and writes. -/
structure Renderer where
  currentFrame : Nat
  frameBufferResized : Bool
  drawFences : List Fence
  modelList : List MeshModel
  meshList : List Mesh
  modelUniformAlignment : Nat
  modelTransferSpace : TransferSpace
  modelDUniformBufferMemory : List Upload
  commandBuffers : List CommandBuffer
  imguiCommandBuffers : List CommandBuffer
  deriving DecidableEq, Repr

/-! ## updateUniformBuffers -/

/-- Inner loop of `updateUniformBuffers` over the meshes of one model: mesh `j`
is stored at byte offset `j * modelUniformAlignment` and `meshCount` is
incremented. -/
def storeModelMeshes (stride : Nat) :
    List Mesh → Nat → Nat → TransferSpace → Nat × TransferSpace
  | [], _, meshCount, mem => (meshCount, mem)
  | mesh :: rest, j, meshCount, mem =>
    storeModelMeshes stride rest (j + 1) (meshCount + 1)
      (storeModel mem (mul64 j stride) mesh.model)

/-- Outer loop of `updateUniformBuffers` over `modelList`; the inner index
starts at `0` for every model. -/
def storeModels (stride : Nat) : List MeshModel → Nat → TransferSpace → Nat × TransferSpace
  | [], meshCount, mem => (meshCount, mem)
  | thisModel :: rest, meshCount, mem =>
    let p := storeModelMeshes stride thisModel.meshList 0 meshCount mem
    storeModels stride rest p.1 p.2

/-- Loop of `updateUniformBuffers` over `meshList`: mesh `i` is stored at byte
offset `(i + modelMeshCount) * modelUniformAlignment`. -/
def storeMeshes (stride modelMeshCount : Nat) :
    List Mesh → Nat → Nat → TransferSpace → Nat × TransferSpace
  | [], _, meshCount, mem => (meshCount, mem)
  | mesh :: rest, i, meshCount, mem =>
    storeMeshes stride modelMeshCount rest (i + 1) (meshCount + 1)
      (storeModel mem (mul64 (add64 i modelMeshCount) stride) mesh.model)

/-- The model-data part of `updateUniformBuffers(imageIndex)`: the two packing
loops, then the copy of `modelUniformAlignment * meshCount` bytes into the
dynamic uniform buffer of the image. (The view-projection, light and camera
copies write other buffers and are left out.) -/
def updateUniformBuffers (r : Renderer) (imageIndex : Nat) : Renderer :=
  let p := storeModels r.modelUniformAlignment r.modelList 0 r.modelTransferSpace
  let modelMeshCount := p.1
  let q := storeMeshes r.modelUniformAlignment modelMeshCount r.meshList 0 modelMeshCount p.2
  { r with
    modelTransferSpace := q.2
    modelDUniformBufferMemory :=
      r.modelDUniformBufferMemory.set imageIndex ⟨mul64 r.modelUniformAlignment q.1, q.2⟩ }

/-- The drawables of a scene in the order the spec numbers them: the meshes of
the models in iteration order, then the standalone meshes. -/
def drawables (modelList : List MeshModel) (meshList : List Mesh) : List Mesh :=
  (modelList.map MeshModel.meshList).flatten ++ meshList

/-! ## recordCommands -/

/-- The expression `static_cast<uint32_t>(modelUniformAlignment) * j` assigned
to the `uint32_t dynamicOffset`. -/
def dynamicOffset (stride j : Nat) : Nat := toU32 (mul64 (toU32 stride) j)

/-- Body of the shadow-pass loops for one mesh: bind buffers, bind the single
scene-uniform set with the dynamic offset, push the block, draw. -/
def shadowDraw (currentImage offset : Nat) (block : Model) (mesh : Mesh) : List Cmd :=
  [Cmd.bindVertexBuffers mesh.vertexBuffer,
   Cmd.bindIndexBuffer mesh.indexBuffer,
   Cmd.bindDescriptorSets PipelineLayout.offscreenPipelineLayout
     [DescriptorSet.sceneUniform currentImage] offset,
   Cmd.pushConstants PipelineLayout.offscreenPipelineLayout block,
   Cmd.drawIndexed mesh.indexCount]

/-- Shadow pass, inner loop `k` over the meshes of `modelList[j]`. -/
def shadowModelMeshes (stride currentImage j : Nat) (thisModel : MeshModel) :
    List Mesh → List Cmd
  | [] => []
  | mesh :: rest =>
    shadowDraw currentImage (dynamicOffset stride j) thisModel.model mesh
      ++ shadowModelMeshes stride currentImage j thisModel rest

/-- Shadow pass, outer loop `j` over `modelList`. -/
def shadowModels (stride currentImage : Nat) : List MeshModel → Nat → List Cmd
  | [], _ => []
  | thisModel :: rest, j =>
    shadowModelMeshes stride currentImage j thisModel thisModel.meshList
      ++ shadowModels stride currentImage rest (j + 1)

/-- Shadow pass, loop `j` over `meshList`. -/
def shadowMeshes (stride currentImage : Nat) : List Mesh → Nat → List Cmd
  | [], _ => []
  | thisMesh :: rest, j =>
    shadowDraw currentImage (dynamicOffset stride j) thisMesh.model thisMesh
      ++ shadowMeshes stride currentImage rest (j + 1)

/-- Everything recorded between the first `vkBeginCommandBuffer` and
`vkEndCommandBuffer`: the offscreen shadow pass. -/
def shadowPass (r : Renderer) (currentImage : Nat) : List Cmd :=
  [Cmd.beginRenderPass RenderPass.offscreen Framebuffer.offscreen,
   Cmd.setViewport Extent.shadowMapDim,
   Cmd.setScissor Extent.shadowMapDim,
   Cmd.setDepthBias,
   Cmd.bindPipeline Pipeline.offscreen]
  ++ shadowModels r.modelUniformAlignment currentImage r.modelList 0
  ++ shadowMeshes r.modelUniformAlignment currentImage r.meshList 0
  ++ [Cmd.endRenderPass]

/-- Scene pass, body of the inner loop for mesh `k` of `modelList[j]`: three
descriptor sets, the middle one indexed by the mesh's texture id. -/
def sceneModelDraw (currentImage offset : Nat) (thisModel : MeshModel) (mesh : Mesh) :
    List Cmd :=
  [Cmd.bindVertexBuffers mesh.vertexBuffer,
   Cmd.bindIndexBuffer mesh.indexBuffer,
   Cmd.bindDescriptorSets PipelineLayout.pipelineLayout
     [DescriptorSet.sceneUniform currentImage, DescriptorSet.sampler mesh.texId,
      DescriptorSet.shadowSampler] offset,
   Cmd.pushConstants PipelineLayout.pipelineLayout thisModel.model,
   Cmd.drawIndexed mesh.indexCount]

/-- Scene pass, inner loop `k` over the meshes of `modelList[j]`. -/
def sceneModelMeshes (stride currentImage j : Nat) (thisModel : MeshModel) :
    List Mesh → List Cmd
  | [] => []
  | mesh :: rest =>
    sceneModelDraw currentImage (dynamicOffset stride j) thisModel mesh
      ++ sceneModelMeshes stride currentImage j thisModel rest

/-- Scene pass, outer loop `j` over `modelList`. -/
def sceneModels (stride currentImage : Nat) : List MeshModel → Nat → List Cmd
  | [], _ => []
  | thisModel :: rest, j =>
    sceneModelMeshes stride currentImage j thisModel thisModel.meshList
      ++ sceneModels stride currentImage rest (j + 1)

/-- Scene pass, body of the loop over `meshList`: the branch on
`thisModel.hasTexture` chooses between three sets and two. -/
def sceneMeshDraw (currentImage offset : Nat) (thisMesh : Mesh) : List Cmd :=
  [Cmd.bindVertexBuffers thisMesh.vertexBuffer,
   Cmd.bindIndexBuffer thisMesh.indexBuffer,
   (if thisMesh.model.hasTexture then
      Cmd.bindDescriptorSets PipelineLayout.pipelineLayout
        [DescriptorSet.sceneUniform currentImage, DescriptorSet.sampler thisMesh.texId,
         DescriptorSet.shadowSampler] offset
    else
      Cmd.bindDescriptorSets PipelineLayout.pipelineLayout
        [DescriptorSet.sceneUniform currentImage, DescriptorSet.shadowSampler] offset),
   Cmd.pushConstants PipelineLayout.pipelineLayout thisMesh.model,
   Cmd.drawIndexed thisMesh.indexCount]

/-- Scene pass, loop `j` over `meshList`. -/
def sceneMeshes (stride currentImage : Nat) : List Mesh → Nat → List Cmd
  | [], _ => []
  | thisMesh :: rest, j =>
    sceneMeshDraw currentImage (dynamicOffset stride j) thisMesh
      ++ sceneMeshes stride currentImage rest (j + 1)

/-- Everything recorded between the second `vkBeginCommandBuffer` and
`vkEndCommandBuffer`: the scene pass. -/
def scenePass (r : Renderer) (currentImage : Nat) : List Cmd :=
  [Cmd.beginRenderPass RenderPass.scene (Framebuffer.swapChain currentImage),
   Cmd.setViewport Extent.swapChainExtent,
   Cmd.setScissor Extent.swapChainExtent,
   Cmd.bindPipeline Pipeline.scene]
  ++ sceneModels r.modelUniformAlignment currentImage r.modelList 0
  ++ sceneMeshes r.modelUniformAlignment currentImage r.meshList 0
  ++ [Cmd.endRenderPass]

/-- Everything recorded into `imguiCommandBuffers[currentImage]`. -/
def overlayPass (currentImage : Nat) : List Cmd :=
  [Cmd.beginRenderPass RenderPass.imgui (Framebuffer.imgui currentImage),
   Cmd.imguiRenderDrawData,
   Cmd.endRenderPass]

/-- Results returned by the six begin/end calls of `recordCommands`. -/
structure RecordResults where
  offscreenBegin : VkResult
  offscreenEnd : VkResult
  sceneBegin : VkResult
  sceneEnd : VkResult
  imguiBegin : VkResult
  imguiEnd : VkResult
  deriving DecidableEq, Repr

/-- Applying `f` to entry `i` of a vector of command buffers. -/
def onBuffer (bs : List CommandBuffer) (i : Nat) (f : CommandBuffer → CommandBuffer) :
    List CommandBuffer :=
  bs.set i (f (bs.getD i CommandBuffer.fresh))

/-- The function `recordCommands(currentImage)`. The shadow pass and the scene
pass are both recorded into `commandBuffers[currentImage]`, the overlay into
`imguiCommandBuffers[currentImage]`. The result is the state reached and the
error thrown, if any. -/
def recordCommands (r : Renderer) (currentImage : Nat) (res : RecordResults) :
    Renderer × Option DrawError :=
  if res.offscreenBegin ≠ VkResult.success then (r, some DrawError.recordBeginFailed) else
  let shadow := fun (b : CommandBuffer) => b.begin.record (shadowPass r currentImage)
  let r1 := { r with commandBuffers := onBuffer r.commandBuffers currentImage shadow }
  if res.offscreenEnd ≠ VkResult.success then (r1, some DrawError.recordEndFailed) else
  let finish := CommandBuffer.finish
  let r2 := { r1 with commandBuffers := onBuffer r1.commandBuffers currentImage finish }
  if res.sceneBegin ≠ VkResult.success then (r2, some DrawError.recordBeginFailed) else
  let scene := fun (b : CommandBuffer) => b.begin.record (scenePass r currentImage)
  let r3 := { r2 with commandBuffers := onBuffer r2.commandBuffers currentImage scene }
  if res.sceneEnd ≠ VkResult.success then (r3, some DrawError.recordEndFailed) else
  let r4 := { r3 with commandBuffers := onBuffer r3.commandBuffers currentImage finish }
  if res.imguiBegin ≠ VkResult.success then (r4, some DrawError.recordBeginFailed) else
  let overlay := fun (b : CommandBuffer) => b.begin.record (overlayPass currentImage)
  let r5 := { r4 with imguiCommandBuffers := onBuffer r4.imguiCommandBuffers currentImage overlay }
  if res.imguiEnd ≠ VkResult.success then (r5, some DrawError.recordEndFailed) else
  ({ r5 with imguiCommandBuffers := onBuffer r5.imguiCommandBuffers currentImage finish }, none)

/-- The descriptor-set groups of the `vkCmdBindDescriptorSets` calls of a
command list, in order. -/
def boundSets : List Cmd → List (List DescriptorSet)
  | [] => []
  | Cmd.bindDescriptorSets _ sets _ :: rest => sets :: boundSets rest
  | _ :: rest => boundSets rest

/-- The dynamic offsets of the `vkCmdBindDescriptorSets` calls of a command
list, in order. -/
def boundOffsets : List Cmd → List Nat
  | [] => []
  | Cmd.bindDescriptorSets _ _ off :: rest => off :: boundOffsets rest
  | _ :: rest => boundOffsets rest

/-! ## Synchronisation objects and the frame loop -/

/-- The semaphores `imageAvailable[slot]` and `renderFinished[slot]`. -/
inductive Semaphore where
  | imageAvailable (slot : Nat)
  | renderFinished (slot : Nat)
  deriving DecidableEq, Repr

/-- The command buffers `commandBuffers[image]` and `imguiCommandBuffers[image]`. -/
inductive CommandBufferRef where
  | commandBuffers (image : Nat)
  | imguiCommandBuffers (image : Nat)
  deriving DecidableEq, Repr

inductive PipelineStage where
  | colorAttachmentOutput
  deriving DecidableEq, Repr

/-- The `VkSubmitInfo` batch built by `draw`. -/
structure SubmitInfo where
  waitSemaphores : List Semaphore
  waitDstStageMask : List PipelineStage
  commandBuffers : List CommandBufferRef
  signalSemaphores : List Semaphore
  deriving DecidableEq, Repr

/-- The calls that `draw` makes, in the order they return. A
`waitForFences` entry is a wait that completed. -/
inductive Event where
  | waitForFences (fence : Nat)
  | resetFences (fence : Nat)
  | acquireNextImage (semaphore : Semaphore)
  | recreateSwapChain
  | updateUniformBuffers (image : Nat)
  | recordCommands (image : Nat)
  | queueSubmit (batches : List SubmitInfo) (fence : Nat)
  | queuePresent (waitSemaphores : List Semaphore) (image : Nat)
  deriving DecidableEq, Repr

/-- How a call of `draw` ends: it returns, it throws, or it never comes back
from `vkWaitForFences` (the timeout is the largest 64-bit value). -/
inductive Outcome where
  | returned
  | raised (error : DrawError)
  | blocked
  deriving DecidableEq, Repr

/-- What the driver and the window system answer during one call of `draw`.
`resizedDuringFrame` says whether the resize callback ran between the two
checkpoints; `recreate` is `none` when something inside `recreateSwapChain`
throws and otherwise the image count of the new swapchain. -/
structure DrawEnv where
  acquireResult : VkResult
  imageIndex : Nat
  recordResults : RecordResults
  submitResult : VkResult
  resizedDuringFrame : Bool
  presentResult : VkResult
  recreate : Option Nat
  deriving DecidableEq, Repr

/-- The result of a call of `draw`: how it ended, the state it left and the
calls it made. -/
structure DrawResult where
  outcome : Outcome
  state : Renderer
  trace : List Event
  deriving DecidableEq, Repr

/-- Effect of `vkDeviceWaitIdle` on a fence: outstanding work completes. -/
def Fence.afterIdle : Fence → Fence
  | Fence.pending => Fence.signaled
  | f => f

/-- The part of `createSynchronisation` that concerns fences: `MAX_FRAME_DRAWS`
fences, each created with `VK_FENCE_CREATE_SIGNALED_BIT`. `created i` says
whether the three creation calls of iteration `i` succeed; when one fails the
function throws (`none`). -/
def createSynchronisation (MAX_FRAME_DRAWS : Nat) (created : Nat → Bool) (r : Renderer) :
    Option Renderer :=
  if (List.range MAX_FRAME_DRAWS).all created then
    some { r with drawFences := List.replicate MAX_FRAME_DRAWS Fence.signaled }
  else none

/-- The effect of a completed `recreateSwapChain` on the state kept here:
`cleanupSwapChain` waits for the device to be idle and frees the command
buffers, `createCommandBuffers` allocates one scene and one overlay buffer per
image of the new swapchain, `imageCount` of them. The wait for a framebuffer
of non-zero size at its start is taken to end. -/
def recreateSwapChain (r : Renderer) (imageCount : Nat) : Renderer :=
  { r with
    drawFences := r.drawFences.map Fence.afterIdle
    commandBuffers := List.replicate imageCount CommandBuffer.fresh
    imguiCommandBuffers := List.replicate imageCount CommandBuffer.fresh }

/-- The submit batch of `draw` for frame slot `slot` and image `image`. -/
def submitInfo (slot image : Nat) : SubmitInfo :=
  { waitSemaphores := [Semaphore.imageAvailable slot]
    waitDstStageMask := [PipelineStage.colorAttachmentOutput]
    commandBuffers := [CommandBufferRef.commandBuffers image,
      CommandBufferRef.imguiCommandBuffers image]
    signalSemaphores := [Semaphore.renderFinished slot] }

/-- The tail of `draw` from `vkQueuePresentKHR` on, entered with the state
`r` after a successful submit and the trace `t` so far. `MAX_FRAME_DRAWS` is a
constant of Utilities.h, which is not among the sources, and is a parameter;
the last statement, `currentFrame = (currentFrame + 1) % MAX_FRAME_DRAWS`, is
defined in C++ only for a positive value. -/
def drawPresent (MAX_FRAME_DRAWS : Nat) (r : Renderer) (env : DrawEnv) (t : List Event) :
    DrawResult :=
  let slot := r.currentFrame
  let t1 := t ++ [Event.queuePresent [Semaphore.renderFinished slot] env.imageIndex]
  let r1 := { r with frameBufferResized := r.frameBufferResized || env.resizedDuringFrame }
  if env.presentResult = VkResult.errorOutOfDateKHR ∨ env.presentResult = VkResult.suboptimalKHR
      ∨ r1.frameBufferResized = true then
    let r2 := { r1 with frameBufferResized := false }
    match env.recreate with
    | none => ⟨Outcome.raised DrawError.recreateFailed, r2, t1 ++ [Event.recreateSwapChain]⟩
    | some n =>
      ⟨Outcome.returned,
        { recreateSwapChain r2 n with currentFrame := (slot + 1) % MAX_FRAME_DRAWS },
        t1 ++ [Event.recreateSwapChain]⟩
  else if env.presentResult ≠ VkResult.success then
    ⟨Outcome.raised DrawError.presentFailed, r1, t1⟩
  else
    ⟨Outcome.returned, { r1 with currentFrame := (slot + 1) % MAX_FRAME_DRAWS }, t1⟩

/-- The part of `draw` after a usable image was acquired: upload, record,
submit, then `drawPresent`. The assignments to `uboViewProjection` made before
the upload change no state kept here and are left out. A submit that succeeds
leaves the fence of the slot pending. -/
def drawFrame (MAX_FRAME_DRAWS : Nat) (r : Renderer) (env : DrawEnv) (t : List Event) :
    DrawResult :=
  let slot := r.currentFrame
  let r1 := updateUniformBuffers r env.imageIndex
  let t1 := t ++ [Event.updateUniformBuffers env.imageIndex, Event.recordCommands env.imageIndex]
  match recordCommands r1 env.imageIndex env.recordResults with
  | (r2, some e) => ⟨Outcome.raised e, r2, t1⟩
  | (r2, none) =>
    let t2 := t1 ++ [Event.queueSubmit [submitInfo slot env.imageIndex] slot]
    if env.submitResult ≠ VkResult.success then
      ⟨Outcome.raised DrawError.submitFailed, r2, t2⟩
    else
      drawPresent MAX_FRAME_DRAWS
        { r2 with drawFences := r2.drawFences.set slot Fence.pending } env t2

/-- The part of `draw` after `vkWaitForFences` has returned: the fence is
reset, an image is acquired with the slot's semaphore, and the result and the
resize flag decide between rebuilding and returning, throwing, and drawing. -/
def drawAfterWait (MAX_FRAME_DRAWS : Nat) (r : Renderer) (env : DrawEnv) : DrawResult :=
  let slot := r.currentFrame
  let r1 := { r with drawFences := r.drawFences.set slot Fence.unsignaled }
  let t1 := [Event.waitForFences slot, Event.resetFences slot,
    Event.acquireNextImage (Semaphore.imageAvailable slot)]
  if env.acquireResult = VkResult.errorOutOfDateKHR ∨ r1.frameBufferResized = true then
    let r2 := { r1 with frameBufferResized := false }
    match env.recreate with
    | none => ⟨Outcome.raised DrawError.recreateFailed, r2, t1 ++ [Event.recreateSwapChain]⟩
    | some n => ⟨Outcome.returned, recreateSwapChain r2 n, t1 ++ [Event.recreateSwapChain]⟩
  else if env.acquireResult ≠ VkResult.success ∧ env.acquireResult ≠ VkResult.suboptimalKHR then
    ⟨Outcome.raised DrawError.acquireFailed, r1, t1⟩
  else
    drawFrame MAX_FRAME_DRAWS r1 env t1

/-- The function `draw`. It first waits, without a time limit, for the fence
of the current slot: a fence that is unsignaled with no submission outstanding
is never signaled and the call does not come back. -/
def draw (MAX_FRAME_DRAWS : Nat) (r : Renderer) (env : DrawEnv) : DrawResult :=
  match r.drawFences.getD r.currentFrame Fence.unsignaled with
  | Fence.unsignaled => ⟨Outcome.blocked, r, []⟩
  | _ => drawAfterWait MAX_FRAME_DRAWS r env

/-- Whether a call of `draw` entered in state `r` takes the branch that
rebuilds and returns right after acquisition. -/
def abortsAtAcquisition (r : Renderer) (env : DrawEnv) : Bool :=
  decide (env.acquireResult = VkResult.errorOutOfDateKHR) || r.frameBufferResized

/-- One turn of the application's loop before it calls `draw`: events are
polled (`resized` says whether the resize callback fired) and the application
may have replaced the scene. -/
structure FrameInput where
  resized : Bool
  modelList : List MeshModel
  meshList : List Mesh
  env : DrawEnv
  deriving DecidableEq, Repr

/-- The state in which `draw` is entered for a turn of the loop. -/
def FrameInput.enter (inp : FrameInput) (r : Renderer) : Renderer :=
  { r with
    frameBufferResized := r.frameBufferResized || inp.resized
    modelList := inp.modelList
    meshList := inp.meshList }

/-- A call of `draw` in the loop: the state at entry, the answers it got and
its result. -/
structure FrameRecord where
  entry : Renderer
  env : DrawEnv
  result : DrawResult
  deriving DecidableEq, Repr

/-- The frame slot used by a call. -/
def FrameRecord.slot (f : FrameRecord) : Nat := f.entry.currentFrame

/-- The application's loop: `draw` is called once per turn for as long as it
returns; a call that throws or blocks is the last one. -/
def drawLoop (MAX_FRAME_DRAWS : Nat) : Renderer → List FrameInput → List FrameRecord
  | _, [] => []
  | r, inp :: rest =>
    let entry := inp.enter r
    let res := draw MAX_FRAME_DRAWS entry inp.env
    match res.outcome with
    | Outcome.returned => ⟨entry, inp.env, res⟩ :: drawLoop MAX_FRAME_DRAWS res.state rest
    | _ => [⟨entry, inp.env, res⟩]

/-- Whether an event is a queue submission. -/
def Event.isSubmit : Event → Bool
  | Event.queueSubmit _ _ => true
  | _ => false

/-- Whether an event is a present. -/
def Event.isPresent : Event → Bool
  | Event.queuePresent _ _ => true
  | _ => false

/-- Relation between the fences before and after a call that works on frame
slot `slot`: as many fences, and every fence of another slot that was signaled
still is. -/
def FencesKept (slot : Nat) (before after : List Fence) : Prop :=
  after.length = before.length
  ∧ ∀ j, j ≠ slot → before.getD j Fence.unsignaled = Fence.signaled →
      after.getD j Fence.unsignaled = Fence.signaled

/-! ## Example scenes -/

/-- A mesh with the given payload, texture flag and handles. -/
def exampleMesh (tag : Int) (hasTexture : Bool) (texId : Int) (buffer : Nat) : Mesh :=
  { model := ⟨⟨[tag]⟩, hasTexture⟩, texId := texId, vertexBuffer := buffer,
    indexBuffer := buffer + 1, indexCount := 3 }

/-- A renderer after init for a device whose minimum uniform offset alignment
is 256 and a swapchain of one image, with the given scene: `sizeof(Model)` is
68 (a 64-byte matrix, a `bool`, padded to a multiple of 4), so the stride is
`modelUniformAlignment 68 256`. -/
def exampleRenderer (modelList : List MeshModel) (meshList : List Mesh) : Renderer :=
  { currentFrame := 0
    frameBufferResized := false
    drawFences := [Fence.signaled, Fence.signaled]
    modelList := modelList
    meshList := meshList
    modelUniformAlignment := modelUniformAlignment 68 256
    modelTransferSpace := []
    modelDUniformBufferMemory := [⟨0, []⟩]
    commandBuffers := [CommandBuffer.fresh]
    imguiCommandBuffers := [CommandBuffer.fresh] }

/-- Two models of one mesh each, with different transforms. -/
def twoModelScene : Renderer :=
  exampleRenderer
    [⟨[exampleMesh 1 true 0 10], ⟨⟨[1]⟩, true⟩⟩, ⟨[exampleMesh 2 true 0 20], ⟨⟨[2]⟩, true⟩⟩] []

/-- One model of one mesh and one standalone mesh. -/
def modelAndMeshScene : Renderer :=
  exampleRenderer [⟨[exampleMesh 1 true 0 10], ⟨⟨[1]⟩, true⟩⟩] [exampleMesh 2 true 0 20]

/-- One standalone triangle mesh with no texture. -/
def triangleScene : Renderer :=
  exampleRenderer [] [exampleMesh 1 false 0 10]

/-- One model of two meshes. -/
def twoMeshModelScene : Renderer :=
  exampleRenderer [⟨[exampleMesh 1 true 0 10, exampleMesh 2 true 0 20], ⟨⟨[1]⟩, true⟩⟩] []

/-- Every begin and end call of `recordCommands` succeeds. -/
def recordOk : RecordResults :=
  ⟨VkResult.success, VkResult.success, VkResult.success, VkResult.success,
   VkResult.success, VkResult.success⟩

/-- Answers of a frame in which everything succeeds and image `image` is
acquired; a rebuild, if one is made, yields one image. -/
def frameOk (image : Nat) : DrawEnv :=
  { acquireResult := VkResult.success
    imageIndex := image
    recordResults := recordOk
    submitResult := VkResult.success
    resizedDuringFrame := false
    presentResult := VkResult.success
    recreate := some 1 }

/-- Simulated surface loss: acquisition answers out-of-date. -/
def staleAcquire : DrawEnv :=
  { frameOk 0 with acquireResult := VkResult.errorOutOfDateKHR }

/-- A turn of the loop with no resize, an empty scene and every call
succeeding, acquiring image 0. -/
def plainFrame : FrameInput :=
  { resized := false, modelList := [], meshList := [], env := frameOk 0 }

/-- A frame that is drawn and whose present answers suboptimal. -/
def suboptimalPresent : DrawEnv :=
  { frameOk 0 with presentResult := VkResult.suboptimalKHR }

/-! ## Device selection -/

/-- The value `VK_TRUE` of a `VkBool32`. -/
def VK_TRUE : Nat := 1

/-- The bit `VK_QUEUE_GRAPHICS_BIT` of `VkQueueFlags`. -/
def VK_QUEUE_GRAPHICS_BIT : Nat := 1

/-- What the driver reports for one queue family of a device:
`VkQueueFamilyProperties` and the `VkBool32` that
`vkGetPhysicalDeviceSurfaceSupportKHR` writes for the family and the surface. -/
structure QueueFamily where
  queueCount : Nat
  queueFlags : Nat
  presentationSupport : Nat
  deriving DecidableEq, Repr

/-- Modelled from the spec: the struct `QueueFamilyIndicies` of Utilities.h
(not among the sources), the index of the graphics-capable and of the
presentation-capable queue family found, `-1` while none is found; it is valid
when both are found. -/
structure QueueFamilyIndicies where
  graphicsFamily : Int
  presentationFamily : Int
  deriving DecidableEq, Repr

/-- Modelled from the spec: `QueueFamilyIndicies::isValid` of Utilities.h (not
among the sources): both families have been found. -/
def QueueFamilyIndicies.isValid (indicies : QueueFamilyIndicies) : Bool :=
  decide (0 ≤ indicies.graphicsFamily) && decide (0 ≤ indicies.presentationFamily)

/-- A `VkSurfaceFormatKHR`: the enum values of `VkFormat` and `VkColorSpaceKHR`. -/
structure VkSurfaceFormatKHR where
  format : Nat
  colorSpace : Nat
  deriving DecidableEq, Repr

def VK_FORMAT_UNDEFINED : Nat := 0

def VK_FORMAT_R5G6B5_UNORM_PACK16 : Nat := 4

def VK_FORMAT_R8G8B8A8_UNORM : Nat := 37

def VK_FORMAT_B8G8R8A8_UNORM : Nat := 44

def VK_COLOR_SPACE_SRGB_NONLINEAR_KHR : Nat := 0

/-- The presentation modes of `VkPresentModeKHR`. -/
inductive VkPresentModeKHR where
  | immediate
  | mailbox
  | fifo
  | fifoRelaxed
  deriving DecidableEq, Repr

structure VkExtent2D where
  width : Nat
  height : Nat
  deriving DecidableEq, Repr

/-- The fields of `VkSurfaceCapabilitiesKHR` that the renderer reads, all
`uint32_t`. -/
structure VkSurfaceCapabilitiesKHR where
  minImageCount : Nat
  maxImageCount : Nat
  currentExtent : VkExtent2D
  minImageExtent : VkExtent2D
  maxImageExtent : VkExtent2D
  deriving DecidableEq, Repr

/-- Modelled from the spec: the struct `SwapChainDetails` of Utilities.h (not
among the sources), with the three fields the renderer reads: the surface
capabilities, the available surface formats and the available presentation
modes. -/
structure SwapChainDetails where
  surfaceCapabilities : VkSurfaceCapabilitiesKHR
  formats : List VkSurfaceFormatKHR
  presentationMode : List VkPresentModeKHR
  deriving DecidableEq, Repr

/-- What the driver answers about one physical device and the surface: its
queue families, the names of its device extensions, the result of
`getSwapChainDetails`, the feature `samplerAnisotropy` (a `VkBool32`) and the
limit `minUniformBufferOffsetAlignment`. -/
structure PhysicalDevice where
  queueFamilies : List QueueFamily
  extensions : List String
  swapChainDetails : SwapChainDetails
  samplerAnisotropy : Nat
  minUniformBufferOffsetAlignment : Nat
  deriving DecidableEq, Repr

/-- The loop of `getQueueFamilies` from family `i` on: a family with queues and
the graphics bit sets `graphicsFamily`, a family with queues and presentation
support sets `presentationFamily`, and the loop stops as soon as both are set. -/
def getQueueFamiliesFrom : List QueueFamily → Int → QueueFamilyIndicies → QueueFamilyIndicies
  | [], _, indicies => indicies
  | queueFamily :: rest, i, indicies =>
    let a : QueueFamilyIndicies :=
      if 0 < queueFamily.queueCount ∧ queueFamily.queueFlags &&& VK_QUEUE_GRAPHICS_BIT ≠ 0 then
        { indicies with graphicsFamily := i }
      else indicies
    let b : QueueFamilyIndicies :=
      if 0 < queueFamily.queueCount ∧ queueFamily.presentationSupport = VK_TRUE then
        { a with presentationFamily := i }
      else a
    if b.isValid then b else getQueueFamiliesFrom rest (i + 1) b

/-- The function `getQueueFamilies`. -/
def getQueueFamilies (device : PhysicalDevice) : QueueFamilyIndicies :=
  getQueueFamiliesFrom device.queueFamilies 0 ⟨-1, -1⟩

/-- The function `checkDeviceExtensionSupport`; `deviceExtensions` is the list
of required names of Utilities.h, which is not among the sources. -/
def checkDeviceExtensionSupport (deviceExtensions : List String) (device : PhysicalDevice) :
    Bool :=
  if device.extensions.length = 0 then false
  else deviceExtensions.all fun deviceExtension =>
    device.extensions.any fun extension => decide (extension = deviceExtension)

/-- The function `getSwapChainDetails`. -/
def getSwapChainDetails (device : PhysicalDevice) : SwapChainDetails :=
  device.swapChainDetails

/-- The function `checkDeviceSuitable`. Its last line is
`indicies.isValid() && extensionsSupported && swapChainValid & deviceFeatures.samplerAnisotropy`,
where `&` binds tighter than `&&` and works on the integer values. -/
def checkDeviceSuitable (deviceExtensions : List String) (device : PhysicalDevice) : Bool :=
  let indicies := getQueueFamilies device
  let extensionsSupported := checkDeviceExtensionSupport deviceExtensions device
  let swapChainValid :=
    if extensionsSupported then
      !(getSwapChainDetails device).presentationMode.isEmpty
        && !(getSwapChainDetails device).formats.isEmpty
    else false
  indicies.isValid && extensionsSupported
    && decide ((if swapChainValid then 1 else 0) &&& device.samplerAnisotropy ≠ 0)

/-- The calls that `init` and `recreateSwapChain` make, one after the other. -/
inductive InitStep where
  | createInstance
  | setupDebugMessenger
  | createSurface
  | getPhysicalDevice
  | createLogicalDevice
  | createCommandPool
  | createSwapChain
  | createDepthStencil
  | createColourImage
  | createRenderPass
  | createOffscreenRenderPass
  | createImguiRenderPass
  | createDescriptorSetLayout
  | createPushConstantRange
  | createGraphicsPipeline
  | createFrameBuffers
  | createOffscreenFrameBuffer
  | allocateDynamicBufferTransferSpace
  | createUniformBuffers
  | createCommandBuffers
  | createTextureSampler
  | createDescriptorPool
  | createDescriptorSets
  | createSynchronisation
  | createImguiContext
  deriving DecidableEq, Repr

/-- The errors thrown during start-up and rebuild: the one of
`getPhysicalDevice` for an empty device list, and the `std::runtime_error` of
any other step. -/
inductive InitError where
  | noVulkanDevice
  | stepFailed (step : InitStep)
  deriving DecidableEq, Repr

/-- What `getPhysicalDevice` leaves behind when it returns:
`mainDevice.physicalDevice` (`none` when the loop assigned nothing) and
`minUniformBufferOffset`, read from the properties of that device. -/
structure DeviceSelection where
  physicalDevice : Option PhysicalDevice
  minUniformBufferOffset : Option Nat
  deriving DecidableEq, Repr

/-- The loop of `getPhysicalDevice`: the first suitable device, if any. -/
def firstSuitable (deviceExtensions : List String) : List PhysicalDevice → Option PhysicalDevice
  | [] => none
  | device :: rest =>
    if checkDeviceSuitable deviceExtensions device then some device
    else firstSuitable deviceExtensions rest

/-- The function `getPhysicalDevice`: it throws when no device is enumerated,
and otherwise runs the loop and reads the properties of
`mainDevice.physicalDevice`. -/
def getPhysicalDevice (deviceExtensions : List String) (deviceList : List PhysicalDevice) :
    Except InitError DeviceSelection :=
  if deviceList.length = 0 then Except.error InitError.noVulkanDevice
  else
    let selected := firstSuitable deviceExtensions deviceList
    Except.ok ⟨selected, selected.map PhysicalDevice.minUniformBufferOffsetAlignment⟩

/-- The spec's suitability of a device: a graphics-capable queue family, a
presentation-capable queue family, every required extension, at least one
surface format and one presentation mode, and anisotropic sampling. -/
def Suitable (deviceExtensions : List String) (device : PhysicalDevice) : Prop :=
  (∃ q ∈ device.queueFamilies, 0 < q.queueCount ∧ q.queueFlags &&& VK_QUEUE_GRAPHICS_BIT ≠ 0)
  ∧ (∃ q ∈ device.queueFamilies, 0 < q.queueCount ∧ q.presentationSupport = VK_TRUE)
  ∧ (∀ e ∈ deviceExtensions, e ∈ device.extensions)
  ∧ device.swapChainDetails.formats ≠ []
  ∧ device.swapChainDetails.presentationMode ≠ []
  ∧ device.samplerAnisotropy = VK_TRUE

/-! ## Swapchain settings -/

/-- The loop of `chooseBestSurfaceFormat`. Its test is
`(format.format == VK_FORMAT_R8G8B8A8_UNORM || VK_FORMAT_B8G8R8A8_UNORM)
&& format.colorSpace == VK_COLOR_SPACE_SRGB_NONLINEAR_KHR`: the second operand
of `||` is the enum constant itself, converted to `bool`. -/
def firstOptimalFormat : List VkSurfaceFormatKHR → Option VkSurfaceFormatKHR
  | [] => none
  | format :: rest =>
    if (decide (format.format = VK_FORMAT_R8G8B8A8_UNORM)
          || decide (VK_FORMAT_B8G8R8A8_UNORM ≠ 0))
        && decide (format.colorSpace = VK_COLOR_SPACE_SRGB_NONLINEAR_KHR) then
      some format
    else firstOptimalFormat rest

/-- The function `chooseBestSurfaceFormat`; `none` stands for the read of
`formats[0]` in an empty vector. -/
def chooseBestSurfaceFormat (formats : List VkSurfaceFormatKHR) : Option VkSurfaceFormatKHR :=
  if formats.length = 1 ∧ (formats.map VkSurfaceFormatKHR.format).head? = some VK_FORMAT_UNDEFINED
  then some ⟨VK_FORMAT_R8G8B8A8_UNORM, VK_COLOR_SPACE_SRGB_NONLINEAR_KHR⟩
  else
    match firstOptimalFormat formats with
    | some format => some format
    | none => formats.head?

/-- The entry the claim describes: the first one whose format is
`R8G8B8A8_UNORM` or `B8G8R8A8_UNORM` and whose colour space is sRGB-nonlinear. -/
def firstPreferredFormat (formats : List VkSurfaceFormatKHR) : Option VkSurfaceFormatKHR :=
  formats.find? fun f =>
    (decide (f.format = VK_FORMAT_R8G8B8A8_UNORM) || decide (f.format = VK_FORMAT_B8G8R8A8_UNORM))
      && decide (f.colorSpace = VK_COLOR_SPACE_SRGB_NONLINEAR_KHR)

/-- The function `chooseBestPresentationMode`. -/
def chooseBestPresentationMode : List VkPresentModeKHR → VkPresentModeKHR
  | [] => VkPresentModeKHR.fifo
  | presentationMode :: rest =>
    if presentationMode = VkPresentModeKHR.mailbox then presentationMode
    else chooseBestPresentationMode rest

/-- Conversion `static_cast<uint32_t>(x)` of an `int`. -/
def intToU32 (x : Int) : Nat := (x % 2 ^ 32).toNat

/-- The function `chooseSwapExtent`; `framebufferSize` is the answer of
`glfwGetFramebufferSize`. -/
def chooseSwapExtent (surfaceCapabilities : VkSurfaceCapabilitiesKHR)
    (framebufferSize : Int × Int) : VkExtent2D :=
  if surfaceCapabilities.currentExtent.width ≠ 2 ^ 32 - 1 then
    surfaceCapabilities.currentExtent
  else
    { width := max surfaceCapabilities.minImageExtent.width
        (min surfaceCapabilities.maxImageExtent.width (intToU32 framebufferSize.1))
      height := max surfaceCapabilities.minImageExtent.height
        (min surfaceCapabilities.maxImageExtent.height (intToU32 framebufferSize.2)) }

/-- The image count that `createSwapChain` puts into
`swapChainCreateInfo.minImageCount`. -/
def requestedImageCount (surfaceCapabilities : VkSurfaceCapabilitiesKHR) : Nat :=
  let imageCount := toU32 (surfaceCapabilities.minImageCount + 1)
  if 0 < surfaceCapabilities.maxImageCount ∧ surfaceCapabilities.maxImageCount < imageCount then
    surfaceCapabilities.maxImageCount
  else imageCount

/-! ## Start-up and swapchain rebuild -/

/-- The per-image vectors of `VulkanRenderer`, each kept as its size, with the
extent and the image format chosen for the swapchain. The memory vector beside
each uniform-buffer vector is resized with it and is not listed. -/
structure Resources where
  swapChainImages : Nat
  swapChainExtent : VkExtent2D
  swapChainImageFormat : Option Nat
  swapChainFramebuffers : Nat
  imguiFrameBuffers : Nat
  commandBuffers : Nat
  imguiCommandBuffers : Nat
  vpUniformBuffer : Nat
  modelDUniformBuffer : Nat
  directionalLightUniformBuffer : Nat
  cameraPositionUniformBuffer : Nat
  descriptorSets : Nat
  deriving DecidableEq, Repr

/-- The vectors of a renderer that has just been constructed: all empty. -/
def Resources.fresh : Resources :=
  { swapChainImages := 0, swapChainExtent := ⟨0, 0⟩, swapChainImageFormat := none,
    swapChainFramebuffers := 0, imguiFrameBuffers := 0, commandBuffers := 0,
    imguiCommandBuffers := 0, vpUniformBuffer := 0, modelDUniformBuffer := 0,
    directionalLightUniformBuffer := 0, cameraPositionUniformBuffer := 0, descriptorSets := 0 }

/-- What the driver and the window system answer while `init` or
`recreateSwapChain` runs: the enumerated devices, the result of
`getSwapChainDetails` for the selected device, the framebuffer size of the
window, the number of images that `vkGetSwapchainImagesKHR` reports for a
swapchain created with a given `minImageCount`, and which steps throw. -/
structure World where
  deviceList : List PhysicalDevice
  swapChainDetails : SwapChainDetails
  framebufferSize : Int × Int
  swapchainImages : Nat → Nat
  throws : InitStep → Bool

/-- The function `createSwapChain` when it does not throw: format, extent and
requested count are chosen, and every image of the new swapchain is pushed
onto `swapChainImages`. -/
def createSwapChain (w : World) (r : Resources) : Resources :=
  { r with
    swapChainExtent := chooseSwapExtent w.swapChainDetails.surfaceCapabilities w.framebufferSize
    swapChainImageFormat :=
      (chooseBestSurfaceFormat w.swapChainDetails.formats).map VkSurfaceFormatKHR.format
    swapChainImages :=
      r.swapChainImages
        + w.swapchainImages (requestedImageCount w.swapChainDetails.surfaceCapabilities) }

/-- The function `createFrameBuffers` when it does not throw: both framebuffer
vectors are resized to `swapChainImages.size()`. -/
def createFrameBuffers (r : Resources) : Resources :=
  { r with
    swapChainFramebuffers := r.swapChainImages
    imguiFrameBuffers := r.swapChainImages }

/-- The function `createUniformBuffers`: the four uniform-buffer vectors are
resized to `swapChainImages.size()`. -/
def createUniformBuffers (r : Resources) : Resources :=
  { r with
    vpUniformBuffer := r.swapChainImages
    modelDUniformBuffer := r.swapChainImages
    directionalLightUniformBuffer := r.swapChainImages
    cameraPositionUniformBuffer := r.swapChainImages }

/-- The function `createCommandBuffers` when it does not throw:
`commandBuffers` is resized to `swapChainFramebuffers.size()` and
`imguiCommandBuffers` to `swapChainImages.size()`. -/
def createCommandBuffers (r : Resources) : Resources :=
  { r with
    commandBuffers := r.swapChainFramebuffers
    imguiCommandBuffers := r.swapChainImages }

/-- The function `createDescriptorSets` when it does not throw:
`descriptorSets` is resized to `swapChainImages.size()`. -/
def createDescriptorSets (r : Resources) : Resources :=
  { r with descriptorSets := r.swapChainImages }

/-- The function `cleanupSwapChain` on the vectors: the command buffers and
framebuffers are freed and destroyed with their vectors left at their size, and
`swapChainImages` is cleared. -/
def cleanupSwapChain (r : Resources) : Resources :=
  { r with swapChainImages := 0 }

/-- The effect of a step that does not throw on the vectors. -/
def stepEffect (w : World) : InitStep → Resources → Resources
  | InitStep.createSwapChain, r => createSwapChain w r
  | InitStep.createFrameBuffers, r => createFrameBuffers r
  | InitStep.createUniformBuffers, r => createUniformBuffers r
  | InitStep.createCommandBuffers, r => createCommandBuffers r
  | InitStep.createDescriptorSets, r => createDescriptorSets r
  | _, r => r

/-- Whether a step throws, and what: `getPhysicalDevice` throws exactly as its
model does, any other step as the world says. -/
def stepThrows (deviceExtensions : List String) (w : World) : InitStep → Option InitError
  | InitStep.getPhysicalDevice =>
    match getPhysicalDevice deviceExtensions w.deviceList with
    | Except.error e => some e
    | Except.ok _ => none
  | step => if w.throws step then some (InitError.stepFailed step) else none

/-- Running steps in order until one throws. -/
def runSteps (deviceExtensions : List String) (w : World) :
    List InitStep → Resources → Except InitError Resources
  | [], r => Except.ok r
  | step :: rest, r =>
    match stepThrows deviceExtensions w step with
    | some e => Except.error e
    | none => runSteps deviceExtensions w rest (stepEffect w step r)

/-- The calls in the `try` block of `init`, in order. -/
def initSteps : List InitStep :=
  [InitStep.createInstance, InitStep.setupDebugMessenger, InitStep.createSurface,
   InitStep.getPhysicalDevice, InitStep.createLogicalDevice, InitStep.createCommandPool,
   InitStep.createSwapChain, InitStep.createDepthStencil, InitStep.createColourImage,
   InitStep.createRenderPass, InitStep.createOffscreenRenderPass,
   InitStep.createImguiRenderPass, InitStep.createDescriptorSetLayout,
   InitStep.createPushConstantRange, InitStep.createGraphicsPipeline,
   InitStep.createFrameBuffers, InitStep.createOffscreenFrameBuffer,
   InitStep.allocateDynamicBufferTransferSpace, InitStep.createUniformBuffers,
   InitStep.createCommandBuffers, InitStep.createTextureSampler,
   InitStep.createDescriptorPool, InitStep.createDescriptorSets,
   InitStep.createSynchronisation, InitStep.createImguiContext]

/-- The `try` block of `init` on a renderer that has just been constructed:
the vectors it leaves, or the error that makes `init` return `EXIT_FAILURE`. -/
def init (deviceExtensions : List String) (w : World) : Except InitError Resources :=
  runSteps deviceExtensions w initSteps Resources.fresh

/-- The calls of `recreateSwapChain` after `cleanupSwapChain`, in order. -/
def recreateSteps : List InitStep :=
  [InitStep.createSwapChain, InitStep.createDepthStencil, InitStep.createColourImage,
   InitStep.createRenderPass, InitStep.createImguiRenderPass,
   InitStep.createGraphicsPipeline, InitStep.createFrameBuffers,
   InitStep.createCommandBuffers, InitStep.createImguiContext]

/-- How a call of `recreateSwapChain` ends: it returns, it throws, or it stays
in its loop that waits for a framebuffer of non-zero size. -/
inductive Completion where
  | done (r : Resources)
  | raised (e : InitError)
  | waiting
  deriving DecidableEq, Repr

/-- The function `recreateSwapChain` step by step on the vectors, for a window
whose framebuffer size stays as the world gives it during the call: the loop
`while (width == 0 || height == 0)` is left only for a non-zero size, then
`cleanupSwapChain` and the creation steps run. (`recreateSwapChain` above is
the effect of a call that returns on the state of the frame loop.) -/
def recreateSwapChainSteps (deviceExtensions : List String) (w : World) (r : Resources) :
    Completion :=
  if w.framebufferSize.1 = 0 ∨ w.framebufferSize.2 = 0 then Completion.waiting
  else
    match runSteps deviceExtensions w recreateSteps (cleanupSwapChain r) with
    | Except.ok r1 => Completion.done r1
    | Except.error e => Completion.raised e

/-- The five counts of the swapchain count invariant are the same number. -/
def CountsAgree (r : Resources) : Prop :=
  r.swapChainFramebuffers = r.swapChainImages
  ∧ r.imguiFrameBuffers = r.swapChainImages
  ∧ r.commandBuffers = r.swapChainImages
  ∧ r.imguiCommandBuffers = r.swapChainImages

/-! ## Example devices and surfaces -/

/-- The required device extensions as the course's Utilities.h lists them. -/
def exampleExtensions : List String := ["VK_KHR_swapchain"]

/-- Surface capabilities of an 800 by 600 window: at least `minImageCount`
images, no upper limit. -/
def exampleCapabilities (minImageCount : Nat) : VkSurfaceCapabilitiesKHR :=
  { minImageCount := minImageCount
    maxImageCount := 0
    currentExtent := ⟨800, 600⟩
    minImageExtent := ⟨1, 1⟩
    maxImageExtent := ⟨4096, 4096⟩ }

/-- The answers of `getSwapChainDetails` for such a surface. -/
def exampleDetails (minImageCount : Nat) : SwapChainDetails :=
  { surfaceCapabilities := exampleCapabilities minImageCount
    formats := [⟨VK_FORMAT_B8G8R8A8_UNORM, VK_COLOR_SPACE_SRGB_NONLINEAR_KHR⟩]
    presentationMode := [VkPresentModeKHR.fifo, VkPresentModeKHR.mailbox] }

/-- A device with one queue family for graphics and presentation, the
swapchain extension and the given `samplerAnisotropy`. -/
def exampleDevice (samplerAnisotropy : Nat) : PhysicalDevice :=
  { queueFamilies := [⟨1, 1, 1⟩]
    extensions := ["VK_KHR_swapchain"]
    swapChainDetails := exampleDetails 2
    samplerAnisotropy := samplerAnisotropy
    minUniformBufferOffsetAlignment := 256 }

/-- A world with one suitable device, an 800 by 600 window whose surface asks
for at least `minImageCount` images, a driver that creates exactly the number
of images requested, and no step that throws. -/
def exampleWorld (minImageCount : Nat) : World :=
  { deviceList := [exampleDevice 1]
    swapChainDetails := exampleDetails minImageCount
    framebufferSize := (800, 600)
    swapchainImages := fun n => n
    throws := fun _ => false }

/-- The vectors after `init` in `exampleWorld 1`: two images. -/
def exampleResources : Resources :=
  { swapChainImages := 2, swapChainExtent := ⟨800, 600⟩,
    swapChainImageFormat := some VK_FORMAT_B8G8R8A8_UNORM,
    swapChainFramebuffers := 2, imguiFrameBuffers := 2, commandBuffers := 2,
    imguiCommandBuffers := 2, vpUniformBuffer := 2, modelDUniformBuffer := 2,
    directionalLightUniformBuffer := 2, cameraPositionUniformBuffer := 2, descriptorSets := 2 }

/-! ## Objects and teardown -/

/-- The objects that the renderer creates and destroys, each named by the
member of `VulkanRenderer` that holds its handle (with the index for members
that are vectors). `modelList i` and `meshList i` stand for the buffers that
`destroyMeshModel` and `destroyBuffers` release for that entry. -/
inductive Object where
  | vkInstance
  | debugMessenger
  | surface
  | logicalDevice
  | graphicsCommandPool
  | imguiCommandPool
  | swapchain
  | swapChainImageView (i : Nat)
  | depthStencilImage
  | depthStencilImageMemory
  | depthStencilImageView
  | colourImage
  | colourImageMemory
  | colourImageView
  | renderPass (pass : RenderPass)
  | descriptorSetLayout
  | samplerSetLayout
  | shadowSamplerSetLayout
  | pipelineLayout (layout : PipelineLayout)
  | pipeline (pipeline : Pipeline)
  | swapChainFramebuffers (i : Nat)
  | imguiFrameBuffers (i : Nat)
  | offscreenDepthImage
  | offscreenDepthMem
  | offscreenDepthView
  | offscreenDepthSampler
  | offscreenFrameBuffer
  | modelTransferSpace
  | vpUniformBuffer (i : Nat)
  | vpUniformBufferMemory (i : Nat)
  | modelDUniformBuffer (i : Nat)
  | modelDUniformBufferMemory (i : Nat)
  | directionalLightUniformBuffer (i : Nat)
  | directionalLightUniformBufferMemory (i : Nat)
  | cameraPositionUniformBuffer (i : Nat)
  | cameraPositionUniformBufferMemory (i : Nat)
  | commandBuffers (i : Nat)
  | imguiCommandBuffers (i : Nat)
  | textureSampler
  | descriptorPool
  | samplerDescriptorPool
  | imguiDescriptorPool
  | semaphore (s : Semaphore)
  | drawFences (i : Nat)
  | directionalLight
  | textureImages (i : Nat)
  | textureImageMemory (i : Nat)
  | textureImageViews (i : Nat)
  | modelList (i : Nat)
  | meshList (i : Nat)
  deriving DecidableEq, Repr

/-- The members of `VulkanRenderer` that `cleanupSwapChain` and `cleanup` read
or clear: the per-image vectors, the three texture vectors (as the handles
they hold) and the two scene lists. -/
structure Members where
  vectors : Resources
  textureImages : List Nat
  textureImageMemory : List Nat
  textureImageViews : List Nat
  modelList : List MeshModel
  meshList : List Mesh
  deriving DecidableEq, Repr

/-- The members right after a successful `init` that left the vectors `r`: no
texture is loaded and the scene is empty. -/
def Members.afterInit (r : Resources) : Members :=
  { vectors := r, textureImages := [], textureImageMemory := [], textureImageViews := [],
    modelList := [], meshList := [] }

/-- The eight destroy and free calls of one turn of the uniform-buffer loop of
`cleanup`. -/
def uniformBufferObjects (i : Nat) : List Object :=
  [Object.vpUniformBuffer i, Object.vpUniformBufferMemory i,
   Object.modelDUniformBuffer i, Object.modelDUniformBufferMemory i,
   Object.directionalLightUniformBuffer i, Object.directionalLightUniformBufferMemory i,
   Object.cameraPositionUniformBuffer i, Object.cameraPositionUniformBufferMemory i]

/-- The function `cleanupSwapChain` (after its `vkDeviceWaitIdle`): the state
it leaves and the objects it frees or destroys, in order. The loop over
`textureImages` destroys every loaded texture, and the three texture vectors
and `swapChainImages` are cleared. -/
def Members.cleanupSwapChain (m : Members) : Members × List Object :=
  ({ m with
      vectors := vulkan.cleanupSwapChain m.vectors
      textureImages := []
      textureImageViews := []
      textureImageMemory := [] },
   (List.range m.vectors.commandBuffers).map Object.commandBuffers
   ++ (List.range m.vectors.imguiCommandBuffers).map Object.imguiCommandBuffers
   ++ (List.range m.vectors.swapChainFramebuffers).map Object.swapChainFramebuffers
   ++ (List.range m.vectors.imguiFrameBuffers).map Object.imguiFrameBuffers
   ++ [Object.pipeline Pipeline.scene, Object.pipelineLayout PipelineLayout.pipelineLayout,
       Object.renderPass RenderPass.scene, Object.renderPass RenderPass.imgui,
       Object.depthStencilImageView, Object.depthStencilImage, Object.depthStencilImageMemory,
       Object.colourImageView, Object.colourImage, Object.colourImageMemory]
   ++ (List.range m.textureImages.length).flatMap
        (fun i => [Object.textureImages i, Object.textureImageMemory i,
                   Object.textureImageViews i])
   ++ (List.range m.vectors.swapChainImages).map Object.swapChainImageView
   ++ [Object.swapchain])

/-- The statements of `cleanup` that follow its call of `cleanupSwapChain`, run
in state `m`: the state left and the objects destroyed, in order.
`MAX_FRAME_DRAWS` and `enableValidationLayers` are constants of headers that
are not among the sources and are parameters. -/
def Members.cleanupRest (MAX_FRAME_DRAWS : Nat) (enableValidationLayers : Bool) (m : Members) :
    Members × List Object :=
  ({ m with modelList := [], meshList := [] },
   [Object.samplerDescriptorPool, Object.samplerSetLayout, Object.textureSampler]
   ++ (List.range m.modelList.length).map Object.modelList
   ++ (List.range m.meshList.length).map Object.meshList
   ++ [Object.directionalLight, Object.modelTransferSpace, Object.imguiDescriptorPool,
       Object.descriptorPool, Object.descriptorSetLayout]
   ++ (List.range m.vectors.swapChainImages).flatMap uniformBufferObjects
   ++ (List.range MAX_FRAME_DRAWS).flatMap
        (fun i => [Object.semaphore (Semaphore.renderFinished i),
                   Object.semaphore (Semaphore.imageAvailable i), Object.drawFences i])
   ++ [Object.graphicsCommandPool, Object.imguiCommandPool, Object.surface]
   ++ (if enableValidationLayers then [Object.debugMessenger] else [])
   ++ [Object.logicalDevice, Object.vkInstance])

/-- The function `cleanup`: `cleanupSwapChain`, then the rest, run in the state
that the teardown left. -/
def Members.cleanup (MAX_FRAME_DRAWS : Nat) (enableValidationLayers : Bool) (m : Members) :
    Members × List Object :=
  let teardown := m.cleanupSwapChain
  let rest := teardown.1.cleanupRest MAX_FRAME_DRAWS enableValidationLayers
  (rest.1, teardown.2 ++ rest.2)

/-- The objects that a step of `init` creates when it does not throw, with
`before` and `after` the vectors around the step. Shader modules (made and
destroyed inside `createGraphicsPipeline`), descriptor sets (released with
their pool) and what the overlay library creates for itself are left out. -/
def created (MAX_FRAME_DRAWS : Nat) (enableValidationLayers : Bool) (before after : Resources) :
    InitStep → List Object
  | InitStep.createInstance => [Object.vkInstance]
  | InitStep.setupDebugMessenger => if enableValidationLayers then [Object.debugMessenger] else []
  | InitStep.createSurface => [Object.surface]
  | InitStep.getPhysicalDevice => []
  | InitStep.createLogicalDevice => [Object.logicalDevice]
  | InitStep.createCommandPool => [Object.graphicsCommandPool, Object.imguiCommandPool]
  | InitStep.createSwapChain =>
    Object.swapchain ::
      (List.range' before.swapChainImages (after.swapChainImages - before.swapChainImages)).map
        Object.swapChainImageView
  | InitStep.createDepthStencil =>
    [Object.depthStencilImage, Object.depthStencilImageMemory, Object.depthStencilImageView]
  | InitStep.createColourImage =>
    [Object.colourImage, Object.colourImageMemory, Object.colourImageView]
  | InitStep.createRenderPass => [Object.renderPass RenderPass.scene]
  | InitStep.createOffscreenRenderPass => [Object.renderPass RenderPass.offscreen]
  | InitStep.createImguiRenderPass => [Object.renderPass RenderPass.imgui]
  | InitStep.createDescriptorSetLayout =>
    [Object.descriptorSetLayout, Object.samplerSetLayout, Object.shadowSamplerSetLayout]
  | InitStep.createPushConstantRange => []
  | InitStep.createGraphicsPipeline =>
    [Object.pipelineLayout PipelineLayout.pipelineLayout, Object.pipeline Pipeline.scene,
     Object.pipelineLayout PipelineLayout.offscreenPipelineLayout,
     Object.pipeline Pipeline.offscreen]
  | InitStep.createFrameBuffers =>
    (List.range after.swapChainFramebuffers).map Object.swapChainFramebuffers
    ++ (List.range after.imguiFrameBuffers).map Object.imguiFrameBuffers
  | InitStep.createOffscreenFrameBuffer =>
    [Object.offscreenDepthImage, Object.offscreenDepthMem, Object.offscreenDepthView,
     Object.offscreenDepthSampler, Object.offscreenFrameBuffer]
  | InitStep.allocateDynamicBufferTransferSpace => [Object.modelTransferSpace]
  | InitStep.createUniformBuffers =>
    (List.range after.swapChainImages).flatMap uniformBufferObjects
  | InitStep.createCommandBuffers =>
    (List.range after.commandBuffers).map Object.commandBuffers
    ++ (List.range after.imguiCommandBuffers).map Object.imguiCommandBuffers
  | InitStep.createTextureSampler => [Object.textureSampler]
  | InitStep.createDescriptorPool =>
    [Object.descriptorPool, Object.samplerDescriptorPool, Object.imguiDescriptorPool]
  | InitStep.createDescriptorSets => []
  | InitStep.createSynchronisation =>
    (List.range MAX_FRAME_DRAWS).flatMap
      (fun i => [Object.semaphore (Semaphore.imageAvailable i),
                 Object.semaphore (Semaphore.renderFinished i), Object.drawFences i])
  | InitStep.createImguiContext => []

/-- The objects created by a run of steps in which none throws, in order. -/
def createdBySteps (MAX_FRAME_DRAWS : Nat) (enableValidationLayers : Bool) (w : World) :
    List InitStep → Resources → List Object
  | [], _ => []
  | step :: rest, r =>
    created MAX_FRAME_DRAWS enableValidationLayers r (stepEffect w step r) step
      ++ createdBySteps MAX_FRAME_DRAWS enableValidationLayers w rest (stepEffect w step r)

/-- The place of an object in the order that the spec gives for the destroy
calls of `cleanup` after the teardown: descriptor pools and layouts, samplers,
per-frame sync objects, texture images, mesh buffers, the transfer block,
command pools, debug messenger, surface, device, instance. Objects of no
listed kind have no place. -/
def specRank : Object → Option Nat
  | Object.samplerDescriptorPool => some 0
  | Object.imguiDescriptorPool => some 0
  | Object.descriptorPool => some 0
  | Object.descriptorSetLayout => some 0
  | Object.samplerSetLayout => some 0
  | Object.shadowSamplerSetLayout => some 0
  | Object.textureSampler => some 1
  | Object.offscreenDepthSampler => some 1
  | Object.semaphore _ => some 2
  | Object.drawFences _ => some 2
  | Object.textureImages _ => some 3
  | Object.textureImageMemory _ => some 3
  | Object.textureImageViews _ => some 3
  | Object.modelList _ => some 4
  | Object.meshList _ => some 4
  | Object.modelTransferSpace => some 5
  | Object.graphicsCommandPool => some 6
  | Object.imguiCommandPool => some 6
  | Object.debugMessenger => some 7
  | Object.surface => some 8
  | Object.logicalDevice => some 9
  | Object.vkInstance => some 10
  | _ => none

/-- The place of an object in the order that `cleanup` follows after the
teardown, one place per object named there: the sampler descriptor pool, the
sampler set layout, the texture sampler, the buffers of the models, the buffers
of the standalone meshes, the light, the transfer block, the overlay
descriptor pool, the uniform descriptor pool, the uniform set layout, uniform
buffers, per-frame sync objects, the graphics command pool, the overlay command
pool, surface, debug messenger, device, instance. Objects that this part of
`cleanup` never names have no place. -/
def cleanupRank : Object → Option Nat
  | Object.samplerDescriptorPool => some 0
  | Object.samplerSetLayout => some 1
  | Object.textureSampler => some 2
  | Object.modelList _ => some 3
  | Object.meshList _ => some 4
  | Object.directionalLight => some 5
  | Object.modelTransferSpace => some 6
  | Object.imguiDescriptorPool => some 7
  | Object.descriptorPool => some 8
  | Object.descriptorSetLayout => some 9
  | Object.vpUniformBuffer _ => some 10
  | Object.vpUniformBufferMemory _ => some 10
  | Object.modelDUniformBuffer _ => some 10
  | Object.modelDUniformBufferMemory _ => some 10
  | Object.directionalLightUniformBuffer _ => some 10
  | Object.directionalLightUniformBufferMemory _ => some 10
  | Object.cameraPositionUniformBuffer _ => some 10
  | Object.cameraPositionUniformBufferMemory _ => some 10
  | Object.semaphore _ => some 11
  | Object.drawFences _ => some 11
  | Object.graphicsCommandPool => some 12
  | Object.imguiCommandPool => some 13
  | Object.surface => some 14
  | Object.debugMessenger => some 15
  | Object.logicalDevice => some 16
  | Object.vkInstance => some 17
  | _ => none

/-- Whether a list of optional places is a list of places in ascending order. -/
def Ascending (ranks : List (Option Nat)) : Prop :=
  (∀ x ∈ ranks, x ≠ none) ∧ ranks.Pairwise (fun a b => a.getD 0 ≤ b.getD 0)

/-- A renderer with two swapchain images, one loaded texture, one model of one
mesh and one standalone mesh. -/
def exampleMembers : Members :=
  { vectors := exampleResources
    textureImages := [7]
    textureImageMemory := [8]
    textureImageViews := [9]
    modelList := [⟨[exampleMesh 1 true 0 10], ⟨⟨[1]⟩, true⟩⟩]
    meshList := [exampleMesh 2 true 0 20] }

/-! ## Start-up failures -/

/-- The value of `EXIT_FAILURE`. -/
def EXIT_FAILURE : Int := 1

/-- Results of the creation calls made by `createGraphicsPipeline`, in the
order of the calls; the shader files are taken to be readable. -/
structure PipelineResults where
  vertShaderModule : VkResult
  fragShaderModule : VkResult
  pipelineLayout : VkResult
  scenePipeline : VkResult
  offscreenVertShaderModule : VkResult
  offscreenPipelineLayout : VkResult
  offscreenPipeline : VkResult
  deriving DecidableEq, Repr

/-- The function `createGraphicsPipeline` as far as it throws: each of the two
layout creations, the three shader modules and the creation of
`pipelines.scene` is followed by a test of the result; the result of the
`vkCreateGraphicsPipelines` call for `pipelines.offscreen` is assigned and
never read. -/
def createGraphicsPipeline (res : PipelineResults) : Option InitError :=
  if res.vertShaderModule ≠ VkResult.success then
    some (InitError.stepFailed InitStep.createGraphicsPipeline)
  else if res.fragShaderModule ≠ VkResult.success then
    some (InitError.stepFailed InitStep.createGraphicsPipeline)
  else if res.pipelineLayout ≠ VkResult.success then
    some (InitError.stepFailed InitStep.createGraphicsPipeline)
  else if res.scenePipeline ≠ VkResult.success then
    some (InitError.stepFailed InitStep.createGraphicsPipeline)
  else if res.offscreenVertShaderModule ≠ VkResult.success then
    some (InitError.stepFailed InitStep.createGraphicsPipeline)
  else if res.offscreenPipelineLayout ≠ VkResult.success then
    some (InitError.stepFailed InitStep.createGraphicsPipeline)
  else none

/-- The world `w` with `createGraphicsPipeline` throwing exactly as the
results of its creation calls make it. -/
def World.withPipelineResults (w : World) (res : PipelineResults) : World :=
  { w with
    throws := fun step =>
      if step = InitStep.createGraphicsPipeline then (createGraphicsPipeline res).isSome
      else w.throws step }

/-- The value that `init` returns: `EXIT_FAILURE` from the `catch` block, `0`
after the `try` block. -/
def initStatus (deviceExtensions : List String) (w : World) : Int :=
  match init deviceExtensions w with
  | Except.ok _ => 0
  | Except.error _ => EXIT_FAILURE

/-- Every creation call of `createGraphicsPipeline` succeeds. -/
def pipelineOk : PipelineResults :=
  ⟨VkResult.success, VkResult.success, VkResult.success, VkResult.success,
   VkResult.success, VkResult.success, VkResult.success⟩

/-- Only the creation of `pipelines.offscreen` fails. -/
def offscreenPipelineFails : PipelineResults :=
  { pipelineOk with offscreenPipeline := VkResult.errorOutOfDeviceMemory }

/-- Only the creation of `pipelines.scene` fails. -/
def scenePipelineFails : PipelineResults :=
  { pipelineOk with scenePipeline := VkResult.errorOutOfDeviceMemory }

/-! ## Transforms of scene entries -/

/-- Conversion of an `int` to `size_t`, as the comparison
`modelId >= modelList.size()` and the subscript `modelList[modelId]` make it. -/
def intToSizeT (x : Int) : Nat := (x % 2 ^ 64).toNat

/-- Modelled from the spec: `Mesh::setModel` (Mesh.cpp is not among the
sources; Mesh.h declares `void setModel(glm::mat4 newModel)`), which sets the
transform of the mesh and leaves the rest of it. -/
def Mesh.setModel (mesh : Mesh) (newModel : Mat4) : Mesh :=
  { mesh with model := { mesh.model with model := newModel } }

/-- Modelled from the spec: `MeshModel::setModel` (MeshModel.h is not among the
sources), which sets the transform of the model and leaves the rest of it. -/
def MeshModel.setModel (thisModel : MeshModel) (newModel : Mat4) : MeshModel :=
  { thisModel with model := { thisModel.model with model := newModel } }

/-- The function `updateModel`: the list it leaves and the indices at which it
subscripts the list. A subscript beyond the end cannot be reached past the
guard; the list is left as it is there. -/
def updateModel (modelList : List MeshModel) (modelId : Int) (newModel : Mat4) :
    List MeshModel × List Nat :=
  if intToSizeT modelId ≥ modelList.length then (modelList, [])
  else
    match modelList[intToSizeT modelId]? with
    | some thisModel =>
      (modelList.set (intToSizeT modelId) (thisModel.setModel newModel), [intToSizeT modelId])
    | none => (modelList, [intToSizeT modelId])

/-- The function `updateModelMesh`: as `updateModel`, on `meshList`. -/
def updateModelMesh (meshList : List Mesh) (modelId : Int) (newModel : Mat4) :
    List Mesh × List Nat :=
  if intToSizeT modelId ≥ meshList.length then (meshList, [])
  else
    match meshList[intToSizeT modelId]? with
    | some mesh =>
      (meshList.set (intToSizeT modelId) (mesh.setModel newModel), [intToSizeT modelId])
    | none => (meshList, [intToSizeT modelId])

/-! ## Descriptor pools -/

/-- The descriptor types used by the renderer's own layouts. -/
inductive VkDescriptorType where
  | uniformBuffer
  | uniformBufferDynamic
  | combinedImageSampler
  deriving DecidableEq, Repr

structure VkDescriptorPoolSize where
  type : VkDescriptorType
  descriptorCount : Nat
  deriving DecidableEq, Repr

structure VkDescriptorPoolCreateInfo where
  maxSets : Nat
  poolSizes : List VkDescriptorPoolSize
  deriving DecidableEq, Repr

/-- The three descriptor set layouts made by `createDescriptorSetLayout`. -/
inductive SetLayout where
  | descriptorSetLayout
  | samplerSetLayout
  | shadowSamplerSetLayout
  deriving DecidableEq, Repr

/-- The descriptor types of the bindings of each layout, one descriptor per
binding, as `createDescriptorSetLayout` fills them in. -/
def SetLayout.bindings : SetLayout → List VkDescriptorType
  | SetLayout.descriptorSetLayout =>
    [VkDescriptorType.uniformBuffer, VkDescriptorType.uniformBufferDynamic,
     VkDescriptorType.uniformBuffer, VkDescriptorType.uniformBuffer]
  | SetLayout.samplerSetLayout => [VkDescriptorType.combinedImageSampler]
  | SetLayout.shadowSamplerSetLayout => [VkDescriptorType.combinedImageSampler]

/-- The create-infos of the uniform pool and of the sampler pool. -/
structure DescriptorPools where
  descriptorPool : VkDescriptorPoolCreateInfo
  samplerDescriptorPool : VkDescriptorPoolCreateInfo
  deriving DecidableEq, Repr

/-- The function `createDescriptorPool`, as far as the uniform pool and the
sampler pool go (the third pool belongs to the overlay). `MAX_OBJECTS` is a
constant of Utilities.h, which is not among the sources, and is a parameter. -/
def createDescriptorPool (MAX_OBJECTS : Nat) (r : Resources) : DescriptorPools :=
  { descriptorPool :=
      { maxSets := toU32 r.swapChainImages
        poolSizes :=
          [⟨VkDescriptorType.uniformBuffer, toU32 r.vpUniformBuffer⟩,
           ⟨VkDescriptorType.uniformBufferDynamic, toU32 r.modelDUniformBuffer⟩,
           ⟨VkDescriptorType.uniformBuffer, toU32 r.directionalLightUniformBuffer⟩,
           ⟨VkDescriptorType.uniformBuffer, toU32 r.cameraPositionUniformBuffer⟩] }
    samplerDescriptorPool :=
      { maxSets := MAX_OBJECTS
        poolSizes :=
          [⟨VkDescriptorType.combinedImageSampler, MAX_OBJECTS⟩,
           ⟨VkDescriptorType.combinedImageSampler, MAX_OBJECTS⟩] } }

/-- The number of descriptors of type `t` that a pool holds: the sum over its
pool sizes of that type. -/
def VkDescriptorPoolCreateInfo.descriptors (info : VkDescriptorPoolCreateInfo)
    (t : VkDescriptorType) : Nat :=
  ((info.poolSizes.filter fun s => decide (s.type = t)).map
    VkDescriptorPoolSize.descriptorCount).sum

/-- Whether a pool covers the allocation of one set for each entry of `sets`:
no more sets than `maxSets`, and for each type no more descriptors than the
pool holds. -/
def VkDescriptorPoolCreateInfo.admits (info : VkDescriptorPoolCreateInfo)
    (sets : List SetLayout) : Prop :=
  sets.length ≤ info.maxSets
  ∧ ∀ t, ((sets.map SetLayout.bindings).flatten.count t) ≤ info.descriptors t

/-- The sets that the renderer allocates from the sampler pool when `textures`
textures are loaded: the shadow-sampler set of `createDescriptorSets`, then one
set per call of `createTextureDescriptor`. -/
def samplerPoolSets (textures : Nat) : List SetLayout :=
  SetLayout.shadowSamplerSetLayout :: List.replicate textures SetLayout.samplerSetLayout

/-- The sets that `createDescriptorSets` allocates from the uniform pool: one
per swapchain image. -/
def uniformPoolSets (r : Resources) : List SetLayout :=
  List.replicate r.swapChainImages SetLayout.descriptorSetLayout

/-! ## Pipeline layouts and scene growth -/

/-- The set layouts of each pipeline layout, by set index, as
`createGraphicsPipeline` lists them. -/
def pipelineSetLayouts : PipelineLayout → List SetLayout
  | PipelineLayout.pipelineLayout =>
    [SetLayout.descriptorSetLayout, SetLayout.samplerSetLayout,
     SetLayout.shadowSamplerSetLayout]
  | PipelineLayout.offscreenPipelineLayout => [SetLayout.descriptorSetLayout]

/-- The layout with which each descriptor set is allocated
(`createDescriptorSets`, `createTextureDescriptor`). -/
def DescriptorSet.layout : DescriptorSet → SetLayout
  | DescriptorSet.sceneUniform _ => SetLayout.descriptorSetLayout
  | DescriptorSet.sampler _ => SetLayout.samplerSetLayout
  | DescriptorSet.shadowSampler => SetLayout.shadowSamplerSetLayout

/-- The function `createMesh`, with `mesh` the object its `Mesh` constructor
call builds: the mesh is pushed onto `meshList`. -/
def createMesh (r : Renderer) (mesh : Mesh) : Renderer :=
  { r with meshList := r.meshList ++ [mesh] }

/-- The function `createModel`, with `model` the object that `createMeshModel`
returns: the model is pushed onto `modelList`. -/
def createModel (r : Renderer) (model : MeshModel) : Renderer :=
  { r with modelList := r.modelList ++ [model] }

/-- The renderers reachable from `r0` by calls of `createMesh` and
`createModel`. -/
inductive Reachable (r0 : Renderer) : Renderer → Prop where
  | start : Reachable r0 r0
  | mesh (r : Renderer) (mesh : Mesh) : Reachable r0 r → Reachable r0 (createMesh r mesh)
  | model (r : Renderer) (model : MeshModel) :
      Reachable r0 r → Reachable r0 (createModel r model)

/-- The byte offsets of the stores of a transfer block, in the order in which
they were made. -/
def writeOffsets (mem : TransferSpace) : List Nat := (mem.map Prod.fst).reverse

/-- The capacity in bytes of the transfer block and of each per-image dynamic
uniform buffer: `modelUniformAlignment * MAX_OBJECTS`
(`allocateDynamicBufferTransferSpace`, `createUniformBuffers`). -/
def modelBufferSize (stride MAX_OBJECTS : Nat) : Nat := mul64 stride MAX_OBJECTS

/-- Three standalone meshes made by `createMesh` in a renderer after init. -/
def threeMeshScene : Renderer :=
  createMesh (createMesh (createMesh (exampleRenderer [] []) (exampleMesh 1 false 0 10))
    (exampleMesh 2 false 0 20)) (exampleMesh 3 false 0 30)

/-! ## Lemmas on the stride -/

theorem not64_pred_two_pow_testBit (k i : Nat) (hk : k < 64) :
    (not64 (2 ^ k - 1)).testBit i = (decide (i < 64) && !decide (i < k)) := by
  have hlt : 2 ^ k - 1 < 2 ^ 64 := by
    have h1 : 2 ^ k < 2 ^ 64 := Nat.pow_lt_pow_right (by decide) hk
    omega
  have hrw : not64 (2 ^ k - 1) = 2 ^ 64 - ((2 ^ k - 1) + 1) := by
    unfold not64
    rw [Nat.mod_eq_of_lt hlt]
    omega
  rw [hrw, Nat.testBit_two_pow_sub_succ hlt, Nat.testBit_two_pow_sub_one]

theorem land_not64_pred_two_pow (x k : Nat) (hx : x < 2 ^ 64) (hk : k < 64) :
    x &&& not64 (2 ^ k - 1) = x / 2 ^ k * 2 ^ k := by
  apply Nat.eq_of_testBit_eq
  intro i
  rw [Nat.testBit_and, not64_pred_two_pow_testBit k i hk, Nat.mul_comm,
    Nat.testBit_mul_pow_two, ← Nat.shiftRight_eq_div_pow, Nat.testBit_shiftRight]
  by_cases h1 : i < k
  · have : ¬ i ≥ k := by omega
    simp [h1, this]
  · have h2 : i ≥ k := by omega
    have h3 : k + (i - k) = i := by omega
    by_cases h4 : i < 64
    · simp [h1, h2, h3, h4]
    · have h5 : x.testBit i = false := by
        apply Nat.testBit_lt_two_pow
        exact lt_of_lt_of_le hx (Nat.pow_le_pow_right (by decide) (by omega))
      simp [h1, h2, h3, h4, h5]

theorem sub64_add64_one (size a : Nat) (ha : 0 < a) (hfit : size + a ≤ 2 ^ 64) :
    sub64 (add64 size a) 1 = size + a - 1 := by
  unfold sub64 add64
  rcases Nat.lt_or_ge (size + a) (2 ^ 64) with h | h
  · rw [Nat.mod_eq_of_lt h, Nat.mod_eq_of_lt h]
    have : (1 : Nat) % 2 ^ 64 = 1 := by norm_num
    rw [this]
    omega
  · have heq : size + a = 2 ^ 64 := by omega
    rw [heq]
    norm_num

theorem sub64_one (a : Nat) (ha : 0 < a) (hlt : a < 2 ^ 64) : sub64 a 1 = a - 1 := by
  unfold sub64
  rw [Nat.mod_eq_of_lt hlt]
  have : (1 : Nat) % 2 ^ 64 = 1 := by norm_num
  rw [this]
  omega

/-- For a power-of-two alignment and no 64-bit wrap the bit trick is the
floor to a multiple of the alignment of `size + a - 1`. -/
theorem modelUniformAlignment_eq_roundUp (size k : Nat) (hk : k < 64)
    (hfit : size + 2 ^ k ≤ 2 ^ 64) :
    modelUniformAlignment size (2 ^ k) = roundUp size (2 ^ k) := by
  have hpos : 0 < 2 ^ k := Nat.two_pow_pos k
  have hlt : 2 ^ k < 2 ^ 64 := Nat.pow_lt_pow_right (by decide) hk
  unfold modelUniformAlignment roundUp
  rw [sub64_add64_one size (2 ^ k) hpos hfit, sub64_one (2 ^ k) hpos hlt]
  exact land_not64_pred_two_pow _ k (by omega) hk

theorem roundUp_dvd (size a : Nat) : a ∣ roundUp size a :=
  Dvd.intro_left _ rfl

theorem roundUp_ge (size a : Nat) (ha : 0 < a) : size ≤ roundUp size a := by
  unfold roundUp
  have h1 := Nat.div_add_mod (size + a - 1) a
  have h2 := Nat.mod_lt (size + a - 1) ha
  have h3 : (size + a - 1) / a * a = a * ((size + a - 1) / a) := Nat.mul_comm _ _
  omega

theorem roundUp_lt (size a : Nat) (ha : 0 < a) : roundUp size a < size + a := by
  unfold roundUp
  have h1 := Nat.div_mul_le_self (size + a - 1) a
  omega

theorem roundUp_least (size a m : Nat) (ha : 0 < a) (hdvd : a ∣ m) (hm : size ≤ m) :
    roundUp size a ≤ m := by
  obtain ⟨c, rfl⟩ := hdvd
  unfold roundUp
  have hq : (size + a - 1) / a ≤ c := by
    have hle : size + a - 1 ≤ a * c + (a - 1) := by omega
    calc (size + a - 1) / a ≤ (a * c + (a - 1)) / a := Nat.div_le_div_right hle
      _ = c := by
        rw [Nat.mul_add_div ha, Nat.div_eq_of_lt (by omega)]
        rfl
  calc (size + a - 1) / a * a ≤ c * a := Nat.mul_le_mul_right a hq
    _ = a * c := Nat.mul_comm _ _


/-! ## Claims on the stride -/

/-- C1: for every size of the model block and every alignment `A` that a
device can report (Vulkan makes `minUniformBufferOffsetAlignment` a power of
two, and the driver limit read in `getPhysicalDevice` is the only value that
`minUniformBufferOffset` gets), with `size + A` not wrapping 64 bits, the
stride satisfies `stride % A = 0`, `stride ≥ size` and `stride < size + A`. -/
theorem modelUniformAlignment_bounds (size A k : Nat) (hA : A = 2 ^ k) (hk : k < 64)
    (hfit : size + A ≤ 2 ^ 64) :
    modelUniformAlignment size A % A = 0 ∧ size ≤ modelUniformAlignment size A
      ∧ modelUniformAlignment size A < size + A := by
  subst hA
  have hpos : 0 < 2 ^ k := Nat.two_pow_pos k
  rw [modelUniformAlignment_eq_roundUp size k hk hfit]
  exact ⟨Nat.mod_eq_zero_of_dvd (roundUp_dvd size _), roundUp_ge size _ hpos,
    roundUp_lt size _ hpos⟩

theorem modelUniformAlignment_bounds_witness :
    modelUniformAlignment 68 256 % 256 = 0 ∧ 68 ≤ modelUniformAlignment 68 256
      ∧ modelUniformAlignment 68 256 < 68 + 256 :=
  modelUniformAlignment_bounds 68 256 8 (by norm_num) (by norm_num) (by norm_num)

/-- C2: for every alignment `A` that is a positive power of two (as a 64-bit
value) and every size for which `size + A - 1` does not wrap, the stride
computed by `allocateDynamicBufferTransferSpace` equals `roundUp size A` and is
the least multiple of `A` that is at least `size`. -/
theorem modelUniformAlignment_is_roundUp (size A k : Nat) (hA : A = 2 ^ k) (hk : k < 64)
    (hfit : size + A ≤ 2 ^ 64) :
    modelUniformAlignment size A = roundUp size A
      ∧ A ∣ modelUniformAlignment size A
      ∧ size ≤ modelUniformAlignment size A
      ∧ ∀ m, A ∣ m → size ≤ m → modelUniformAlignment size A ≤ m := by
  subst hA
  have hpos : 0 < 2 ^ k := Nat.two_pow_pos k
  rw [modelUniformAlignment_eq_roundUp size k hk hfit]
  exact ⟨rfl, roundUp_dvd size _, roundUp_ge size _ hpos,
    fun m hd hm => roundUp_least size _ m hpos hd hm⟩

theorem modelUniformAlignment_is_roundUp_witness :
    modelUniformAlignment 68 64 = roundUp 68 64
      ∧ 64 ∣ modelUniformAlignment 68 64
      ∧ 68 ≤ modelUniformAlignment 68 64
      ∧ ∀ m, 64 ∣ m → 68 ≤ m → modelUniformAlignment 68 64 ≤ m :=
  modelUniformAlignment_is_roundUp 68 64 6 (by norm_num) (by norm_num) (by norm_num)


/-! ## Claims on the packing and on the recorded commands -/

/-- C3 (evaluation at the failing input): with two models of one mesh each
and stride 256, `updateUniformBuffers` leaves the block of the second drawable,
not that of the first, at offset 0 and nothing at offset 256, in the transfer
block and in the uploaded buffer alike; the drawables are, in order, mesh 1
then mesh 2. -/
theorem updateUniformBuffers_two_models :
    drawables twoModelScene.modelList twoModelScene.meshList
        = [exampleMesh 1 true 0 10, exampleMesh 2 true 0 20]
    ∧ twoModelScene.modelUniformAlignment = 256
    ∧ loadModel 68 (updateUniformBuffers twoModelScene 0).modelTransferSpace (0 * 256)
        = some (exampleMesh 2 true 0 20).model
    ∧ loadModel 68 (updateUniformBuffers twoModelScene 0).modelTransferSpace (0 * 256)
        ≠ some (exampleMesh 1 true 0 10).model
    ∧ loadModel 68 (updateUniformBuffers twoModelScene 0).modelTransferSpace (1 * 256) = none
    ∧ ((updateUniformBuffers twoModelScene 0).modelDUniformBufferMemory.map
        fun u => (u.bytes, u.load 68 (0 * 256), u.load 68 (1 * 256)))
        = [(512, some (exampleMesh 2 true 0 20).model, none)] := by
  decide

/-- C8 (evaluation at the failing input): for one triangle mesh and all calls
succeeding, `recordCommands 0` returns with the scene pass alone in
`commandBuffers[0]` and the overlay in `imguiCommandBuffers[0]`. The shadow
pass was recorded first into `commandBuffers[0]` and discarded when that buffer
was begun again: its render-pass begin, its pipeline bind, its depth bias and
its descriptor binding are in no command buffer. -/
theorem recordCommands_loses_shadow_pass :
    (recordCommands triangleScene 0 recordOk).2 = none
    ∧ (recordCommands triangleScene 0 recordOk).1.commandBuffers
        = [⟨BufferState.executable, scenePass triangleScene 0⟩]
    ∧ (recordCommands triangleScene 0 recordOk).1.imguiCommandBuffers
        = [⟨BufferState.executable, overlayPass 0⟩]
    ∧ (∀ c ∈ [Cmd.beginRenderPass RenderPass.offscreen Framebuffer.offscreen,
              Cmd.setDepthBias, Cmd.bindPipeline Pipeline.offscreen,
              Cmd.bindDescriptorSets PipelineLayout.offscreenPipelineLayout
                [DescriptorSet.sceneUniform 0] 0],
        c ∈ shadowPass triangleScene 0
        ∧ ∀ b ∈ (recordCommands triangleScene 0 recordOk).1.commandBuffers
              ++ (recordCommands triangleScene 0 recordOk).1.imguiCommandBuffers,
            c ∉ b.cmds) := by
  decide

/-- C9 (evaluation at the failing inputs): with stride 256, a model of one
mesh followed by one standalone mesh is bound at offsets 0 and 0 in the scene
pass and in the shadow pass, and so are the two meshes of a single model; in
both scenes the two drawables have indices 0 and 1. -/
theorem recordCommands_offsets_collide :
    modelAndMeshScene.modelUniformAlignment = 256
    ∧ (drawables modelAndMeshScene.modelList modelAndMeshScene.meshList).length = 2
    ∧ boundOffsets (scenePass modelAndMeshScene 0) = [0, 0]
    ∧ boundOffsets (shadowPass modelAndMeshScene 0) = [0, 0]
    ∧ (drawables twoMeshModelScene.modelList twoMeshModelScene.meshList).length = 2
    ∧ boundOffsets (scenePass twoMeshModelScene 0) = [0, 0]
    ∧ boundOffsets (shadowPass twoMeshModelScene 0) = [0, 0] := by
  decide

theorem recordCommands_frame (r : Renderer) (i : Nat) (res : RecordResults) :
    (recordCommands r i res).1.currentFrame = r.currentFrame
    ∧ (recordCommands r i res).1.frameBufferResized = r.frameBufferResized
    ∧ (recordCommands r i res).1.drawFences = r.drawFences := by
  unfold recordCommands
  split_ifs <;> exact ⟨rfl, rfl, rfl⟩

theorem updateUniformBuffers_frame (r : Renderer) (i : Nat) :
    (updateUniformBuffers r i).currentFrame = r.currentFrame
    ∧ (updateUniformBuffers r i).frameBufferResized = r.frameBufferResized
    ∧ (updateUniformBuffers r i).drawFences = r.drawFences :=
  ⟨rfl, rfl, rfl⟩

theorem draw_of_fence (MAX_FRAME_DRAWS : Nat) (r : Renderer) (env : DrawEnv)
    (hfence : r.drawFences.getD r.currentFrame Fence.unsignaled ≠ Fence.unsignaled) :
    draw MAX_FRAME_DRAWS r env = drawAfterWait MAX_FRAME_DRAWS r env := by
  unfold draw
  cases hf : r.drawFences.getD r.currentFrame Fence.unsignaled
  · rfl
  · exact absurd hf hfence
  · rfl

theorem draw_of_blocked (MAX_FRAME_DRAWS : Nat) (r : Renderer) (env : DrawEnv)
    (hfence : r.drawFences.getD r.currentFrame Fence.unsignaled = Fence.unsignaled) :
    draw MAX_FRAME_DRAWS r env = ⟨Outcome.blocked, r, []⟩ := by
  unfold draw
  rw [hfence]

/-- The acquisition branch of `draw` that rebuilds and returns. -/
theorem draw_of_stale (MAX_FRAME_DRAWS : Nat) (r : Renderer) (env : DrawEnv)
    (hfence : r.drawFences.getD r.currentFrame Fence.unsignaled ≠ Fence.unsignaled)
    (hstale : env.acquireResult = VkResult.errorOutOfDateKHR ∨ r.frameBufferResized = true) :
    draw MAX_FRAME_DRAWS r env =
      match env.recreate with
      | none =>
        ⟨Outcome.raised DrawError.recreateFailed,
          { r with drawFences := r.drawFences.set r.currentFrame Fence.unsignaled,
                   frameBufferResized := false },
          [Event.waitForFences r.currentFrame, Event.resetFences r.currentFrame,
           Event.acquireNextImage (Semaphore.imageAvailable r.currentFrame),
           Event.recreateSwapChain]⟩
      | some n =>
        ⟨Outcome.returned,
          recreateSwapChain
            { r with drawFences := r.drawFences.set r.currentFrame Fence.unsignaled,
                     frameBufferResized := false } n,
          [Event.waitForFences r.currentFrame, Event.resetFences r.currentFrame,
           Event.acquireNextImage (Semaphore.imageAvailable r.currentFrame),
           Event.recreateSwapChain]⟩ := by
  rw [draw_of_fence MAX_FRAME_DRAWS r env hfence]
  unfold drawAfterWait
  simp only [hstale, if_true]
  cases env.recreate <;> rfl

/-- The branch of `draw` that goes on to draw the frame. -/
theorem draw_of_acquired (MAX_FRAME_DRAWS : Nat) (r : Renderer) (env : DrawEnv)
    (hfence : r.drawFences.getD r.currentFrame Fence.unsignaled ≠ Fence.unsignaled)
    (hflag : r.frameBufferResized = false)
    (hacq : env.acquireResult = VkResult.success ∨ env.acquireResult = VkResult.suboptimalKHR) :
    draw MAX_FRAME_DRAWS r env =
      drawFrame MAX_FRAME_DRAWS
        { r with drawFences := r.drawFences.set r.currentFrame Fence.unsignaled } env
        [Event.waitForFences r.currentFrame, Event.resetFences r.currentFrame,
         Event.acquireNextImage (Semaphore.imageAvailable r.currentFrame)] := by
  rw [draw_of_fence MAX_FRAME_DRAWS r env hfence]
  unfold drawAfterWait
  rcases hacq with h | h <;> simp [h, hflag]

/-- The branch of `draw` that throws at acquisition. -/
theorem draw_of_acquire_error (MAX_FRAME_DRAWS : Nat) (r : Renderer) (env : DrawEnv)
    (hfence : r.drawFences.getD r.currentFrame Fence.unsignaled ≠ Fence.unsignaled)
    (hflag : r.frameBufferResized = false)
    (h1 : env.acquireResult ≠ VkResult.errorOutOfDateKHR)
    (h2 : env.acquireResult ≠ VkResult.success)
    (h3 : env.acquireResult ≠ VkResult.suboptimalKHR) :
    draw MAX_FRAME_DRAWS r env =
      ⟨Outcome.raised DrawError.acquireFailed,
        { r with drawFences := r.drawFences.set r.currentFrame Fence.unsignaled },
        [Event.waitForFences r.currentFrame, Event.resetFences r.currentFrame,
         Event.acquireNextImage (Semaphore.imageAvailable r.currentFrame)]⟩ := by
  rw [draw_of_fence MAX_FRAME_DRAWS r env hfence]
  unfold drawAfterWait
  simp [h1, h2, h3, hflag]

/-- C4 (as stated): `draw` does not always return without raising on this path.
When acquisition answers out-of-date and a creation call inside
`recreateSwapChain` fails, the error of the rebuild leaves `draw`, which has no
handler around the call. -/
theorem stale_rebuild_failure_raises :
    ({ staleAcquire with recreate := none } : DrawEnv).acquireResult
      = VkResult.errorOutOfDateKHR
    ∧ triangleScene.drawFences.getD triangleScene.currentFrame Fence.unsignaled = Fence.signaled
    ∧ (draw 2 triangleScene { staleAcquire with recreate := none }).outcome
      = Outcome.raised DrawError.recreateFailed
    ∧ (draw 2 triangleScene { staleAcquire with recreate := none }).outcome
      ≠ Outcome.returned := by
  decide

/-- C4 (amended): when `draw` reaches acquisition and the result is out-of-date or the
resize flag is set, it clears the flag, calls `recreateSwapChain` exactly once,
makes no queue submission and no present, leaves the slot index as it was, and
throws nothing of its own: it returns whenever the rebuild completes, and the
only error that can leave it is one thrown inside the rebuild. -/
theorem draw_stale_acquire (MAX_FRAME_DRAWS : Nat) (r : Renderer) (env : DrawEnv)
    (hfence : r.drawFences.getD r.currentFrame Fence.unsignaled ≠ Fence.unsignaled)
    (hstale : env.acquireResult = VkResult.errorOutOfDateKHR ∨ r.frameBufferResized = true) :
    (draw MAX_FRAME_DRAWS r env).state.frameBufferResized = false
    ∧ (draw MAX_FRAME_DRAWS r env).trace
        = [Event.waitForFences r.currentFrame, Event.resetFences r.currentFrame,
           Event.acquireNextImage (Semaphore.imageAvailable r.currentFrame),
           Event.recreateSwapChain]
    ∧ (draw MAX_FRAME_DRAWS r env).trace.count Event.recreateSwapChain = 1
    ∧ (draw MAX_FRAME_DRAWS r env).trace.filter Event.isSubmit = []
    ∧ (draw MAX_FRAME_DRAWS r env).trace.filter Event.isPresent = []
    ∧ (draw MAX_FRAME_DRAWS r env).state.currentFrame = r.currentFrame
    ∧ (env.recreate ≠ none → (draw MAX_FRAME_DRAWS r env).outcome = Outcome.returned)
    ∧ (env.recreate = none →
        (draw MAX_FRAME_DRAWS r env).outcome = Outcome.raised DrawError.recreateFailed) := by
  rw [draw_of_stale MAX_FRAME_DRAWS r env hfence hstale]
  cases env.recreate <;>
    simp [recreateSwapChain, Event.isSubmit, Event.isPresent, List.count_cons]

theorem draw_stale_acquire_witness :
    (draw 2 triangleScene staleAcquire).state.frameBufferResized = false
    ∧ (draw 2 triangleScene staleAcquire).trace
        = [Event.waitForFences triangleScene.currentFrame,
           Event.resetFences triangleScene.currentFrame,
           Event.acquireNextImage (Semaphore.imageAvailable triangleScene.currentFrame),
           Event.recreateSwapChain]
    ∧ (draw 2 triangleScene staleAcquire).trace.count Event.recreateSwapChain = 1
    ∧ (draw 2 triangleScene staleAcquire).trace.filter Event.isSubmit = []
    ∧ (draw 2 triangleScene staleAcquire).trace.filter Event.isPresent = []
    ∧ (draw 2 triangleScene staleAcquire).state.currentFrame = triangleScene.currentFrame
    ∧ (staleAcquire.recreate ≠ none → (draw 2 triangleScene staleAcquire).outcome = Outcome.returned)
    ∧ (staleAcquire.recreate = none →
        (draw 2 triangleScene staleAcquire).outcome = Outcome.raised DrawError.recreateFailed) :=
  draw_stale_acquire 2 triangleScene staleAcquire (by decide) (Or.inl rfl)


theorem recordCommands_recordOk (r : Renderer) (i : Nat) :
    (recordCommands r i recordOk).2 = none := by
  simp [recordCommands, recordOk]

theorem getD_set_other (l : List Fence) (k j : Nat) (a d : Fence) (h : k ≠ j) :
    (l.set k a).getD j d = l.getD j d := by
  simp [List.getD, List.getElem?_set_ne h]

theorem getD_map_afterIdle (l : List Fence) (j : Nat)
    (h : l.getD j Fence.unsignaled = Fence.signaled) :
    (l.map Fence.afterIdle).getD j Fence.unsignaled = Fence.signaled := by
  simp only [List.getD_eq_getElem?_getD, List.getElem?_map] at *
  cases hj : l[j]? with
  | none => simp [hj] at h
  | some f =>
    simp [hj] at h
    subst h
    rfl

/-- What `drawPresent` does to the slot index and the fences. -/
theorem drawPresent_state (MAX_FRAME_DRAWS : Nat) (r : Renderer) (env : DrawEnv)
    (t : List Event) :
    ((drawPresent MAX_FRAME_DRAWS r env t).outcome = Outcome.returned →
      (drawPresent MAX_FRAME_DRAWS r env t).state.currentFrame
        = (r.currentFrame + 1) % MAX_FRAME_DRAWS)
    ∧ ((drawPresent MAX_FRAME_DRAWS r env t).outcome ≠ Outcome.returned →
      (drawPresent MAX_FRAME_DRAWS r env t).state.currentFrame = r.currentFrame)
    ∧ (drawPresent MAX_FRAME_DRAWS r env t).outcome ≠ Outcome.blocked
    ∧ ((drawPresent MAX_FRAME_DRAWS r env t).state.drawFences = r.drawFences
        ∨ (drawPresent MAX_FRAME_DRAWS r env t).state.drawFences
            = r.drawFences.map Fence.afterIdle) := by
  by_cases h1 : env.presentResult = VkResult.errorOutOfDateKHR
      ∨ env.presentResult = VkResult.suboptimalKHR
      ∨ r.frameBufferResized = true ∨ env.resizedDuringFrame = true
  · cases hre : env.recreate <;> simp [drawPresent, h1, hre, recreateSwapChain]
  · simp only [not_or] at h1
    obtain ⟨ha, hb, hc, hd⟩ := h1
    by_cases h2 : env.presentResult = VkResult.success <;>
      simp [drawPresent, ha, hb, hc, hd, h2]


theorem FencesKept.refl (slot : Nat) (F : List Fence) : FencesKept slot F F :=
  ⟨rfl, fun _ _ h => h⟩

theorem FencesKept.trans {slot : Nat} {F G H : List Fence} (h1 : FencesKept slot F G)
    (h2 : FencesKept slot G H) : FencesKept slot F H :=
  ⟨h2.1.trans h1.1, fun j hj h => h2.2 j hj (h1.2 j hj h)⟩

theorem FencesKept.set (slot : Nat) (F : List Fence) (a : Fence) :
    FencesKept slot F (F.set slot a) :=
  ⟨List.length_set _ _ _, fun j hj h => by rw [getD_set_other F slot j a _ (Ne.symm hj)]; exact h⟩

theorem FencesKept.afterIdle (slot : Nat) (F : List Fence) :
    FencesKept slot F (F.map Fence.afterIdle) :=
  ⟨List.length_map _ _, fun j _ h => getD_map_afterIdle F j h⟩

theorem drawPresent_fences (MAX_FRAME_DRAWS : Nat) (r : Renderer) (env : DrawEnv)
    (t : List Event) (slot : Nat) :
    FencesKept slot r.drawFences (drawPresent MAX_FRAME_DRAWS r env t).state.drawFences := by
  rcases (drawPresent_state MAX_FRAME_DRAWS r env t).2.2.2 with h | h
  · rw [h]; exact FencesKept.refl _ _
  · rw [h]; exact FencesKept.afterIdle _ _

/-- What `drawFrame` does to the slot index and the fences. -/
theorem drawFrame_state (MAX_FRAME_DRAWS : Nat) (r : Renderer) (env : DrawEnv)
    (t : List Event) :
    ((drawFrame MAX_FRAME_DRAWS r env t).outcome = Outcome.returned →
      (drawFrame MAX_FRAME_DRAWS r env t).state.currentFrame
        = (r.currentFrame + 1) % MAX_FRAME_DRAWS)
    ∧ ((drawFrame MAX_FRAME_DRAWS r env t).outcome ≠ Outcome.returned →
      (drawFrame MAX_FRAME_DRAWS r env t).state.currentFrame = r.currentFrame)
    ∧ (drawFrame MAX_FRAME_DRAWS r env t).outcome ≠ Outcome.blocked
    ∧ FencesKept r.currentFrame r.drawFences
        (drawFrame MAX_FRAME_DRAWS r env t).state.drawFences := by
  have hu := updateUniformBuffers_frame r env.imageIndex
  have hr := recordCommands_frame (updateUniformBuffers r env.imageIndex) env.imageIndex
    env.recordResults
  rcases h : recordCommands (updateUniformBuffers r env.imageIndex) env.imageIndex
    env.recordResults with ⟨r2, _ | e⟩
  · rw [h] at hr
    obtain ⟨hc, _, hf⟩ := hr
    simp only at hc hf
    by_cases hs : env.submitResult = VkResult.success
    · simp only [drawFrame, h, hs, ne_eq, not_true_eq_false, if_false]
      have hp := drawPresent_state MAX_FRAME_DRAWS
        { r2 with drawFences := r2.drawFences.set r.currentFrame Fence.pending } env
        (t ++ [Event.updateUniformBuffers env.imageIndex, Event.recordCommands env.imageIndex]
          ++ [Event.queueSubmit [submitInfo r.currentFrame env.imageIndex] r.currentFrame])
      have hk := drawPresent_fences MAX_FRAME_DRAWS
        { r2 with drawFences := r2.drawFences.set r.currentFrame Fence.pending } env
        (t ++ [Event.updateUniformBuffers env.imageIndex, Event.recordCommands env.imageIndex]
          ++ [Event.queueSubmit [submitInfo r.currentFrame env.imageIndex] r.currentFrame])
        r.currentFrame
      have e1 : r2.currentFrame = r.currentFrame := hc.trans hu.1
      have e2 : r2.drawFences = r.drawFences := hf.trans hu.2.2
      refine ⟨fun ho => (hp.1 ho).trans ?_, fun ho => (hp.2.1 ho).trans e1, hp.2.2.1, ?_⟩
      · show (r2.currentFrame + 1) % MAX_FRAME_DRAWS = _
        rw [e1]
      · refine FencesKept.trans ?_ hk
        show FencesKept r.currentFrame r.drawFences (r2.drawFences.set r.currentFrame Fence.pending)
        rw [e2]
        exact FencesKept.set _ _ _
    · simp only [drawFrame, h, hs, ne_eq, not_false_eq_true, if_true]
      simp [hc, hu.1, hf, hu.2.2, FencesKept.refl]
  · rw [h] at hr
    obtain ⟨hc, _, hf⟩ := hr
    simp only at hc hf
    simp only [drawFrame, h]
    simp [hc, hu.1, hf, hu.2.2, FencesKept.refl]


/-- What a call of `draw` does to the slot index and the fences, and when it
blocks. -/
theorem draw_state (MAX_FRAME_DRAWS : Nat) (r : Renderer) (env : DrawEnv) :
    ((draw MAX_FRAME_DRAWS r env).outcome = Outcome.returned →
      abortsAtAcquisition r env = false →
      (draw MAX_FRAME_DRAWS r env).state.currentFrame
        = (r.currentFrame + 1) % MAX_FRAME_DRAWS)
    ∧ (((draw MAX_FRAME_DRAWS r env).outcome ≠ Outcome.returned
          ∨ abortsAtAcquisition r env = true) →
      (draw MAX_FRAME_DRAWS r env).state.currentFrame = r.currentFrame)
    ∧ FencesKept r.currentFrame r.drawFences (draw MAX_FRAME_DRAWS r env).state.drawFences
    ∧ ((draw MAX_FRAME_DRAWS r env).outcome = Outcome.blocked ↔
        r.drawFences.getD r.currentFrame Fence.unsignaled = Fence.unsignaled) := by
  by_cases hfence : r.drawFences.getD r.currentFrame Fence.unsignaled = Fence.unsignaled
  · rw [draw_of_blocked MAX_FRAME_DRAWS r env hfence]
    exact ⟨fun h => (by cases h), fun _ => rfl, FencesKept.refl _ _, ⟨fun _ => hfence, fun _ => rfl⟩⟩
  · by_cases hstale : env.acquireResult = VkResult.errorOutOfDateKHR
        ∨ r.frameBufferResized = true
    · rw [draw_of_stale MAX_FRAME_DRAWS r env hfence hstale]
      have hab : abortsAtAcquisition r env = true := by
        rcases hstale with h | h <;> simp [abortsAtAcquisition, h]
      have hk : FencesKept r.currentFrame r.drawFences
          ((r.drawFences.set r.currentFrame Fence.unsignaled).map Fence.afterIdle) :=
        FencesKept.trans (FencesKept.set _ _ _) (FencesKept.afterIdle _ _)
      cases env.recreate
      · exact ⟨fun h => (by cases h), fun _ => rfl, FencesKept.set _ _ _,
          ⟨fun h => (by cases h), fun h => absurd h hfence⟩⟩
      · exact ⟨fun _ h => (by rw [hab] at h; cases h), fun _ => rfl, hk,
          ⟨fun h => (by cases h), fun h => absurd h hfence⟩⟩
    · simp only [not_or] at hstale
      obtain ⟨h1, hflag⟩ := hstale
      have hflag : r.frameBufferResized = false := by simpa using hflag
      have hab : abortsAtAcquisition r env = false := by
        simp [abortsAtAcquisition, h1, hflag]
      by_cases hacq : env.acquireResult = VkResult.success
          ∨ env.acquireResult = VkResult.suboptimalKHR
      · rw [draw_of_acquired MAX_FRAME_DRAWS r env hfence hflag hacq]
        have hd := drawFrame_state MAX_FRAME_DRAWS
          { r with drawFences := r.drawFences.set r.currentFrame Fence.unsignaled } env
          [Event.waitForFences r.currentFrame, Event.resetFences r.currentFrame,
           Event.acquireNextImage (Semaphore.imageAvailable r.currentFrame)]
        refine ⟨fun ho _ => hd.1 ho, ?_, ?_, ?_⟩
        · intro h
          rcases h with h | h
          · exact hd.2.1 h
          · rw [hab] at h; cases h
        · exact FencesKept.trans (FencesKept.set _ _ _) hd.2.2.2
        · constructor
          · intro h; exact absurd h hd.2.2.1
          · intro h; exact absurd h hfence
      · simp only [not_or] at hacq
        rw [draw_of_acquire_error MAX_FRAME_DRAWS r env hfence hflag h1 hacq.1 hacq.2]
        exact ⟨fun h => (by cases h), fun _ => rfl, FencesKept.set _ _ _,
          ⟨fun h => (by cases h), fun h => absurd h hfence⟩⟩


/-! ## The loop -/

theorem drawLoop_head_mem (MAX_FRAME_DRAWS : Nat) (r : Renderer) (inp : FrameInput)
    (rest : List FrameInput) :
    (⟨inp.enter r, inp.env, draw MAX_FRAME_DRAWS (inp.enter r) inp.env⟩ : FrameRecord)
      ∈ drawLoop MAX_FRAME_DRAWS r (inp :: rest) := by
  unfold drawLoop
  simp only
  split <;> simp

theorem drawLoop_cons_returned (MAX_FRAME_DRAWS : Nat) (r : Renderer) (inp : FrameInput)
    (rest : List FrameInput)
    (h : (draw MAX_FRAME_DRAWS (inp.enter r) inp.env).outcome = Outcome.returned) :
    drawLoop MAX_FRAME_DRAWS r (inp :: rest)
      = ⟨inp.enter r, inp.env, draw MAX_FRAME_DRAWS (inp.enter r) inp.env⟩
          :: drawLoop MAX_FRAME_DRAWS (draw MAX_FRAME_DRAWS (inp.enter r) inp.env).state rest := by
  rw [drawLoop]
  simp only [h]

theorem drawLoop_cons_stopped (MAX_FRAME_DRAWS : Nat) (r : Renderer) (inp : FrameInput)
    (rest : List FrameInput)
    (h : (draw MAX_FRAME_DRAWS (inp.enter r) inp.env).outcome ≠ Outcome.returned) :
    drawLoop MAX_FRAME_DRAWS r (inp :: rest)
      = [⟨inp.enter r, inp.env, draw MAX_FRAME_DRAWS (inp.enter r) inp.env⟩] := by
  rw [drawLoop]
  simp only

theorem draw_currentFrame_lt (MAX_FRAME_DRAWS : Nat) (r : Renderer) (env : DrawEnv)
    (hlt : r.currentFrame < MAX_FRAME_DRAWS) :
    (draw MAX_FRAME_DRAWS r env).state.currentFrame < MAX_FRAME_DRAWS := by
  have hs := draw_state MAX_FRAME_DRAWS r env
  by_cases h : (draw MAX_FRAME_DRAWS r env).outcome = Outcome.returned
      ∧ abortsAtAcquisition r env = false
  · rw [hs.1 h.1 h.2]
    exact Nat.mod_lt _ (by omega)
  · have h2 : (draw MAX_FRAME_DRAWS r env).outcome ≠ Outcome.returned
        ∨ abortsAtAcquisition r env = true := by
      by_cases h3 : (draw MAX_FRAME_DRAWS r env).outcome = Outcome.returned
      · right
        cases hb : abortsAtAcquisition r env
        · exact absurd ⟨h3, hb⟩ h
        · rfl
      · left; exact h3
    rw [hs.2.1 h2]
    exact hlt

theorem drawLoop_slots (MAX_FRAME_DRAWS : Nat) (inputs : List FrameInput) :
    ∀ r : Renderer, r.currentFrame < MAX_FRAME_DRAWS →
      (∀ f ∈ drawLoop MAX_FRAME_DRAWS r inputs,
        f.result.outcome = Outcome.returned ∧ abortsAtAcquisition f.entry f.env = false) →
      (drawLoop MAX_FRAME_DRAWS r inputs).map FrameRecord.slot
        = (List.range inputs.length).map fun k => (r.currentFrame + k) % MAX_FRAME_DRAWS := by
  induction inputs with
  | nil => intro r _ _; rfl
  | cons inp rest ih =>
    intro r hlt hall
    have hhead := hall _ (drawLoop_head_mem MAX_FRAME_DRAWS r inp rest)
    simp only at hhead
    have hcons := drawLoop_cons_returned MAX_FRAME_DRAWS r inp rest hhead.1
    have hnext := (draw_state MAX_FRAME_DRAWS (inp.enter r) inp.env).1 hhead.1 hhead.2
    have henter : (inp.enter r).currentFrame = r.currentFrame := rfl
    rw [henter] at hnext
    have hlt2 : (draw MAX_FRAME_DRAWS (inp.enter r) inp.env).state.currentFrame
        < MAX_FRAME_DRAWS := by
      rw [hnext]; exact Nat.mod_lt _ (by omega)
    have hrest := ih (draw MAX_FRAME_DRAWS (inp.enter r) inp.env).state hlt2
      (fun f hf => hall f (by rw [hcons]; exact List.mem_cons_of_mem _ hf))
    rw [hcons, List.map_cons, hrest, List.length_cons, List.range_succ_eq_map, List.map_cons,
      List.map_map]
    congr 1
    · simp [FrameRecord.slot, henter, Nat.mod_eq_of_lt hlt]
    · apply List.map_congr_left
      intro k _
      simp only [Function.comp, hnext]
      rw [Nat.mod_add_mod]
      congr 1
      omega

theorem drawLoop_slot_lt (MAX_FRAME_DRAWS : Nat) (inputs : List FrameInput) :
    ∀ r : Renderer, r.currentFrame < MAX_FRAME_DRAWS →
      ∀ f ∈ drawLoop MAX_FRAME_DRAWS r inputs,
        f.slot < MAX_FRAME_DRAWS ∧ f.result.state.currentFrame < MAX_FRAME_DRAWS := by
  induction inputs with
  | nil => intro r _ f hf; simp [drawLoop] at hf
  | cons inp rest ih =>
    intro r hlt f hf
    have hlt1 : (inp.enter r).currentFrame < MAX_FRAME_DRAWS := hlt
    have hlt2 := draw_currentFrame_lt MAX_FRAME_DRAWS (inp.enter r) inp.env hlt1
    by_cases h : (draw MAX_FRAME_DRAWS (inp.enter r) inp.env).outcome = Outcome.returned
    · rw [drawLoop_cons_returned MAX_FRAME_DRAWS r inp rest h] at hf
      rcases List.mem_cons.mp hf with hf | hf
      · subst hf; exact ⟨hlt1, hlt2⟩
      · exact ih _ hlt2 f hf
    · rw [drawLoop_cons_stopped MAX_FRAME_DRAWS r inp rest h] at hf
      rw [List.mem_singleton] at hf
      subst hf; exact ⟨hlt1, hlt2⟩

/-- C5: a call of `draw` that returns and was not aborted at acquisition
advances the slot index to `(slot + 1) % MAX_FRAME_DRAWS`; so in a loop started
at slot 0 in which every call is such a call, the `k`-th call uses slot
`k % MAX_FRAME_DRAWS` (for 2 slots and 5 frames: 0, 1, 0, 1, 0); and in every
loop started below `MAX_FRAME_DRAWS` the slot index stays below it. -/
theorem draw_advances_slot (MAX_FRAME_DRAWS : Nat) (hpos : 0 < MAX_FRAME_DRAWS) :
    (∀ (r : Renderer) (env : DrawEnv),
      (draw MAX_FRAME_DRAWS r env).outcome = Outcome.returned →
      abortsAtAcquisition r env = false →
      (draw MAX_FRAME_DRAWS r env).state.currentFrame
        = (r.currentFrame + 1) % MAX_FRAME_DRAWS)
    ∧ (∀ (r : Renderer) (inputs : List FrameInput), r.currentFrame = 0 →
      (∀ f ∈ drawLoop MAX_FRAME_DRAWS r inputs,
        f.result.outcome = Outcome.returned ∧ abortsAtAcquisition f.entry f.env = false) →
      (drawLoop MAX_FRAME_DRAWS r inputs).map FrameRecord.slot
        = (List.range inputs.length).map fun k => k % MAX_FRAME_DRAWS)
    ∧ (∀ (r : Renderer) (inputs : List FrameInput), r.currentFrame = 0 →
      MAX_FRAME_DRAWS = 2 → inputs.length = 5 →
      (∀ f ∈ drawLoop MAX_FRAME_DRAWS r inputs,
        f.result.outcome = Outcome.returned ∧ abortsAtAcquisition f.entry f.env = false) →
      (drawLoop MAX_FRAME_DRAWS r inputs).map FrameRecord.slot = [0, 1, 0, 1, 0])
    ∧ (∀ (r : Renderer) (inputs : List FrameInput), r.currentFrame < MAX_FRAME_DRAWS →
      ∀ f ∈ drawLoop MAX_FRAME_DRAWS r inputs,
        f.slot < MAX_FRAME_DRAWS ∧ f.result.state.currentFrame < MAX_FRAME_DRAWS) := by
  have hseq : ∀ (r : Renderer) (inputs : List FrameInput), r.currentFrame = 0 →
      (∀ f ∈ drawLoop MAX_FRAME_DRAWS r inputs,
        f.result.outcome = Outcome.returned ∧ abortsAtAcquisition f.entry f.env = false) →
      (drawLoop MAX_FRAME_DRAWS r inputs).map FrameRecord.slot
        = (List.range inputs.length).map fun k => k % MAX_FRAME_DRAWS := by
    intro r inputs h0 hall
    rw [drawLoop_slots MAX_FRAME_DRAWS inputs r (by omega) hall, h0]
    simp
  refine ⟨fun r env => (draw_state MAX_FRAME_DRAWS r env).1, hseq, ?_,
    fun r inputs => drawLoop_slot_lt MAX_FRAME_DRAWS inputs r⟩
  intro r inputs h0 h2 h5 hall
  rw [hseq r inputs h0 hall, h5, h2]
  rfl

theorem draw_advances_slot_witness :
    (drawLoop 2 (exampleRenderer [] [])
        [plainFrame, plainFrame, plainFrame, plainFrame, plainFrame]).map FrameRecord.slot
      = [0, 1, 0, 1, 0] :=
  (draw_advances_slot 2 (by decide)).2.2.1 (exampleRenderer [] [])
    [plainFrame, plainFrame, plainFrame, plainFrame, plainFrame] rfl rfl rfl (by decide)


/-! ## Presentation -/

/-- A call of `draw` whose acquisition, recording and submission succeed
reaches `drawPresent` with the flag still clear. -/
theorem draw_of_submitted (MAX_FRAME_DRAWS : Nat) (r : Renderer) (env : DrawEnv)
    (hfence : r.drawFences.getD r.currentFrame Fence.unsignaled ≠ Fence.unsignaled)
    (hflag : r.frameBufferResized = false)
    (hacq : env.acquireResult = VkResult.success ∨ env.acquireResult = VkResult.suboptimalKHR)
    (hrec : env.recordResults = recordOk)
    (hsub : env.submitResult = VkResult.success) :
    ∃ R : Renderer, R.frameBufferResized = false ∧ R.currentFrame = r.currentFrame
      ∧ draw MAX_FRAME_DRAWS r env
        = drawPresent MAX_FRAME_DRAWS R env
            [Event.waitForFences r.currentFrame, Event.resetFences r.currentFrame,
             Event.acquireNextImage (Semaphore.imageAvailable r.currentFrame),
             Event.updateUniformBuffers env.imageIndex, Event.recordCommands env.imageIndex,
             Event.queueSubmit [submitInfo r.currentFrame env.imageIndex] r.currentFrame] := by
  rw [draw_of_acquired MAX_FRAME_DRAWS r env hfence hflag hacq]
  have hr := recordCommands_frame
    (updateUniformBuffers
      { r with drawFences := r.drawFences.set r.currentFrame Fence.unsignaled } env.imageIndex)
    env.imageIndex env.recordResults
  have hn := recordCommands_recordOk
    (updateUniformBuffers
      { r with drawFences := r.drawFences.set r.currentFrame Fence.unsignaled } env.imageIndex)
    env.imageIndex
  rw [← hrec] at hn
  rcases h : recordCommands
    (updateUniformBuffers
      { r with drawFences := r.drawFences.set r.currentFrame Fence.unsignaled } env.imageIndex)
    env.imageIndex env.recordResults with ⟨r2, o⟩
  rw [h] at hr hn
  simp only at hr hn
  subst hn
  refine ⟨{ r2 with drawFences := r2.drawFences.set r.currentFrame Fence.pending }, ?_, ?_, ?_⟩
  · exact hr.2.1.trans hflag
  · exact hr.1
  · simp only [drawFrame, h, hsub, ne_eq, not_true_eq_false, if_false, List.append_assoc,
      List.cons_append, List.nil_append]

theorem drawPresent_cases (MAX_FRAME_DRAWS : Nat) (R : Renderer) (env : DrawEnv)
    (T : List Event) (hflag : R.frameBufferResized = false)
    (hT : T.count Event.recreateSwapChain = 0) :
    ((env.presentResult = VkResult.errorOutOfDateKHR
        ∨ env.presentResult = VkResult.suboptimalKHR ∨ env.resizedDuringFrame = true) →
      (drawPresent MAX_FRAME_DRAWS R env T).trace.count Event.recreateSwapChain = 1
      ∧ (drawPresent MAX_FRAME_DRAWS R env T).state.frameBufferResized = false
      ∧ (drawPresent MAX_FRAME_DRAWS R env T).outcome ≠ Outcome.raised DrawError.presentFailed
      ∧ (env.recreate ≠ none → (drawPresent MAX_FRAME_DRAWS R env T).outcome = Outcome.returned)
      ∧ (env.recreate = none →
          (drawPresent MAX_FRAME_DRAWS R env T).outcome
            = Outcome.raised DrawError.recreateFailed))
    ∧ (¬ (env.presentResult = VkResult.errorOutOfDateKHR
          ∨ env.presentResult = VkResult.suboptimalKHR ∨ env.resizedDuringFrame = true) →
      env.presentResult ≠ VkResult.success →
      (drawPresent MAX_FRAME_DRAWS R env T).outcome = Outcome.raised DrawError.presentFailed
      ∧ (drawPresent MAX_FRAME_DRAWS R env T).trace.count Event.recreateSwapChain = 0)
    ∧ (env.presentResult = VkResult.success → env.resizedDuringFrame = false →
      (drawPresent MAX_FRAME_DRAWS R env T).outcome = Outcome.returned
      ∧ (drawPresent MAX_FRAME_DRAWS R env T).trace.count Event.recreateSwapChain = 0
      ∧ (drawPresent MAX_FRAME_DRAWS R env T).state.frameBufferResized = false) := by
  refine ⟨?_, ?_, ?_⟩
  · intro hst
    have h1 : env.presentResult = VkResult.errorOutOfDateKHR
        ∨ env.presentResult = VkResult.suboptimalKHR
        ∨ R.frameBufferResized = true ∨ env.resizedDuringFrame = true := by
      rcases hst with h | h | h
      · exact Or.inl h
      · exact Or.inr (Or.inl h)
      · exact Or.inr (Or.inr (Or.inr h))
    cases hre : env.recreate <;>
      simp [drawPresent, h1, hre, recreateSwapChain, List.count_append, hT, List.count_cons]
  · intro hst hne
    simp only [not_or] at hst
    obtain ⟨ha, hb, hc⟩ := hst
    simp [drawPresent, ha, hb, hc, hne, hflag, List.count_append, hT, List.count_cons]
  · intro hs hc
    simp [drawPresent, hs, hc, hflag, List.count_append, hT, List.count_cons]

/-- C7 (as stated): `draw` does not always get through the rebuild after the
present without raising. When the present answers suboptimal and a creation
call inside `recreateSwapChain` fails, the error of the rebuild leaves `draw`,
which has no handler around the call. -/
theorem present_rebuild_failure_raises :
    ({ suboptimalPresent with recreate := none } : DrawEnv).presentResult
      = VkResult.suboptimalKHR
    ∧ (draw 2 triangleScene { suboptimalPresent with recreate := none }).trace.filter
        Event.isPresent
      = [Event.queuePresent [Semaphore.renderFinished 0] 0]
    ∧ (draw 2 triangleScene { suboptimalPresent with recreate := none }).outcome
      = Outcome.raised DrawError.recreateFailed
    ∧ (draw 2 triangleScene { suboptimalPresent with recreate := none }).outcome
      ≠ Outcome.returned := by
  decide

/-- C7 (amended): in a call of `draw` that got as far as presenting (acquisition,
recording and submission succeeded), a present result of out-of-date or
suboptimal, or a resize flag set by then, makes `draw` rebuild the swapchain
exactly once and clear the flag without throwing a presentation error (it
returns whenever the rebuild completes); any other result that is not success
makes it throw the presentation error, with no rebuild; and success with the
flag unset makes it return with no rebuild. `MAX_FRAME_DRAWS` is positive, as
the modulo at the end of `draw` requires. -/
theorem draw_present_outcome (MAX_FRAME_DRAWS : Nat) (hpos : 0 < MAX_FRAME_DRAWS)
    (r : Renderer) (env : DrawEnv)
    (hfence : r.drawFences.getD r.currentFrame Fence.unsignaled ≠ Fence.unsignaled)
    (hflag : r.frameBufferResized = false)
    (hacq : env.acquireResult = VkResult.success ∨ env.acquireResult = VkResult.suboptimalKHR)
    (hrec : env.recordResults = recordOk)
    (hsub : env.submitResult = VkResult.success) :
    ((env.presentResult = VkResult.errorOutOfDateKHR
        ∨ env.presentResult = VkResult.suboptimalKHR ∨ env.resizedDuringFrame = true) →
      (draw MAX_FRAME_DRAWS r env).trace.count Event.recreateSwapChain = 1
      ∧ (draw MAX_FRAME_DRAWS r env).state.frameBufferResized = false
      ∧ (draw MAX_FRAME_DRAWS r env).outcome ≠ Outcome.raised DrawError.presentFailed
      ∧ (env.recreate ≠ none → (draw MAX_FRAME_DRAWS r env).outcome = Outcome.returned)
      ∧ (env.recreate = none →
          (draw MAX_FRAME_DRAWS r env).outcome = Outcome.raised DrawError.recreateFailed))
    ∧ (¬ (env.presentResult = VkResult.errorOutOfDateKHR
          ∨ env.presentResult = VkResult.suboptimalKHR ∨ env.resizedDuringFrame = true) →
      env.presentResult ≠ VkResult.success →
      (draw MAX_FRAME_DRAWS r env).outcome = Outcome.raised DrawError.presentFailed
      ∧ (draw MAX_FRAME_DRAWS r env).trace.count Event.recreateSwapChain = 0)
    ∧ (env.presentResult = VkResult.success → env.resizedDuringFrame = false →
      (draw MAX_FRAME_DRAWS r env).outcome = Outcome.returned
      ∧ (draw MAX_FRAME_DRAWS r env).trace.count Event.recreateSwapChain = 0
      ∧ (draw MAX_FRAME_DRAWS r env).state.frameBufferResized = false) := by
  have _ := hpos
  obtain ⟨R, hR, _, hd⟩ := draw_of_submitted MAX_FRAME_DRAWS r env hfence hflag hacq hrec hsub
  rw [hd]
  exact drawPresent_cases MAX_FRAME_DRAWS R env _ hR (by simp [List.count_cons])

theorem draw_present_outcome_witness :
    (draw 2 triangleScene suboptimalPresent).trace.count Event.recreateSwapChain = 1
    ∧ (draw 2 triangleScene suboptimalPresent).state.frameBufferResized = false
    ∧ (draw 2 triangleScene suboptimalPresent).outcome ≠ Outcome.raised DrawError.presentFailed
    ∧ (suboptimalPresent.recreate ≠ none →
        (draw 2 triangleScene suboptimalPresent).outcome = Outcome.returned)
    ∧ (suboptimalPresent.recreate = none →
        (draw 2 triangleScene suboptimalPresent).outcome
          = Outcome.raised DrawError.recreateFailed) :=
  (draw_present_outcome 2 (by decide) triangleScene suboptimalPresent (by decide) rfl
    (Or.inl rfl) rfl rfl).1 (Or.inr (Or.inl rfl))


/-! ## Fence discipline -/

/-- The two shapes of the trace of `drawPresent`. -/
theorem drawPresent_trace_eq (MAX_FRAME_DRAWS : Nat) (r : Renderer) (env : DrawEnv)
    (t : List Event) :
    (drawPresent MAX_FRAME_DRAWS r env t).trace
        = t ++ [Event.queuePresent [Semaphore.renderFinished r.currentFrame] env.imageIndex]
    ∨ (drawPresent MAX_FRAME_DRAWS r env t).trace
        = t ++ [Event.queuePresent [Semaphore.renderFinished r.currentFrame] env.imageIndex,
                Event.recreateSwapChain] := by
  by_cases h1 : env.presentResult = VkResult.errorOutOfDateKHR
      ∨ env.presentResult = VkResult.suboptimalKHR
      ∨ r.frameBufferResized = true ∨ env.resizedDuringFrame = true
  · right
    cases hre : env.recreate <;> simp [drawPresent, h1, hre]
  · left
    simp only [not_or] at h1
    obtain ⟨ha, hb, hc, hd⟩ := h1
    by_cases h2 : env.presentResult = VkResult.success <;>
      simp [drawPresent, ha, hb, hc, hd, h2]

/-- A call of `draw` whose acquisition and recording succeed and whose
submission fails throws right after the submit call. -/
theorem draw_of_submit_error (MAX_FRAME_DRAWS : Nat) (r : Renderer) (env : DrawEnv)
    (hfence : r.drawFences.getD r.currentFrame Fence.unsignaled ≠ Fence.unsignaled)
    (hflag : r.frameBufferResized = false)
    (hacq : env.acquireResult = VkResult.success ∨ env.acquireResult = VkResult.suboptimalKHR)
    (hrec : env.recordResults = recordOk)
    (hsub : env.submitResult ≠ VkResult.success) :
    (draw MAX_FRAME_DRAWS r env).outcome = Outcome.raised DrawError.submitFailed
    ∧ (draw MAX_FRAME_DRAWS r env).trace
        = [Event.waitForFences r.currentFrame, Event.resetFences r.currentFrame,
           Event.acquireNextImage (Semaphore.imageAvailable r.currentFrame),
           Event.updateUniformBuffers env.imageIndex, Event.recordCommands env.imageIndex,
           Event.queueSubmit [submitInfo r.currentFrame env.imageIndex] r.currentFrame] := by
  rw [draw_of_acquired MAX_FRAME_DRAWS r env hfence hflag hacq]
  have hn := recordCommands_recordOk
    (updateUniformBuffers
      { r with drawFences := r.drawFences.set r.currentFrame Fence.unsignaled } env.imageIndex)
    env.imageIndex
  rw [← hrec] at hn
  rcases h : recordCommands
    (updateUniformBuffers
      { r with drawFences := r.drawFences.set r.currentFrame Fence.unsignaled } env.imageIndex)
    env.imageIndex env.recordResults with ⟨r2, o⟩
  rw [h] at hn
  simp only at hn
  subst hn
  simp [drawFrame, h, hsub]

/-- C11: in a call of `draw` in slot `s` that acquired image `i` and went on
to record without error, there is exactly one queue submission: one batch of
the command buffers `commandBuffers[i]`, `imguiCommandBuffers[i]` in that
order, waiting on `imageAvailable[s]` at the colour-attachment-output stage,
signalling `renderFinished[s]`, with fence `drawFences[s]`. When the submission
succeeds the one present of the call comes right after it, presents image `i`
and waits on `renderFinished[s]`; when it fails `draw` throws and presents
nothing. -/
theorem draw_single_submission (MAX_FRAME_DRAWS : Nat) (r : Renderer) (env : DrawEnv)
    (hfence : r.drawFences.getD r.currentFrame Fence.unsignaled ≠ Fence.unsignaled)
    (hflag : r.frameBufferResized = false)
    (hacq : env.acquireResult = VkResult.success ∨ env.acquireResult = VkResult.suboptimalKHR)
    (hrec : env.recordResults = recordOk) :
    (draw MAX_FRAME_DRAWS r env).trace.filter Event.isSubmit
      = [Event.queueSubmit
          [{ waitSemaphores := [Semaphore.imageAvailable r.currentFrame]
             waitDstStageMask := [PipelineStage.colorAttachmentOutput]
             commandBuffers := [CommandBufferRef.commandBuffers env.imageIndex,
               CommandBufferRef.imguiCommandBuffers env.imageIndex]
             signalSemaphores := [Semaphore.renderFinished r.currentFrame] }]
          r.currentFrame]
    ∧ (env.submitResult = VkResult.success →
        (draw MAX_FRAME_DRAWS r env).trace.filter Event.isPresent
          = [Event.queuePresent [Semaphore.renderFinished r.currentFrame] env.imageIndex]
        ∧ ∃ before after, (draw MAX_FRAME_DRAWS r env).trace
            = before
              ++ [Event.queueSubmit [submitInfo r.currentFrame env.imageIndex] r.currentFrame,
                  Event.queuePresent [Semaphore.renderFinished r.currentFrame] env.imageIndex]
              ++ after)
    ∧ (env.submitResult ≠ VkResult.success →
        (draw MAX_FRAME_DRAWS r env).outcome = Outcome.raised DrawError.submitFailed
        ∧ (draw MAX_FRAME_DRAWS r env).trace.filter Event.isPresent = []) := by
  by_cases hsub : env.submitResult = VkResult.success
  · obtain ⟨R, _, hcur, hd⟩ :=
      draw_of_submitted MAX_FRAME_DRAWS r env hfence hflag hacq hrec hsub
    rw [hd]
    rcases drawPresent_trace_eq MAX_FRAME_DRAWS R env
      [Event.waitForFences r.currentFrame, Event.resetFences r.currentFrame,
       Event.acquireNextImage (Semaphore.imageAvailable r.currentFrame),
       Event.updateUniformBuffers env.imageIndex, Event.recordCommands env.imageIndex,
       Event.queueSubmit [submitInfo r.currentFrame env.imageIndex] r.currentFrame]
      with ht | ht
    · rw [ht, hcur]
      refine ⟨by simp [Event.isSubmit, submitInfo], fun _ => ⟨by simp [Event.isPresent], ?_⟩,
        fun h => absurd hsub h⟩
      exact ⟨[Event.waitForFences r.currentFrame, Event.resetFences r.currentFrame,
        Event.acquireNextImage (Semaphore.imageAvailable r.currentFrame),
        Event.updateUniformBuffers env.imageIndex, Event.recordCommands env.imageIndex], [],
        by simp⟩
    · rw [ht, hcur]
      refine ⟨by simp [Event.isSubmit, submitInfo], fun _ => ⟨by simp [Event.isPresent], ?_⟩,
        fun h => absurd hsub h⟩
      exact ⟨[Event.waitForFences r.currentFrame, Event.resetFences r.currentFrame,
        Event.acquireNextImage (Semaphore.imageAvailable r.currentFrame),
        Event.updateUniformBuffers env.imageIndex, Event.recordCommands env.imageIndex],
        [Event.recreateSwapChain], by simp⟩
  · obtain ⟨ho, ht⟩ := draw_of_submit_error MAX_FRAME_DRAWS r env hfence hflag hacq hrec hsub
    rw [ht]
    exact ⟨by simp [Event.isSubmit, submitInfo], fun h => absurd h hsub,
      fun _ => ⟨ho, by simp [Event.isPresent]⟩⟩

theorem draw_single_submission_witness :
    (draw 2 triangleScene (frameOk 0)).trace.filter Event.isSubmit
      = [Event.queueSubmit
          [{ waitSemaphores := [Semaphore.imageAvailable triangleScene.currentFrame]
             waitDstStageMask := [PipelineStage.colorAttachmentOutput]
             commandBuffers := [CommandBufferRef.commandBuffers (frameOk 0).imageIndex,
               CommandBufferRef.imguiCommandBuffers (frameOk 0).imageIndex]
             signalSemaphores := [Semaphore.renderFinished triangleScene.currentFrame] }]
          triangleScene.currentFrame] :=
  (draw_single_submission 2 triangleScene (frameOk 0) (by decide) rfl (Or.inl rfl) rfl).1

/-! ## Device selection -/

/-- C12 (evaluation at the failing input): with one enumerated device that
lacks anisotropic sampling, `checkDeviceSuitable` is false for it and
`getPhysicalDevice` still returns, with no device assigned; it throws only for
the empty device list. -/
theorem getPhysicalDevice_none_suitable :
    checkDeviceSuitable exampleExtensions (exampleDevice 0) = false
    ∧ getPhysicalDevice exampleExtensions [exampleDevice 0] = Except.ok ⟨none, none⟩
    ∧ getPhysicalDevice exampleExtensions [exampleDevice 0]
        ≠ Except.error InitError.noVulkanDevice
    ∧ getPhysicalDevice exampleExtensions [] = Except.error InitError.noVulkanDevice := by
  have h : getPhysicalDevice exampleExtensions [exampleDevice 0] = Except.ok ⟨none, none⟩ :=
    rfl
  refine ⟨by decide, h, ?_, rfl⟩
  rw [h]
  intro hne
  cases hne

theorem getQueueFamiliesFrom_isValid (l : List QueueFamily) :
    ∀ (i : Int) (indicies : QueueFamilyIndicies), 0 ≤ i →
      ((getQueueFamiliesFrom l i indicies).isValid = true ↔
        (0 ≤ indicies.graphicsFamily
          ∨ ∃ q ∈ l, 0 < q.queueCount ∧ q.queueFlags &&& VK_QUEUE_GRAPHICS_BIT ≠ 0)
        ∧ (0 ≤ indicies.presentationFamily
          ∨ ∃ q ∈ l, 0 < q.queueCount ∧ q.presentationSupport = VK_TRUE)) := by
  induction l with
  | nil =>
    intro i indicies _
    simp [getQueueFamiliesFrom, QueueFamilyIndicies.isValid]
  | cons q rest ih =>
    intro i indicies hi
    have hi1 : 0 ≤ i + 1 := by omega
    have hrec : ∀ ind : QueueFamilyIndicies,
        (0 ≤ (getQueueFamiliesFrom rest (i + 1) ind).graphicsFamily
          ∧ 0 ≤ (getQueueFamiliesFrom rest (i + 1) ind).presentationFamily) ↔
        (0 ≤ ind.graphicsFamily
          ∨ ∃ q ∈ rest, 0 < q.queueCount ∧ q.queueFlags &&& VK_QUEUE_GRAPHICS_BIT ≠ 0)
        ∧ (0 ≤ ind.presentationFamily
          ∨ ∃ q ∈ rest, 0 < q.queueCount ∧ q.presentationSupport = VK_TRUE) := by
      intro ind
      simpa [QueueFamilyIndicies.isValid] using ih (i + 1) ind hi1
    by_cases hc : 0 < q.queueCount <;>
    by_cases hG : q.queueFlags &&& VK_QUEUE_GRAPHICS_BIT = 0 <;>
    by_cases hP : q.presentationSupport = VK_TRUE <;>
    by_cases hvg : 0 ≤ indicies.graphicsFamily <;>
    by_cases hvp : 0 ≤ indicies.presentationFamily <;>
    simp [getQueueFamiliesFrom, QueueFamilyIndicies.isValid, hc, hG, hP, hvg, hvp, hi, hrec]

theorem checkDeviceExtensionSupport_iff (deviceExtensions : List String)
    (hreq : deviceExtensions ≠ []) (device : PhysicalDevice) :
    checkDeviceExtensionSupport deviceExtensions device = true ↔
      ∀ e ∈ deviceExtensions, e ∈ device.extensions := by
  unfold checkDeviceExtensionSupport
  by_cases h0 : device.extensions.length = 0
  · have hnil : device.extensions = [] := List.length_eq_zero.mp h0
    obtain ⟨e, rest, he⟩ := List.exists_cons_of_ne_nil hreq
    simp [h0, hnil, he]
    exact ⟨e, fun h => absurd rfl h⟩
  · simp only [h0, if_false, List.all_eq_true, List.any_eq_true, decide_eq_true_eq]
    constructor
    · intro h e he
      obtain ⟨x, hx, hxe⟩ := h e he
      exact hxe ▸ hx
    · intro h e he
      exact ⟨e, h e he, rfl⟩

theorem checkDeviceSuitable_iff (deviceExtensions : List String)
    (hreq : deviceExtensions ≠ []) (device : PhysicalDevice)
    (hbool : device.samplerAnisotropy = 0 ∨ device.samplerAnisotropy = VK_TRUE) :
    checkDeviceSuitable deviceExtensions device = true ↔ Suitable deviceExtensions device := by
  have hq := getQueueFamiliesFrom_isValid device.queueFamilies 0 ⟨-1, -1⟩ (le_refl 0)
  have he := checkDeviceExtensionSupport_iff deviceExtensions hreq device
  unfold checkDeviceSuitable Suitable getQueueFamilies getSwapChainDetails
  simp only [Bool.and_eq_true, hq, he, decide_eq_true_eq]
  have hneg : ¬ (0 : Int) ≤ -1 := by omega
  by_cases hall : ∀ e ∈ deviceExtensions, e ∈ device.extensions
  · rw [if_pos hall]
    rcases hbool with hb | hb
    · simp [hneg, hb, VK_TRUE]
    · by_cases hf : device.swapChainDetails.formats = [] <;>
      by_cases hp : device.swapChainDetails.presentationMode = [] <;>
      simp [hneg, hb, hf, hp, VK_TRUE]
      all_goals tauto
  · rw [if_neg hall]
    simp [hneg, hall]

theorem firstSuitable_split (deviceExtensions : List String) (l : List PhysicalDevice) :
    (∃ d ∈ l, checkDeviceSuitable deviceExtensions d = true) →
    ∃ pre d post, l = pre ++ d :: post
      ∧ (∀ x ∈ pre, checkDeviceSuitable deviceExtensions x = false)
      ∧ checkDeviceSuitable deviceExtensions d = true
      ∧ firstSuitable deviceExtensions l = some d := by
  induction l with
  | nil => intro h; simp at h
  | cons x rest ih =>
    intro h
    by_cases hx : checkDeviceSuitable deviceExtensions x = true
    · exact ⟨[], x, rest, rfl, by simp, hx, by simp [firstSuitable, hx]⟩
    · have hrest : ∃ d ∈ rest, checkDeviceSuitable deviceExtensions d = true := by
        obtain ⟨d, hd, hs⟩ := h
        rcases List.mem_cons.mp hd with rfl | hd
        · exact absurd hs hx
        · exact ⟨d, hd, hs⟩
      obtain ⟨pre, d, post, hl, hpre, hd, hf⟩ := ih hrest
      refine ⟨x :: pre, d, post, by rw [hl]; rfl, ?_, hd, by simp [firstSuitable, hx, hf]⟩
      intro y hy
      rcases List.mem_cons.mp hy with rfl | hy
      · simpa using hx
      · exact hpre y hy

/-- C13: for a non-empty list of required extensions and devices whose
`samplerAnisotropy` is a `VkBool32` (0 or 1), `checkDeviceSuitable` is true for
a device exactly when it has a graphics-capable and a presentation-capable
queue family, supports every required extension, offers at least one surface
format and one presentation mode and supports anisotropic sampling; and when
some enumerated device is such a device, `getPhysicalDevice` returns with the
first such device in enumeration order selected. -/
theorem getPhysicalDevice_first_suitable (deviceExtensions : List String)
    (hreq : deviceExtensions ≠ []) :
    (∀ device : PhysicalDevice,
      (device.samplerAnisotropy = 0 ∨ device.samplerAnisotropy = VK_TRUE) →
      (checkDeviceSuitable deviceExtensions device = true ↔ Suitable deviceExtensions device))
    ∧ (∀ deviceList : List PhysicalDevice,
      (∀ d ∈ deviceList, d.samplerAnisotropy = 0 ∨ d.samplerAnisotropy = VK_TRUE) →
      (∃ d ∈ deviceList, Suitable deviceExtensions d) →
      ∃ pre d post, deviceList = pre ++ d :: post
        ∧ (∀ x ∈ pre, ¬ Suitable deviceExtensions x)
        ∧ Suitable deviceExtensions d
        ∧ getPhysicalDevice deviceExtensions deviceList
            = Except.ok ⟨some d, some d.minUniformBufferOffsetAlignment⟩) := by
  refine ⟨fun device hb => checkDeviceSuitable_iff deviceExtensions hreq device hb, ?_⟩
  intro deviceList hbool hex
  have hex2 : ∃ d ∈ deviceList, checkDeviceSuitable deviceExtensions d = true := by
    obtain ⟨d, hd, hs⟩ := hex
    exact ⟨d, hd, (checkDeviceSuitable_iff deviceExtensions hreq d (hbool d hd)).mpr hs⟩
  obtain ⟨pre, d, post, hl, hpre, hd, hf⟩ := firstSuitable_split deviceExtensions deviceList hex2
  have hdmem : d ∈ deviceList := by rw [hl]; simp
  refine ⟨pre, d, post, hl, ?_, ?_, ?_⟩
  · intro x hx hsx
    have hxmem : x ∈ deviceList := by rw [hl]; simp [hx]
    have := (checkDeviceSuitable_iff deviceExtensions hreq x (hbool x hxmem)).mpr hsx
    rw [hpre x hx] at this
    cases this
  · exact (checkDeviceSuitable_iff deviceExtensions hreq d (hbool d hdmem)).mp hd
  · have hne : deviceList.length ≠ 0 := by rw [hl]; simp
    simp [getPhysicalDevice, hne, hf]

theorem getPhysicalDevice_first_suitable_witness :
    checkDeviceSuitable exampleExtensions (exampleDevice 1) = true
      ↔ Suitable exampleExtensions (exampleDevice 1) :=
  (getPhysicalDevice_first_suitable exampleExtensions (by decide)).1 (exampleDevice 1)
    (Or.inr rfl)


/-! ## Swapchain settings -/

/-- C14 (evaluation at the failing input): for the formats
`(R5G6B5_UNORM_PACK16, sRGB-nonlinear), (B8G8R8A8_UNORM, sRGB-nonlinear)`
`chooseBestSurfaceFormat` returns the first entry, whose format is neither
`R8G8B8A8_UNORM` nor `B8G8R8A8_UNORM`, and not the second, which is the first
entry with a preferred format and the sRGB-nonlinear colour space. -/
theorem chooseBestSurfaceFormat_ignores_format :
    chooseBestSurfaceFormat
        [⟨VK_FORMAT_R5G6B5_UNORM_PACK16, VK_COLOR_SPACE_SRGB_NONLINEAR_KHR⟩,
         ⟨VK_FORMAT_B8G8R8A8_UNORM, VK_COLOR_SPACE_SRGB_NONLINEAR_KHR⟩]
      = some ⟨VK_FORMAT_R5G6B5_UNORM_PACK16, VK_COLOR_SPACE_SRGB_NONLINEAR_KHR⟩
    ∧ firstPreferredFormat
        [⟨VK_FORMAT_R5G6B5_UNORM_PACK16, VK_COLOR_SPACE_SRGB_NONLINEAR_KHR⟩,
         ⟨VK_FORMAT_B8G8R8A8_UNORM, VK_COLOR_SPACE_SRGB_NONLINEAR_KHR⟩]
      = some ⟨VK_FORMAT_B8G8R8A8_UNORM, VK_COLOR_SPACE_SRGB_NONLINEAR_KHR⟩
    ∧ VK_FORMAT_R5G6B5_UNORM_PACK16 ≠ VK_FORMAT_R8G8B8A8_UNORM
    ∧ VK_FORMAT_R5G6B5_UNORM_PACK16 ≠ VK_FORMAT_B8G8R8A8_UNORM := by
  decide

/-- C15: for every list of presentation modes `chooseBestPresentationMode`
returns mailbox exactly when mailbox occurs in the list, and FIFO otherwise,
in particular for the empty list. -/
theorem chooseBestPresentationMode_mailbox_iff (presentationModes : List VkPresentModeKHR) :
    (chooseBestPresentationMode presentationModes = VkPresentModeKHR.mailbox
      ↔ VkPresentModeKHR.mailbox ∈ presentationModes)
    ∧ (VkPresentModeKHR.mailbox ∉ presentationModes →
        chooseBestPresentationMode presentationModes = VkPresentModeKHR.fifo)
    ∧ chooseBestPresentationMode [] = VkPresentModeKHR.fifo := by
  induction presentationModes with
  | nil => simp [chooseBestPresentationMode]
  | cons m rest ih =>
    by_cases hm : m = VkPresentModeKHR.mailbox
    · simp [chooseBestPresentationMode, hm]
    · have hm2 : ¬ VkPresentModeKHR.mailbox = m := fun h => hm h.symm
      simp only [chooseBestPresentationMode, hm, if_false, List.mem_cons, hm2, false_or,
        not_false_eq_true, and_true]
      exact ⟨ih.1, ih.2.1⟩

theorem intToU32_lt (x : Int) : intToU32 x < 2 ^ 32 := by
  unfold intToU32
  have h1 : (0 : Int) ≤ x % 2 ^ 32 := Int.emod_nonneg _ (by norm_num)
  have h2 : x % 2 ^ 32 < 2 ^ 32 := Int.emod_lt_of_pos _ (by norm_num)
  omega

/-- C16: `chooseSwapExtent` returns the current extent of the surface when
its width is not the sentinel `2^32 - 1`; when it is, it returns the framebuffer
size (converted to `uint32_t`) with each component clamped as
`max(min, min(max, v))`, so that a component whose bounds satisfy `min ≤ max`
lies between them. -/
theorem chooseSwapExtent_clamped (surfaceCapabilities : VkSurfaceCapabilitiesKHR)
    (framebufferSize : Int × Int) :
    (surfaceCapabilities.currentExtent.width ≠ 2 ^ 32 - 1 →
      chooseSwapExtent surfaceCapabilities framebufferSize = surfaceCapabilities.currentExtent)
    ∧ (surfaceCapabilities.currentExtent.width = 2 ^ 32 - 1 →
      (chooseSwapExtent surfaceCapabilities framebufferSize).width
          = max surfaceCapabilities.minImageExtent.width
              (min surfaceCapabilities.maxImageExtent.width (intToU32 framebufferSize.1))
      ∧ (chooseSwapExtent surfaceCapabilities framebufferSize).height
          = max surfaceCapabilities.minImageExtent.height
              (min surfaceCapabilities.maxImageExtent.height (intToU32 framebufferSize.2))
      ∧ (surfaceCapabilities.minImageExtent.width ≤ surfaceCapabilities.maxImageExtent.width →
          surfaceCapabilities.minImageExtent.width
              ≤ (chooseSwapExtent surfaceCapabilities framebufferSize).width
          ∧ (chooseSwapExtent surfaceCapabilities framebufferSize).width
              ≤ surfaceCapabilities.maxImageExtent.width)
      ∧ (surfaceCapabilities.minImageExtent.height ≤ surfaceCapabilities.maxImageExtent.height →
          surfaceCapabilities.minImageExtent.height
              ≤ (chooseSwapExtent surfaceCapabilities framebufferSize).height
          ∧ (chooseSwapExtent surfaceCapabilities framebufferSize).height
              ≤ surfaceCapabilities.maxImageExtent.height))
    ∧ (∀ w h : Nat, w < 2 ^ 31 → h < 2 ^ 31 →
        intToU32 (w : Int) = w ∧ intToU32 (h : Int) = h) := by
  refine ⟨?_, ?_, ?_⟩
  · intro h
    unfold chooseSwapExtent
    rw [if_pos h]
  · intro h
    unfold chooseSwapExtent
    rw [if_neg (fun hn => hn h)]
    refine ⟨rfl, rfl, ?_, ?_⟩
    · intro hle
      constructor
      · exact le_max_left _ _
      · exact max_le hle (min_le_left _ _)
    · intro hle
      constructor
      · exact le_max_left _ _
      · exact max_le hle (min_le_left _ _)
  · intro w h hw hh
    unfold intToU32
    constructor <;> omega

/-- C17: the image count requested by `createSwapChain` is the 32-bit value of
`minImageCount + 1` when `maxImageCount` is 0 or at least that value, and
`maxImageCount` otherwise; for `minImageCount < 2^32 - 1` that value is
`minImageCount + 1`, the request does not exceed a non-zero `maxImageCount`,
and it is not below `minImageCount` when `maxImageCount ≥ minImageCount`. -/
theorem requestedImageCount_clamped (surfaceCapabilities : VkSurfaceCapabilitiesKHR) :
    requestedImageCount surfaceCapabilities
      = (if surfaceCapabilities.maxImageCount = 0
            ∨ toU32 (surfaceCapabilities.minImageCount + 1) ≤ surfaceCapabilities.maxImageCount
          then toU32 (surfaceCapabilities.minImageCount + 1)
          else surfaceCapabilities.maxImageCount)
    ∧ (surfaceCapabilities.minImageCount < 2 ^ 32 - 1 →
      toU32 (surfaceCapabilities.minImageCount + 1) = surfaceCapabilities.minImageCount + 1
      ∧ requestedImageCount surfaceCapabilities
        = (if surfaceCapabilities.maxImageCount = 0
              ∨ surfaceCapabilities.minImageCount + 1 ≤ surfaceCapabilities.maxImageCount
            then surfaceCapabilities.minImageCount + 1
            else surfaceCapabilities.maxImageCount)
      ∧ (surfaceCapabilities.maxImageCount ≠ 0 →
          requestedImageCount surfaceCapabilities ≤ surfaceCapabilities.maxImageCount)
      ∧ (surfaceCapabilities.minImageCount ≤ surfaceCapabilities.maxImageCount →
          surfaceCapabilities.minImageCount ≤ requestedImageCount surfaceCapabilities)) := by
  constructor
  · unfold requestedImageCount
    simp only
    split_ifs with h1 h2 h2 <;> first | rfl | omega
  · intro hmin
    have hu : toU32 (surfaceCapabilities.minImageCount + 1)
        = surfaceCapabilities.minImageCount + 1 := by
      unfold toU32
      exact Nat.mod_eq_of_lt (by omega)
    unfold requestedImageCount
    simp only [hu]
    refine ⟨trivial, ?_, ?_, ?_⟩
    · split_ifs with h1 h2 h2 <;> first | rfl | omega
    · intro hne
      split_ifs with h1 <;> omega
    · intro hle
      split_ifs with h1 <;> omega


/-! ## Start-up and swapchain rebuild -/

theorem runSteps_ok (deviceExtensions : List String) (w : World) (steps : List InitStep) :
    ∀ r r1 : Resources, runSteps deviceExtensions w steps r = Except.ok r1 →
      r1 = steps.foldl (fun acc step => stepEffect w step acc) r
      ∧ ∀ step ∈ steps, stepThrows deviceExtensions w step = none := by
  induction steps with
  | nil =>
    intro r r1 h
    simp only [runSteps, Except.ok.injEq] at h
    exact ⟨h.symm, by simp⟩
  | cons step rest ih =>
    intro r r1 h
    cases hs : stepThrows deviceExtensions w step with
    | some e => simp [runSteps, hs] at h
    | none =>
      simp only [runSteps, hs] at h
      obtain ⟨h1, h2⟩ := ih _ _ h
      refine ⟨h1, ?_⟩
      intro s hmem
      rcases List.mem_cons.mp hmem with rfl | hmem
      · exact hs
      · exact h2 s hmem

theorem runSteps_of_none (deviceExtensions : List String) (w : World) (steps : List InitStep) :
    ∀ r : Resources, (∀ step ∈ steps, stepThrows deviceExtensions w step = none) →
      runSteps deviceExtensions w steps r
        = Except.ok (steps.foldl (fun acc step => stepEffect w step acc) r) := by
  induction steps with
  | nil => intro r _; rfl
  | cons step rest ih =>
    intro r h
    have hs := h step (List.mem_cons_self _ _)
    simp only [runSteps, hs, List.foldl_cons]
    exact ih _ (fun s hmem => h s (List.mem_cons_of_mem _ hmem))

/-- The vectors after the steps of `init` when none throws. -/
theorem init_effect (w : World) :
    initSteps.foldl (fun acc step => stepEffect w step acc) Resources.fresh
      = { swapChainImages :=
            w.swapchainImages (requestedImageCount w.swapChainDetails.surfaceCapabilities)
          swapChainExtent :=
            chooseSwapExtent w.swapChainDetails.surfaceCapabilities w.framebufferSize
          swapChainImageFormat :=
            (chooseBestSurfaceFormat w.swapChainDetails.formats).map VkSurfaceFormatKHR.format
          swapChainFramebuffers :=
            w.swapchainImages (requestedImageCount w.swapChainDetails.surfaceCapabilities)
          imguiFrameBuffers :=
            w.swapchainImages (requestedImageCount w.swapChainDetails.surfaceCapabilities)
          commandBuffers :=
            w.swapchainImages (requestedImageCount w.swapChainDetails.surfaceCapabilities)
          imguiCommandBuffers :=
            w.swapchainImages (requestedImageCount w.swapChainDetails.surfaceCapabilities)
          vpUniformBuffer :=
            w.swapchainImages (requestedImageCount w.swapChainDetails.surfaceCapabilities)
          modelDUniformBuffer :=
            w.swapchainImages (requestedImageCount w.swapChainDetails.surfaceCapabilities)
          directionalLightUniformBuffer :=
            w.swapchainImages (requestedImageCount w.swapChainDetails.surfaceCapabilities)
          cameraPositionUniformBuffer :=
            w.swapchainImages (requestedImageCount w.swapChainDetails.surfaceCapabilities)
          descriptorSets :=
            w.swapchainImages (requestedImageCount w.swapChainDetails.surfaceCapabilities) } := by
  simp [initSteps, stepEffect, createSwapChain, createFrameBuffers, createUniformBuffers,
    createCommandBuffers, createDescriptorSets, Resources.fresh]

/-- The vectors after `cleanupSwapChain` and the steps of `recreateSwapChain`
when none throws. -/
theorem recreate_effect (w : World) (r : Resources) :
    recreateSteps.foldl (fun acc step => stepEffect w step acc) (cleanupSwapChain r)
      = { r with
          swapChainImages :=
            w.swapchainImages (requestedImageCount w.swapChainDetails.surfaceCapabilities)
          swapChainExtent :=
            chooseSwapExtent w.swapChainDetails.surfaceCapabilities w.framebufferSize
          swapChainImageFormat :=
            (chooseBestSurfaceFormat w.swapChainDetails.formats).map VkSurfaceFormatKHR.format
          swapChainFramebuffers :=
            w.swapchainImages (requestedImageCount w.swapChainDetails.surfaceCapabilities)
          imguiFrameBuffers :=
            w.swapchainImages (requestedImageCount w.swapChainDetails.surfaceCapabilities)
          commandBuffers :=
            w.swapchainImages (requestedImageCount w.swapChainDetails.surfaceCapabilities)
          imguiCommandBuffers :=
            w.swapchainImages
              (requestedImageCount w.swapChainDetails.surfaceCapabilities) } := by
  simp [recreateSteps, stepEffect, createSwapChain, createFrameBuffers, createCommandBuffers,
    cleanupSwapChain]

theorem recreateSwapChainSteps_done (deviceExtensions : List String) (w : World)
    (r r1 : Resources) (h : recreateSwapChainSteps deviceExtensions w r = Completion.done r1) :
    ¬ (w.framebufferSize.1 = 0 ∨ w.framebufferSize.2 = 0)
    ∧ (∀ step ∈ recreateSteps, stepThrows deviceExtensions w step = none)
    ∧ r1 = recreateSteps.foldl (fun acc step => stepEffect w step acc) (cleanupSwapChain r) := by
  unfold recreateSwapChainSteps at h
  by_cases hz : w.framebufferSize.1 = 0 ∨ w.framebufferSize.2 = 0
  · rw [if_pos hz] at h
    cases h
  · rw [if_neg hz] at h
    cases hr : runSteps deviceExtensions w recreateSteps (cleanupSwapChain r) with
    | error e => rw [hr] at h; cases h
    | ok r2 =>
      rw [hr] at h
      simp only [Completion.done.injEq] at h
      subst h
      obtain ⟨h1, h2⟩ := runSteps_ok deviceExtensions w recreateSteps _ _ hr
      exact ⟨hz, h2, h1⟩

/-- C18: after `init` and after `recreateSwapChain` the numbers of swapchain
images, scene framebuffers, overlay framebuffers, scene command buffers and
overlay command buffers are one and the same number, the number of images of
the swapchain just created. This holds of every `init` that succeeds and of
every rebuild that returns; and `init` does succeed when none of its steps
throws, as a rebuild does return when the framebuffer has a non-zero size and
none of its steps throws. -/
theorem swapchain_counts_agree (deviceExtensions : List String) :
    (∀ (w : World) (r : Resources), init deviceExtensions w = Except.ok r →
      CountsAgree r
      ∧ r.swapChainImages
          = w.swapchainImages (requestedImageCount w.swapChainDetails.surfaceCapabilities))
    ∧ (∀ (w : World) (r r1 : Resources),
      recreateSwapChainSteps deviceExtensions w r = Completion.done r1 →
      CountsAgree r1
      ∧ r1.swapChainImages
          = w.swapchainImages (requestedImageCount w.swapChainDetails.surfaceCapabilities))
    ∧ (∀ (w : World), (∀ step ∈ initSteps, stepThrows deviceExtensions w step = none) →
      ∃ r, init deviceExtensions w = Except.ok r
        ∧ CountsAgree r
        ∧ r.swapChainImages
            = w.swapchainImages (requestedImageCount w.swapChainDetails.surfaceCapabilities))
    ∧ (∀ (w : World) (r : Resources),
      ¬ (w.framebufferSize.1 = 0 ∨ w.framebufferSize.2 = 0) →
      (∀ step ∈ recreateSteps, stepThrows deviceExtensions w step = none) →
      ∃ r1, recreateSwapChainSteps deviceExtensions w r = Completion.done r1
        ∧ CountsAgree r1
        ∧ r1.swapChainImages
            = w.swapchainImages (requestedImageCount w.swapChainDetails.surfaceCapabilities)) := by
  refine ⟨?_, ?_, ?_, ?_⟩
  · intro w r h
    have h1 := (runSteps_ok deviceExtensions w initSteps _ _ h).1
    rw [init_effect] at h1
    subst h1
    exact ⟨⟨rfl, rfl, rfl, rfl⟩, rfl⟩
  · intro w r r1 h
    have h1 := (recreateSwapChainSteps_done deviceExtensions w r r1 h).2.2
    rw [recreate_effect] at h1
    subst h1
    exact ⟨⟨rfl, rfl, rfl, rfl⟩, rfl⟩
  · intro w hno
    refine ⟨_, runSteps_of_none deviceExtensions w initSteps Resources.fresh hno, ?_⟩
    rw [init_effect]
    exact ⟨⟨rfl, rfl, rfl, rfl⟩, rfl⟩
  · intro w r hsize hno
    refine ⟨recreateSteps.foldl (fun acc step => stepEffect w step acc) (cleanupSwapChain r),
      ?_, ?_⟩
    · unfold recreateSwapChainSteps
      rw [if_neg hsize, runSteps_of_none deviceExtensions w recreateSteps _ hno]
    · rw [recreate_effect]
      exact ⟨⟨rfl, rfl, rfl, rfl⟩, rfl⟩

theorem swapchain_counts_agree_witness :
    (CountsAgree exampleResources ∧ exampleResources.swapChainImages = 2)
    ∧ ∃ r1, recreateSwapChainSteps exampleExtensions (exampleWorld 2) exampleResources
          = Completion.done r1
        ∧ CountsAgree r1 ∧ r1.swapChainImages = 3 :=
  ⟨(swapchain_counts_agree exampleExtensions).1 (exampleWorld 1) exampleResources rfl,
   (swapchain_counts_agree exampleExtensions).2.2.2 (exampleWorld 2) exampleResources (by decide) (by decide)⟩

/-- C19 (evaluation at the failing input): `init` on a surface that asks for
at least one image leaves two swapchain images and two of each per-image
uniform buffer and descriptor set; a rebuild after the surface has come to ask
for at least two images returns with three swapchain images and still two of
each uniform buffer and two descriptor sets. -/
theorem recreateSwapChain_keeps_uniform_counts :
    init exampleExtensions (exampleWorld 1) = Except.ok exampleResources
    ∧ recreateSwapChainSteps exampleExtensions (exampleWorld 2) exampleResources
        = Completion.done
            { exampleResources with
              swapChainImages := 3, swapChainFramebuffers := 3, imguiFrameBuffers := 3,
              commandBuffers := 3, imguiCommandBuffers := 3 }
    ∧ exampleResources.descriptorSets = 2
    ∧ exampleResources.vpUniformBuffer = 2
    ∧ exampleResources.modelDUniformBuffer = 2
    ∧ exampleResources.directionalLightUniformBuffer = 2
    ∧ exampleResources.cameraPositionUniformBuffer = 2 :=
  ⟨rfl, rfl, rfl, rfl, rfl, rfl, rfl⟩

/-- C20: in a world that stays the same (surface capabilities, framebuffer
size, driver), when a call of `recreateSwapChain` returns, a second call right
after it returns too, with the same image count, extent and framebuffer count;
and in each result the framebuffer count equals the image count. -/
theorem recreateSwapChain_twice (deviceExtensions : List String) (w : World)
    (r r1 : Resources)
    (h : recreateSwapChainSteps deviceExtensions w r = Completion.done r1) :
    ∃ r2, recreateSwapChainSteps deviceExtensions w r1 = Completion.done r2
      ∧ r2.swapChainImages = r1.swapChainImages
      ∧ r2.swapChainExtent = r1.swapChainExtent
      ∧ r2.swapChainFramebuffers = r1.swapChainFramebuffers
      ∧ r2.imguiFrameBuffers = r1.imguiFrameBuffers
      ∧ r1.swapChainFramebuffers = r1.swapChainImages
      ∧ r2.swapChainFramebuffers = r2.swapChainImages := by
  obtain ⟨hz, hnone, h1⟩ := recreateSwapChainSteps_done deviceExtensions w r r1 h
  refine ⟨recreateSteps.foldl (fun acc step => stepEffect w step acc) (cleanupSwapChain r1),
    ?_, ?_⟩
  · unfold recreateSwapChainSteps
    rw [if_neg hz, runSteps_of_none deviceExtensions w recreateSteps _ hnone]
  · rw [recreate_effect] at h1 ⊢
    subst h1
    exact ⟨rfl, rfl, rfl, rfl, rfl, rfl⟩

theorem recreateSwapChain_twice_witness :
    ∃ r2, recreateSwapChainSteps exampleExtensions (exampleWorld 1) exampleResources
        = Completion.done r2
      ∧ r2.swapChainImages = exampleResources.swapChainImages
      ∧ r2.swapChainExtent = exampleResources.swapChainExtent
      ∧ r2.swapChainFramebuffers = exampleResources.swapChainFramebuffers
      ∧ r2.imguiFrameBuffers = exampleResources.imguiFrameBuffers
      ∧ exampleResources.swapChainFramebuffers = exampleResources.swapChainImages
      ∧ r2.swapChainFramebuffers = r2.swapChainImages :=
  recreateSwapChain_twice exampleExtensions (exampleWorld 1) exampleResources exampleResources
    rfl

/-! ## Teardown -/

/-- C21: `cleanupSwapChain` does not leave the textures alone. On a renderer
with one loaded texture it destroys the image, frees its memory and destroys
its view, and it clears the three texture vectors, so the texture lists after
the teardown differ from those before. -/
theorem cleanupSwapChain_destroys_textures :
    exampleMembers.textureImages = [7]
    ∧ exampleMembers.textureImageMemory = [8]
    ∧ exampleMembers.textureImageViews = [9]
    ∧ (Members.cleanupSwapChain exampleMembers).1.textureImages = []
    ∧ (Members.cleanupSwapChain exampleMembers).1.textureImageMemory = []
    ∧ (Members.cleanupSwapChain exampleMembers).1.textureImageViews = []
    ∧ (Members.cleanupSwapChain exampleMembers).2.count (Object.textureImages 0) = 1
    ∧ (Members.cleanupSwapChain exampleMembers).2.count (Object.textureImageMemory 0) = 1
    ∧ (Members.cleanupSwapChain exampleMembers).2.count (Object.textureImageViews 0) = 1 := by
  decide

/-- Appending a piece whose places lie between `k` and `k'` to an ascending
list of places bounded by `k`. -/
theorem ascending_append (l p : List (Option Nat)) (k k' : Nat) (hk : k ≤ k')
    (hl : l.Pairwise (fun a b => a.getD 0 ≤ b.getD 0) ∧ ∀ x ∈ l, ∃ j, x = some j ∧ j ≤ k)
    (hp : p.Pairwise (fun a b => a.getD 0 ≤ b.getD 0)
      ∧ ∀ x ∈ p, ∃ j, x = some j ∧ k ≤ j ∧ j ≤ k') :
    (l ++ p).Pairwise (fun a b => a.getD 0 ≤ b.getD 0)
    ∧ ∀ x ∈ l ++ p, ∃ j, x = some j ∧ j ≤ k' := by
  constructor
  · refine List.pairwise_append.mpr ⟨hl.1, hp.1, ?_⟩
    intro a ha b hb
    rcases hl.2 a ha with ⟨i, rfl, hi⟩
    rcases hp.2 b hb with ⟨j, rfl, hj, _⟩
    exact le_trans hi hj
  · intro x hx
    rcases List.mem_append.mp hx with h | h
    · rcases hl.2 x h with ⟨i, rfl, hi⟩
      exact ⟨i, rfl, le_trans hi hk⟩
    · rcases hp.2 x h with ⟨j, rfl, _, hj⟩
      exact ⟨j, rfl, hj⟩

/-- A piece of the destroy sequence whose objects all have place `k`. -/
theorem ranks_const (p : List Object) (lo k : Nat) (hlo : lo ≤ k)
    (h : ∀ o ∈ p, cleanupRank o = some k) :
    (p.map cleanupRank).Pairwise (fun a b => a.getD 0 ≤ b.getD 0)
    ∧ ∀ x ∈ p.map cleanupRank, ∃ j, x = some j ∧ lo ≤ j ∧ j ≤ k := by
  constructor
  · refine List.pairwise_map.mpr (List.pairwise_of_forall_mem_list ?_)
    intro a ha b hb
    rw [h a ha, h b hb]
  · intro x hx
    rcases List.mem_map.mp hx with ⟨o, ho, rfl⟩
    exact ⟨k, h o ho, hlo, le_refl k⟩

/-- The places of the destroy calls that `cleanup` makes after the teardown
ascend, in any state. -/
theorem cleanupRest_ranks (MAX_FRAME_DRAWS : Nat) (enableValidationLayers : Bool) (m : Members) :
    Ascending ((m.cleanupRest MAX_FRAME_DRAWS enableValidationLayers).2.map cleanupRank) := by
  have h1 := ascending_append [] ([Object.samplerDescriptorPool, Object.samplerSetLayout,
    Object.textureSampler].map cleanupRank) 0 2 (by decide)
    ⟨List.Pairwise.nil, fun x hx => by cases hx⟩ (by decide)
  have h2 := ascending_append _ _ 2 3 (by decide) h1
    (ranks_const ((List.range m.modelList.length).map Object.modelList) 2 3 (by decide) (by
      intro o ho
      rcases List.mem_map.mp ho with ⟨i, _, rfl⟩
      rfl))
  have h3 := ascending_append _ _ 3 4 (by decide) h2
    (ranks_const ((List.range m.meshList.length).map Object.meshList) 3 4 (by decide) (by
      intro o ho
      rcases List.mem_map.mp ho with ⟨i, _, rfl⟩
      rfl))
  have h4 := ascending_append _ ([Object.directionalLight, Object.modelTransferSpace,
    Object.imguiDescriptorPool, Object.descriptorPool,
    Object.descriptorSetLayout].map cleanupRank) 4 9 (by decide) h3 (by decide)
  have h5 := ascending_append _ _ 9 10 (by decide) h4
    (ranks_const ((List.range m.vectors.swapChainImages).flatMap uniformBufferObjects) 9 10
      (by decide) (by
      intro o ho
      rcases List.mem_flatMap.mp ho with ⟨i, _, hoi⟩
      simp only [uniformBufferObjects, List.mem_cons, List.mem_nil_iff, or_false] at hoi
      rcases hoi with rfl | rfl | rfl | rfl | rfl | rfl | rfl | rfl
      all_goals rfl))
  have h6 := ascending_append _ _ 10 11 (by decide) h5
    (ranks_const ((List.range MAX_FRAME_DRAWS).flatMap
        (fun i => [Object.semaphore (Semaphore.renderFinished i),
                   Object.semaphore (Semaphore.imageAvailable i), Object.drawFences i]))
      10 11 (by decide) (by
      intro o ho
      rcases List.mem_flatMap.mp ho with ⟨i, _, hoi⟩
      simp only [List.mem_cons, List.mem_nil_iff, or_false] at hoi
      rcases hoi with rfl | rfl | rfl
      all_goals rfl))
  have h7 := ascending_append _ ([Object.graphicsCommandPool, Object.imguiCommandPool,
    Object.surface].map cleanupRank) 11 14 (by decide) h6 (by decide)
  have h8 := ascending_append _
    ((if enableValidationLayers then [Object.debugMessenger] else []).map cleanupRank) 14 15
    (by decide) h7 (by cases enableValidationLayers <;> decide)
  have h9 := ascending_append _ ([Object.logicalDevice, Object.vkInstance].map cleanupRank)
    15 17 (by decide) h8 (by decide)
  rw [List.nil_append] at h9
  constructor
  · intro x hx
    simp only [Members.cleanupRest, List.map_append] at hx
    rcases h9.2 x hx with ⟨j, rfl, _⟩
    exact Option.some_ne_none j
  · simp only [Members.cleanupRest, List.map_append]
    exact h9.1

/-- C22 (as stated): the destroy calls that `cleanup` makes after the teardown
do not follow the listed order. For a renderer with validation layers on, two
frame slots, one model and one standalone mesh, the places of the calls in the
listed order (0 descriptor pools and layouts, 1 samplers, 2 sync objects,
3 texture images, 4 mesh buffers, 5 transfer block, 6 command pools, 7 debug
messenger, 8 surface, 9 device, 10 instance) do not ascend: mesh buffers and
the transfer block come before three descriptor pool and layout calls and
before the sync objects, the surface comes before the debug messenger, and no
texture image is destroyed in this part. -/
theorem cleanup_order_not_as_listed :
    (Members.cleanupRest 2 true (Members.cleanupSwapChain exampleMembers).1).2.filterMap specRank
      = [0, 0, 1, 4, 4, 5, 0, 0, 0, 2, 2, 2, 2, 2, 2, 6, 6, 8, 7, 9, 10]
    ∧ ¬ ((Members.cleanupRest 2 true
          (Members.cleanupSwapChain exampleMembers).1).2.filterMap specRank).Pairwise
        (fun a b => a ≤ b) := by
  decide

/-- C22 (amended): after the teardown, `cleanup` destroys, in this order, the
sampler descriptor pool, the sampler set layout, the texture sampler, the
buffers of the models, the buffers of the standalone meshes, the light, the
transfer block, the overlay descriptor pool, the uniform descriptor pool, the
uniform set layout, the per-frame sync objects, the graphics command pool, the
overlay command pool, the surface, the debug messenger (if enabled), the device
and the instance: every destroy call of that part has its place in this order
and the places ascend, each of the single objects named is destroyed there (the
debug messenger exactly when validation layers are on), as are the buffers of
every model, of every standalone mesh and the sync objects of every frame
slot. -/
theorem cleanup_order (MAX_FRAME_DRAWS : Nat) (enableValidationLayers : Bool) (m : Members) :
    (Members.cleanup MAX_FRAME_DRAWS enableValidationLayers m).2
      = (Members.cleanupSwapChain m).2
        ++ (Members.cleanupRest MAX_FRAME_DRAWS enableValidationLayers
            (Members.cleanupSwapChain m).1).2
    ∧ Ascending ((Members.cleanupRest MAX_FRAME_DRAWS enableValidationLayers
        (Members.cleanupSwapChain m).1).2.map cleanupRank)
    ∧ [Object.samplerDescriptorPool, Object.samplerSetLayout, Object.textureSampler,
        Object.modelList 0, Object.meshList 0, Object.directionalLight,
        Object.modelTransferSpace, Object.imguiDescriptorPool, Object.descriptorPool,
        Object.descriptorSetLayout, Object.vpUniformBuffer 0, Object.drawFences 0,
        Object.graphicsCommandPool, Object.imguiCommandPool, Object.surface,
        Object.debugMessenger, Object.logicalDevice, Object.vkInstance].map cleanupRank
      = (List.range 18).map some
    ∧ (∀ o ∈ [Object.samplerDescriptorPool, Object.samplerSetLayout, Object.textureSampler,
          Object.directionalLight, Object.modelTransferSpace, Object.imguiDescriptorPool,
          Object.descriptorPool, Object.descriptorSetLayout, Object.graphicsCommandPool,
          Object.imguiCommandPool, Object.surface, Object.logicalDevice, Object.vkInstance],
        o ∈ (Members.cleanupRest MAX_FRAME_DRAWS enableValidationLayers
          (Members.cleanupSwapChain m).1).2)
    ∧ (Object.debugMessenger ∈ (Members.cleanupRest MAX_FRAME_DRAWS enableValidationLayers
          (Members.cleanupSwapChain m).1).2 ↔ enableValidationLayers = true)
    ∧ (∀ i, i < m.modelList.length →
        Object.modelList i ∈ (Members.cleanupRest MAX_FRAME_DRAWS enableValidationLayers
          (Members.cleanupSwapChain m).1).2)
    ∧ (∀ i, i < m.meshList.length →
        Object.meshList i ∈ (Members.cleanupRest MAX_FRAME_DRAWS enableValidationLayers
          (Members.cleanupSwapChain m).1).2)
    ∧ (∀ i, i < MAX_FRAME_DRAWS →
        Object.semaphore (Semaphore.renderFinished i)
            ∈ (Members.cleanupRest MAX_FRAME_DRAWS enableValidationLayers
                (Members.cleanupSwapChain m).1).2
        ∧ Object.semaphore (Semaphore.imageAvailable i)
            ∈ (Members.cleanupRest MAX_FRAME_DRAWS enableValidationLayers
                (Members.cleanupSwapChain m).1).2
        ∧ Object.drawFences i
            ∈ (Members.cleanupRest MAX_FRAME_DRAWS enableValidationLayers
                (Members.cleanupSwapChain m).1).2) := by
  refine ⟨rfl, cleanupRest_ranks _ _ _, by decide, ?_, ?_, ?_, ?_, ?_⟩
  · intro o ho
    simp only [List.mem_cons, List.mem_nil_iff, or_false] at ho
    rcases ho with rfl | rfl | rfl | rfl | rfl | rfl | rfl | rfl | rfl | rfl | rfl | rfl | rfl <;>
      simp [Members.cleanupRest]
  · cases enableValidationLayers <;>
      simp [Members.cleanupRest, Members.cleanupSwapChain, uniformBufferObjects]
  · intro i hi
    simp [Members.cleanupRest, Members.cleanupSwapChain, hi]
  · intro i hi
    simp [Members.cleanupRest, Members.cleanupSwapChain, hi]
  · intro i hi
    simp [Members.cleanupRest, hi]

/-- The objects that `init` creates in the example world, in order. -/
theorem createdBySteps_example :
    createdBySteps 2 true (exampleWorld 1) initSteps Resources.fresh
      = [Object.vkInstance, Object.debugMessenger, Object.surface, Object.logicalDevice,
         Object.graphicsCommandPool, Object.imguiCommandPool, Object.swapchain,
         Object.swapChainImageView 0, Object.swapChainImageView 1,
         Object.depthStencilImage, Object.depthStencilImageMemory, Object.depthStencilImageView,
         Object.colourImage, Object.colourImageMemory, Object.colourImageView,
         Object.renderPass RenderPass.scene, Object.renderPass RenderPass.offscreen,
         Object.renderPass RenderPass.imgui, Object.descriptorSetLayout,
         Object.samplerSetLayout, Object.shadowSamplerSetLayout,
         Object.pipelineLayout PipelineLayout.pipelineLayout, Object.pipeline Pipeline.scene,
         Object.pipelineLayout PipelineLayout.offscreenPipelineLayout,
         Object.pipeline Pipeline.offscreen,
         Object.swapChainFramebuffers 0, Object.swapChainFramebuffers 1,
         Object.imguiFrameBuffers 0, Object.imguiFrameBuffers 1,
         Object.offscreenDepthImage, Object.offscreenDepthMem, Object.offscreenDepthView,
         Object.offscreenDepthSampler, Object.offscreenFrameBuffer, Object.modelTransferSpace]
        ++ uniformBufferObjects 0 ++ uniformBufferObjects 1
        ++ [Object.commandBuffers 0, Object.commandBuffers 1,
            Object.imguiCommandBuffers 0, Object.imguiCommandBuffers 1,
            Object.textureSampler, Object.descriptorPool, Object.samplerDescriptorPool,
            Object.imguiDescriptorPool,
            Object.semaphore (Semaphore.imageAvailable 0),
            Object.semaphore (Semaphore.renderFinished 0), Object.drawFences 0,
            Object.semaphore (Semaphore.imageAvailable 1),
            Object.semaphore (Semaphore.renderFinished 1), Object.drawFences 1] := by
  rfl

/-- The destroy calls of a `cleanup` right after that `init`, in order. -/
theorem cleanup_example :
    (Members.cleanup 2 true (Members.afterInit exampleResources)).2
      = [Object.commandBuffers 0, Object.commandBuffers 1,
         Object.imguiCommandBuffers 0, Object.imguiCommandBuffers 1,
         Object.swapChainFramebuffers 0, Object.swapChainFramebuffers 1,
         Object.imguiFrameBuffers 0, Object.imguiFrameBuffers 1,
         Object.pipeline Pipeline.scene, Object.pipelineLayout PipelineLayout.pipelineLayout,
         Object.renderPass RenderPass.scene, Object.renderPass RenderPass.imgui,
         Object.depthStencilImageView, Object.depthStencilImage, Object.depthStencilImageMemory,
         Object.colourImageView, Object.colourImage, Object.colourImageMemory,
         Object.swapChainImageView 0, Object.swapChainImageView 1, Object.swapchain,
         Object.samplerDescriptorPool, Object.samplerSetLayout, Object.textureSampler,
         Object.directionalLight, Object.modelTransferSpace, Object.imguiDescriptorPool,
         Object.descriptorPool, Object.descriptorSetLayout,
         Object.semaphore (Semaphore.renderFinished 0),
         Object.semaphore (Semaphore.imageAvailable 0), Object.drawFences 0,
         Object.semaphore (Semaphore.renderFinished 1),
         Object.semaphore (Semaphore.imageAvailable 1), Object.drawFences 1,
         Object.graphicsCommandPool, Object.imguiCommandPool, Object.surface,
         Object.debugMessenger, Object.logicalDevice, Object.vkInstance] := by
  rfl

/-- C23: `cleanup` does not destroy every object that `init` created. After an
`init` that succeeds with two swapchain images (validation layers on, two
frame slots) and a `cleanup` right after it, these objects of `init` are
destroyed by no call: the four uniform buffers with their memory of both
images, the offscreen pipeline and its layout, the offscreen render pass, the
shadow sampler layout, and the offscreen depth image, memory, view, sampler and
framebuffer. The teardown has emptied `swapChainImages` before the loop of
`cleanup` over the uniform buffers reads its size. -/
theorem cleanup_leaves_objects :
    init exampleExtensions (exampleWorld 1) = Except.ok exampleResources
    ∧ (Members.cleanupSwapChain (Members.afterInit exampleResources)).1.vectors.swapChainImages = 0
    ∧ ∀ o ∈ uniformBufferObjects 0 ++ uniformBufferObjects 1
          ++ [Object.pipeline Pipeline.offscreen,
              Object.pipelineLayout PipelineLayout.offscreenPipelineLayout,
              Object.renderPass RenderPass.offscreen, Object.shadowSamplerSetLayout,
              Object.offscreenDepthImage, Object.offscreenDepthMem, Object.offscreenDepthView,
              Object.offscreenDepthSampler, Object.offscreenFrameBuffer],
        o ∈ createdBySteps 2 true (exampleWorld 1) initSteps Resources.fresh
        ∧ (Members.cleanup 2 true (Members.afterInit exampleResources)).2.count o = 0 := by
  refine ⟨rfl, rfl, ?_⟩
  intro o ho
  rw [createdBySteps_example, cleanup_example, List.count_eq_zero]
  simp only [uniformBufferObjects, List.cons_append, List.nil_append, List.mem_cons,
    List.mem_nil_iff, or_false] at ho ⊢
  rcases ho with rfl | rfl | rfl | rfl | rfl | rfl | rfl | rfl | rfl | rfl | rfl | rfl | rfl
    | rfl | rfl | rfl | rfl | rfl | rfl | rfl | rfl | rfl | rfl | rfl | rfl <;> simp

/-! ## Start-up failures -/

/-- C24: `init` does not return `EXIT_FAILURE` for every failed creation call.
When the `vkCreateGraphicsPipelines` call for the offscreen pipeline fails and
every other call succeeds, `createGraphicsPipeline` throws nothing, the `try`
block runs to its end and `init` returns 0; the same failure for the scene
pipeline makes it return `EXIT_FAILURE`. -/
theorem init_ignores_offscreen_pipeline_failure :
    offscreenPipelineFails.offscreenPipeline ≠ VkResult.success
    ∧ createGraphicsPipeline offscreenPipelineFails = none
    ∧ init exampleExtensions ((exampleWorld 1).withPipelineResults offscreenPipelineFails)
        = Except.ok exampleResources
    ∧ initStatus exampleExtensions ((exampleWorld 1).withPipelineResults offscreenPipelineFails)
        = 0
    ∧ createGraphicsPipeline scenePipelineFails
        = some (InitError.stepFailed InitStep.createGraphicsPipeline)
    ∧ initStatus exampleExtensions ((exampleWorld 1).withPipelineResults scenePipelineFails)
        = EXIT_FAILURE := by
  refine ⟨by decide, rfl, rfl, rfl, rfl, rfl⟩

/-! ## Transforms of scene entries -/

theorem intToSizeT_of_nonneg (x : Int) (h0 : 0 ≤ x) (h1 : x < 2 ^ 31) :
    intToSizeT x = x.toNat := by
  unfold intToSizeT
  norm_num at h1 ⊢
  omega

theorem intToSizeT_of_neg (x : Int) (h0 : x < 0) (h1 : -2 ^ 31 ≤ x) :
    2 ^ 63 ≤ intToSizeT x := by
  unfold intToSizeT
  norm_num at h1 ⊢
  omega

/-- What `updateModel` does for an index inside the list. -/
theorem updateModel_inside (modelList : List MeshModel) (modelId : Int) (newModel : Mat4)
    (h0 : 0 ≤ modelId) (h1 : modelId < 2 ^ 31) (hlt : modelId.toNat < modelList.length) :
    updateModel modelList modelId newModel
      = (modelList.set modelId.toNat
          ((modelList.get ⟨modelId.toNat, hlt⟩).setModel newModel), [modelId.toNat]) := by
  unfold updateModel
  rw [intToSizeT_of_nonneg modelId h0 h1, if_neg (by omega)]
  simp [List.getElem?_eq_getElem hlt]

/-- What `updateModelMesh` does for an index inside the list. -/
theorem updateModelMesh_inside (meshList : List Mesh) (modelId : Int) (newModel : Mat4)
    (h0 : 0 ≤ modelId) (h1 : modelId < 2 ^ 31) (hlt : modelId.toNat < meshList.length) :
    updateModelMesh meshList modelId newModel
      = (meshList.set modelId.toNat
          ((meshList.get ⟨modelId.toNat, hlt⟩).setModel newModel), [modelId.toNat]) := by
  unfold updateModelMesh
  rw [intToSizeT_of_nonneg modelId h0 h1, if_neg (by omega)]
  simp [List.getElem?_eq_getElem hlt]

/-- The guard of `updateModel` and `updateModelMesh` rejects every index that
is negative or not below the length. -/
theorem intToSizeT_outside (n : Nat) (modelId : Int) (hn : n < 2 ^ 63)
    (hint : -2 ^ 31 ≤ modelId ∧ modelId < 2 ^ 31) (hout : ¬ (0 ≤ modelId ∧ modelId < n)) :
    intToSizeT modelId ≥ n := by
  by_cases h0 : 0 ≤ modelId
  · rw [intToSizeT_of_nonneg modelId h0 hint.2]
    have : ¬ modelId < n := fun h => hout ⟨h0, h⟩
    omega
  · have := intToSizeT_of_neg modelId (by omega) hint.1
    omega

/-- C25: for an `int` index and lists of fewer than `2 ^ 63` entries,
`updateModel` and `updateModelMesh` set the transform of entry `modelId` to
the new matrix when `0 <= modelId < size`, keep the length and every other
entry, and subscript the list at that index only; for every other index,
negative ones included, they leave the list as it is and subscript nothing. -/
theorem updateModel_bounds (modelList : List MeshModel) (meshList : List Mesh) (modelId : Int)
    (newModel : Mat4) (hint : -2 ^ 31 ≤ modelId ∧ modelId < 2 ^ 31)
    (hmodels : modelList.length < 2 ^ 63) (hmeshes : meshList.length < 2 ^ 63) :
    (0 ≤ modelId ∧ modelId < modelList.length →
      (updateModel modelList modelId newModel).1.length = modelList.length
      ∧ (∃ old, modelList[modelId.toNat]? = some old
          ∧ (updateModel modelList modelId newModel).1[modelId.toNat]?
              = some (old.setModel newModel)
          ∧ (old.setModel newModel).model.model = newModel
          ∧ (old.setModel newModel).model.hasTexture = old.model.hasTexture
          ∧ (old.setModel newModel).meshList = old.meshList)
      ∧ (∀ j, j ≠ modelId.toNat →
          (updateModel modelList modelId newModel).1[j]? = modelList[j]?)
      ∧ (updateModel modelList modelId newModel).2 = [modelId.toNat])
    ∧ (¬ (0 ≤ modelId ∧ modelId < modelList.length) →
        updateModel modelList modelId newModel = (modelList, []))
    ∧ (0 ≤ modelId ∧ modelId < meshList.length →
      (updateModelMesh meshList modelId newModel).1.length = meshList.length
      ∧ (∃ old, meshList[modelId.toNat]? = some old
          ∧ (updateModelMesh meshList modelId newModel).1[modelId.toNat]?
              = some (old.setModel newModel)
          ∧ (old.setModel newModel).model.model = newModel
          ∧ old.setModel newModel = { old with model := ⟨newModel, old.model.hasTexture⟩ })
      ∧ (∀ j, j ≠ modelId.toNat →
          (updateModelMesh meshList modelId newModel).1[j]? = meshList[j]?)
      ∧ (updateModelMesh meshList modelId newModel).2 = [modelId.toNat])
    ∧ (¬ (0 ≤ modelId ∧ modelId < meshList.length) →
        updateModelMesh meshList modelId newModel = (meshList, [])) := by
  refine ⟨?_, ?_, ?_, ?_⟩
  · rintro ⟨h0, h1⟩
    have hlt : modelId.toNat < modelList.length := by omega
    rw [updateModel_inside modelList modelId newModel h0 hint.2 hlt]
    refine ⟨by simp, ⟨modelList.get ⟨modelId.toNat, hlt⟩, ?_, ?_, rfl, rfl, rfl⟩, ?_, rfl⟩
    · simp [List.getElem?_eq_getElem hlt]
    · simp [List.getElem?_set_self, hlt]
    · intro j hj
      simp [List.getElem?_set_ne (Ne.symm hj)]
  · intro hout
    unfold updateModel
    rw [if_pos (intToSizeT_outside modelList.length modelId hmodels hint hout)]
  · rintro ⟨h0, h1⟩
    have hlt : modelId.toNat < meshList.length := by omega
    rw [updateModelMesh_inside meshList modelId newModel h0 hint.2 hlt]
    refine ⟨by simp, ⟨meshList.get ⟨modelId.toNat, hlt⟩, ?_, ?_, rfl, rfl⟩, ?_, rfl⟩
    · simp [List.getElem?_eq_getElem hlt]
    · simp [List.getElem?_set_self, hlt]
    · intro j hj
      simp [List.getElem?_set_ne (Ne.symm hj)]
  · intro hout
    unfold updateModelMesh
    rw [if_pos (intToSizeT_outside meshList.length modelId hmeshes hint hout)]

theorem updateModel_bounds_witness :
    (updateModel twoModelScene.modelList (-1) ⟨[9]⟩ = (twoModelScene.modelList, [])
      ∧ updateModelMesh modelAndMeshScene.meshList (-1) ⟨[9]⟩
          = (modelAndMeshScene.meshList, []))
    ∧ (updateModel twoModelScene.modelList 2 ⟨[9]⟩ = (twoModelScene.modelList, [])
      ∧ updateModelMesh modelAndMeshScene.meshList 1 ⟨[9]⟩
          = (modelAndMeshScene.meshList, []))
    ∧ (updateModel twoModelScene.modelList 1 ⟨[9]⟩).2 = [1]
    ∧ (updateModelMesh modelAndMeshScene.meshList 0 ⟨[9]⟩).2 = [0] :=
  ⟨⟨(updateModel_bounds twoModelScene.modelList modelAndMeshScene.meshList (-1) ⟨[9]⟩
        (by decide) (by decide) (by decide)).2.1 (by decide),
    (updateModel_bounds twoModelScene.modelList modelAndMeshScene.meshList (-1) ⟨[9]⟩
        (by decide) (by decide) (by decide)).2.2.2 (by decide)⟩,
   ⟨(updateModel_bounds twoModelScene.modelList modelAndMeshScene.meshList 2 ⟨[9]⟩
        (by decide) (by decide) (by decide)).2.1 (by decide),
    (updateModel_bounds twoModelScene.modelList modelAndMeshScene.meshList 1 ⟨[9]⟩
        (by decide) (by decide) (by decide)).2.2.2 (by decide)⟩,
   ((updateModel_bounds twoModelScene.modelList modelAndMeshScene.meshList 1 ⟨[9]⟩
        (by decide) (by decide) (by decide)).1 (by decide)).2.2.2,
   ((updateModel_bounds twoModelScene.modelList modelAndMeshScene.meshList 0 ⟨[9]⟩
        (by decide) (by decide) (by decide)).2.2.1 (by decide)).2.2.2⟩

/-! ## Descriptor pools -/

/-- The descriptors of one type needed by `n` sets of one layout. -/
theorem count_replicate_bindings (layout : SetLayout) (n : Nat) (t : VkDescriptorType) :
    (((List.replicate n layout).map SetLayout.bindings).flatten.count t)
      = n * layout.bindings.count t := by
  induction n with
  | zero => simp
  | succ n ih =>
    rw [List.replicate_succ, List.map_cons, List.flatten_cons, List.count_append, ih]
    ring

/-- C26: the sampler pool does not cover every set the renderer allocates
from it. `createDescriptorPool` gives it `maxSets = MAX_OBJECTS`, below the
`MAX_OBJECTS + 1` sets of the shadow-sampler set and one set per texture for
`MAX_OBJECTS` textures, although its two pool sizes hold `2 * MAX_OBJECTS`
image-sampler descriptors, enough for them; with one texture fewer the sets are
covered. The uniform pool built after `createUniformBuffers` covers one
scene-uniform set per swapchain image. -/
theorem samplerDescriptorPool_maxSets (MAX_OBJECTS : Nat) (r : Resources) :
    (createDescriptorPool MAX_OBJECTS r).samplerDescriptorPool.maxSets = MAX_OBJECTS
    ∧ ¬ (MAX_OBJECTS + 1 ≤ (createDescriptorPool MAX_OBJECTS r).samplerDescriptorPool.maxSets)
    ∧ (samplerPoolSets MAX_OBJECTS).length = MAX_OBJECTS + 1
    ∧ ¬ (createDescriptorPool MAX_OBJECTS r).samplerDescriptorPool.admits
          (samplerPoolSets MAX_OBJECTS)
    ∧ (createDescriptorPool MAX_OBJECTS r).samplerDescriptorPool.descriptors
          VkDescriptorType.combinedImageSampler = 2 * MAX_OBJECTS
    ∧ (∀ textures, textures + 1 ≤ MAX_OBJECTS →
        (createDescriptorPool MAX_OBJECTS r).samplerDescriptorPool.admits
          (samplerPoolSets textures))
    ∧ (r.swapChainImages < 2 ^ 32 →
        (createDescriptorPool MAX_OBJECTS (createUniformBuffers r)).descriptorPool.admits
          (uniformPoolSets (createUniformBuffers r))) := by
  refine ⟨rfl, by simp [createDescriptorPool], by simp [samplerPoolSets], ?_, ?_, ?_, ?_⟩
  · intro h
    have := h.1
    simp [createDescriptorPool, samplerPoolSets] at this
  · simp [VkDescriptorPoolCreateInfo.descriptors, createDescriptorPool]
    ring
  · intro textures ht
    constructor
    · simp [createDescriptorPool, samplerPoolSets]
      omega
    · intro t
      have hc := count_replicate_bindings SetLayout.samplerSetLayout textures t
      cases t <;>
        simp [samplerPoolSets, VkDescriptorPoolCreateInfo.descriptors, createDescriptorPool,
          SetLayout.bindings, List.count_cons] at hc ⊢ <;>
        omega
  · intro hn
    have h32 : toU32 r.swapChainImages = r.swapChainImages := by
      unfold toU32
      exact Nat.mod_eq_of_lt hn
    constructor
    · simp [createDescriptorPool, uniformPoolSets, createUniformBuffers, h32]
    · intro t
      have hc := count_replicate_bindings SetLayout.descriptorSetLayout r.swapChainImages t
      cases t <;>
        simp [uniformPoolSets, VkDescriptorPoolCreateInfo.descriptors, createDescriptorPool,
          createUniformBuffers, SetLayout.bindings, List.count_cons, h32] at hc ⊢ <;>
        omega

/-! ## The frame after an aborted frame -/

/-- C27: the fence of the current slot is not always signaled or pending at
entry to `draw`. From the state that `createSynchronisation` leaves (both
fences signaled), a frame aborted at acquisition, by an out-of-date answer or
by the resize flag, resets the fence of slot 0, submits nothing and keeps the
slot index; the next call of `draw` enters with that fence unsignaled and no
submission outstanding, and never comes back from `vkWaitForFences`. -/
theorem drawLoop_blocks_after_abort :
    createSynchronisation 2 (fun _ => true) (exampleRenderer [] [])
      = some (exampleRenderer [] [])
    ∧ (drawLoop 2 (exampleRenderer [] []) [{ plainFrame with env := staleAcquire }, plainFrame]).map
        (fun f => (f.slot, f.entry.drawFences.getD f.slot Fence.unsignaled, f.result.outcome,
          f.result.trace.filter Event.isSubmit))
      = [(0, Fence.signaled, Outcome.returned, []), (0, Fence.unsignaled, Outcome.blocked, [])]
    ∧ (drawLoop 2 (exampleRenderer [] []) [{ plainFrame with resized := true }, plainFrame]).map
        (fun f => (f.slot, f.entry.drawFences.getD f.slot Fence.unsignaled, f.result.outcome,
          f.result.trace.filter Event.isSubmit))
      = [(0, Fence.signaled, Outcome.returned, []), (0, Fence.unsignaled, Outcome.blocked, [])]
    ∧ (draw 2 (draw 2 (exampleRenderer [] []) staleAcquire).state (frameOk 0)).trace = [] := by
  refine ⟨rfl, ?_, ?_, ?_⟩ <;> decide

/-! ## Offsets written and offsets bound -/

/-- C28: the offset bound for a drawable is not always the offset at which its
block was written. For one model of one mesh and one standalone mesh (stride
256), `updateUniformBuffers` writes the two blocks at offsets 0 and 256, and
`recordCommands` binds offset 0 for both drawables in the scene pass and in the
shadow pass: the standalone mesh is drawn with offset 0, where the uploaded
buffer holds the block of the model's mesh, and its own block is at 256. -/
theorem bound_offsets_differ_from_written :
    (drawables modelAndMeshScene.modelList modelAndMeshScene.meshList).map Mesh.model
      = [⟨⟨[1]⟩, true⟩, ⟨⟨[2]⟩, true⟩]
    ∧ writeOffsets (updateUniformBuffers modelAndMeshScene 0).modelTransferSpace = [0, 256]
    ∧ boundOffsets (scenePass (updateUniformBuffers modelAndMeshScene 0) 0) = [0, 0]
    ∧ boundOffsets (shadowPass (updateUniformBuffers modelAndMeshScene 0) 0) = [0, 0]
    ∧ (((recordCommands (updateUniformBuffers modelAndMeshScene 0) 0 recordOk).1.commandBuffers.map
          CommandBuffer.cmds).map boundOffsets) = [[0, 0]]
    ∧ ((updateUniformBuffers modelAndMeshScene 0).modelDUniformBufferMemory.map
          fun u => (u.load 68 0, u.load 68 256))
        = [(some ⟨⟨[1]⟩, true⟩, some ⟨⟨[2]⟩, true⟩)] := by
  decide

/-! ## Capacity of the transfer block -/

/-- The inner loop of `updateUniformBuffers` adds one store per mesh, at the
inner indices `j, j + 1, ...`. -/
theorem storeModelMeshes_stores (stride : Nat) (l : List Mesh) (j meshCount : Nat)
    (mem : TransferSpace) :
    ∃ stores : TransferSpace,
      storeModelMeshes stride l j meshCount mem = (meshCount + l.length, stores ++ mem)
      ∧ stores.length = l.length
      ∧ ∀ s ∈ stores, ∃ k, k < j + l.length ∧ s.1 = mul64 k stride := by
  induction l generalizing j meshCount mem with
  | nil => exact ⟨[], rfl, rfl, fun s hs => by cases hs⟩
  | cons mesh rest ih =>
    rcases ih (j + 1) (meshCount + 1) (storeModel mem (mul64 j stride) mesh.model) with
      ⟨stores, heq, hlen, hall⟩
    refine ⟨stores ++ [(mul64 j stride, mesh.model)], ?_, ?_, ?_⟩
    · rw [storeModelMeshes, heq]
      simp [storeModel, List.length_cons]
      omega
    · simp [hlen]
    · intro s hs
      rcases List.mem_append.mp hs with h | h
      · rcases hall s h with ⟨k, hk, hs1⟩
        exact ⟨k, by simp only [List.length_cons]; omega, hs1⟩
      · simp only [List.mem_singleton] at h
        subst h
        exact ⟨j, by simp only [List.length_cons]; omega, rfl⟩

/-- The outer loop over the models adds one store per mesh of a model, each at
an inner index below the number of meshes of the models. -/
theorem storeModels_stores (stride : Nat) (models : List MeshModel) (meshCount : Nat)
    (mem : TransferSpace) :
    ∃ stores : TransferSpace,
      storeModels stride models meshCount mem
        = (meshCount + (models.map MeshModel.meshList).flatten.length, stores ++ mem)
      ∧ stores.length = (models.map MeshModel.meshList).flatten.length
      ∧ ∀ s ∈ stores, ∃ k, k < (models.map MeshModel.meshList).flatten.length
          ∧ s.1 = mul64 k stride := by
  induction models generalizing meshCount mem with
  | nil => exact ⟨[], rfl, rfl, fun s hs => by cases hs⟩
  | cons thisModel rest ih =>
    rcases storeModelMeshes_stores stride thisModel.meshList 0 meshCount mem with
      ⟨s1, heq1, hlen1, hall1⟩
    rcases ih (meshCount + thisModel.meshList.length) (s1 ++ mem) with ⟨s2, heq2, hlen2, hall2⟩
    refine ⟨s2 ++ s1, ?_, ?_, ?_⟩
    · rw [storeModels]
      simp only [heq1, heq2]
      simp [List.length_append]
      omega
    · simp [hlen1, hlen2]
      omega
    · intro s hs
      simp only [List.map_cons, List.flatten_cons, List.length_append]
      rcases List.mem_append.mp hs with h | h
      · rcases hall2 s h with ⟨k, hk, hs1⟩
        exact ⟨k, by omega, hs1⟩
      · rcases hall1 s h with ⟨k, hk, hs1⟩
        exact ⟨k, by omega, hs1⟩

/-- The loop over the standalone meshes adds one store per mesh, at the
indices `i, i + 1, ...` shifted by the number of model meshes. -/
theorem storeMeshes_stores (stride modelMeshCount : Nat) (l : List Mesh) (i meshCount : Nat)
    (mem : TransferSpace) :
    ∃ stores : TransferSpace,
      storeMeshes stride modelMeshCount l i meshCount mem = (meshCount + l.length, stores ++ mem)
      ∧ stores.length = l.length
      ∧ ∀ s ∈ stores, ∃ k, k < i + l.length ∧ s.1 = mul64 (add64 k modelMeshCount) stride := by
  induction l generalizing i meshCount mem with
  | nil => exact ⟨[], rfl, rfl, fun s hs => by cases hs⟩
  | cons mesh rest ih =>
    rcases ih (i + 1) (meshCount + 1)
        (storeModel mem (mul64 (add64 i modelMeshCount) stride) mesh.model) with
      ⟨stores, heq, hlen, hall⟩
    refine ⟨stores ++ [(mul64 (add64 i modelMeshCount) stride, mesh.model)], ?_, ?_, ?_⟩
    · rw [storeMeshes, heq]
      simp [storeModel, List.length_cons]
      omega
    · simp [hlen]
    · intro s hs
      rcases List.mem_append.mp hs with h | h
      · rcases hall s h with ⟨k, hk, hs1⟩
        exact ⟨k, by simp only [List.length_cons]; omega, hs1⟩
      · simp only [List.mem_singleton] at h
        subst h
        exact ⟨i, by simp only [List.length_cons]; omega, rfl⟩

/-- A block stored at index `k` below `MAX_OBJECTS` ends inside the capacity. -/
theorem block_within_capacity (stride sizeofModel MAX_OBJECTS k : Nat)
    (hsize : sizeofModel ≤ stride) (hcap : stride * MAX_OBJECTS < 2 ^ 64) (hk : k < MAX_OBJECTS) :
    mul64 k stride + sizeofModel ≤ modelBufferSize stride MAX_OBJECTS := by
  have h1 : (k + 1) * stride ≤ MAX_OBJECTS * stride := Nat.mul_le_mul_right stride hk
  have h2 : k * stride ≤ (k + 1) * stride := Nat.mul_le_mul_right stride (Nat.le_succ k)
  have h3 : (k + 1) * stride = k * stride + stride := by ring
  have h4 : MAX_OBJECTS * stride = stride * MAX_OBJECTS := Nat.mul_comm _ _
  unfold modelBufferSize mul64
  rw [Nat.mod_eq_of_lt (by omega), Nat.mod_eq_of_lt hcap]
  omega

/-- C29 (as stated): a scene reachable through `createMesh` can exceed the
capacity. With `MAX_OBJECTS = 2` and stride 256 the capacity is 512 bytes;
after three calls of `createMesh`, `updateUniformBuffers` stores the block of
the third mesh at offset 512, at the end of the transfer block, and copies 768
bytes into the per-image buffer. -/
theorem updateUniformBuffers_exceeds_capacity :
    Reachable (exampleRenderer [] []) threeMeshScene
    ∧ modelBufferSize threeMeshScene.modelUniformAlignment 2 = 512
    ∧ (updateUniformBuffers threeMeshScene 0).modelTransferSpace.map Prod.fst = [512, 256, 0]
    ∧ ¬ (∀ s ∈ (updateUniformBuffers threeMeshScene 0).modelTransferSpace,
          s.1 + 68 ≤ modelBufferSize threeMeshScene.modelUniformAlignment 2)
    ∧ (updateUniformBuffers threeMeshScene 0).modelDUniformBufferMemory.map Upload.bytes = [768]
    ∧ ¬ (∀ u ∈ (updateUniformBuffers threeMeshScene 0).modelDUniformBufferMemory,
          u.bytes ≤ modelBufferSize threeMeshScene.modelUniformAlignment 2) := by
  refine ⟨?_, by decide, by decide, by decide, by decide, by decide⟩
  exact Reachable.mesh _ _ (Reachable.mesh _ _ (Reachable.mesh _ _ Reachable.start))

/-- C29 (amended): for a scene of at most `MAX_OBJECTS` drawables, with the
stride at least the size of a model block and the capacity
`modelUniformAlignment * MAX_OBJECTS` representable in 64 bits, every block
that `updateUniformBuffers` stores ends inside the capacity, one block is
stored per drawable, and the region copied to the per-image buffer,
`modelUniformAlignment * drawable count` bytes, is inside the capacity too. -/
theorem updateUniformBuffers_within_capacity (r : Renderer)
    (imageIndex sizeofModel MAX_OBJECTS : Nat) (hpos : 0 < sizeofModel)
    (hsize : sizeofModel ≤ r.modelUniformAlignment)
    (hcap : r.modelUniformAlignment * MAX_OBJECTS < 2 ^ 64)
    (hcount : (drawables r.modelList r.meshList).length ≤ MAX_OBJECTS) :
    ∃ stores : TransferSpace,
      (updateUniformBuffers r imageIndex).modelTransferSpace = stores ++ r.modelTransferSpace
      ∧ stores.length = (drawables r.modelList r.meshList).length
      ∧ (∀ s ∈ stores,
          s.1 + sizeofModel ≤ modelBufferSize r.modelUniformAlignment MAX_OBJECTS)
      ∧ (∀ u, (updateUniformBuffers r imageIndex).modelDUniformBufferMemory[imageIndex]? = some u →
          u.bytes = mul64 r.modelUniformAlignment (drawables r.modelList r.meshList).length
          ∧ u.bytes ≤ modelBufferSize r.modelUniformAlignment MAX_OBJECTS) := by
  rcases storeModels_stores r.modelUniformAlignment r.modelList 0 r.modelTransferSpace with
    ⟨s1, heq1, hlen1, hall1⟩
  rcases storeMeshes_stores r.modelUniformAlignment
      (0 + (r.modelList.map MeshModel.meshList).flatten.length) r.meshList 0
      (0 + (r.modelList.map MeshModel.meshList).flatten.length) (s1 ++ r.modelTransferSpace) with
    ⟨s2, heq2, hlen2, hall2⟩
  have hd : (drawables r.modelList r.meshList).length
      = (r.modelList.map MeshModel.meshList).flatten.length + r.meshList.length := by
    simp [drawables]
  have hstride : 0 < r.modelUniformAlignment := lt_of_lt_of_le hpos hsize
  have hmax : MAX_OBJECTS < 2 ^ 64 := by
    have : MAX_OBJECTS * 1 ≤ MAX_OBJECTS * r.modelUniformAlignment :=
      Nat.mul_le_mul_left MAX_OBJECTS hstride
    have hcomm : MAX_OBJECTS * r.modelUniformAlignment = r.modelUniformAlignment * MAX_OBJECTS :=
      Nat.mul_comm _ _
    omega
  refine ⟨s2 ++ s1, ?_, ?_, ?_, ?_⟩
  · simp only [updateUniformBuffers, heq1, heq2, List.append_assoc]
  · rw [List.length_append, hlen1, hlen2, hd]
    omega
  · intro s hs
    rcases List.mem_append.mp hs with h | h
    · rcases hall2 s h with ⟨k, hk, hs1⟩
      have hidx : add64 k (0 + (r.modelList.map MeshModel.meshList).flatten.length)
          = k + (r.modelList.map MeshModel.meshList).flatten.length := by
        unfold add64
        rw [Nat.zero_add]
        exact Nat.mod_eq_of_lt (by omega)
      rw [hs1, hidx]
      exact block_within_capacity _ _ _ _ hsize hcap (by omega)
    · rcases hall1 s h with ⟨k, hk, hs1⟩
      rw [hs1]
      exact block_within_capacity _ _ _ _ hsize hcap (by omega)
  · intro u hu
    simp only [updateUniformBuffers, heq1, heq2] at hu
    have hu1 : u.bytes = mul64 r.modelUniformAlignment
        (drawables r.modelList r.meshList).length := by
      by_cases hi : imageIndex < r.modelDUniformBufferMemory.length
      · rw [List.getElem?_set_self hi] at hu
        cases hu
        simp only [hd, Nat.zero_add]
      · rw [List.getElem?_eq_none (by simpa using hi)] at hu
        cases hu
    refine ⟨hu1, ?_⟩
    rw [hu1]
    unfold modelBufferSize mul64
    rw [Nat.mod_eq_of_lt hcap,
      Nat.mod_eq_of_lt (lt_of_le_of_lt (Nat.mul_le_mul_left _ hcount) hcap)]
    exact Nat.mul_le_mul_left _ hcount

theorem updateUniformBuffers_within_capacity_witness :
    0 < 68 ∧ 68 ≤ modelAndMeshScene.modelUniformAlignment
    ∧ (drawables modelAndMeshScene.modelList modelAndMeshScene.meshList).length ≤ 2
    ∧ ∃ stores : TransferSpace,
      (updateUniformBuffers modelAndMeshScene 0).modelTransferSpace
        = stores ++ modelAndMeshScene.modelTransferSpace
      ∧ stores.length = (drawables modelAndMeshScene.modelList modelAndMeshScene.meshList).length
      ∧ (∀ s ∈ stores,
          s.1 + 68 ≤ modelBufferSize modelAndMeshScene.modelUniformAlignment 2)
      ∧ (∀ u, (updateUniformBuffers modelAndMeshScene 0).modelDUniformBufferMemory[0]? = some u →
          u.bytes = mul64 modelAndMeshScene.modelUniformAlignment
              (drawables modelAndMeshScene.modelList modelAndMeshScene.meshList).length
          ∧ u.bytes ≤ modelBufferSize modelAndMeshScene.modelUniformAlignment 2) :=
  ⟨by decide, by decide, by decide,
    updateUniformBuffers_within_capacity modelAndMeshScene 0 68 2 (by decide) (by decide)
      (by decide) (by decide)⟩

/-! ## The slot of the shadow sampler -/

/-- C30: the shadow-sampler set is not bound at set index 2 in every scene-pass
draw. The scene pipeline layout puts the shadow sampler layout at index 2 and
the texture sampler layout at index 1; for a standalone mesh without texture
the call binds two sets from index 0 on, so the shadow-sampler set lands at
index 1 and nothing is bound at index 2, while index 0 holds the scene-uniform
set of the image. The textured draws beside it bind it at index 2. -/
theorem scenePass_untextured_shadow_slot :
    pipelineSetLayouts PipelineLayout.pipelineLayout
      = [SetLayout.descriptorSetLayout, SetLayout.samplerSetLayout,
         SetLayout.shadowSamplerSetLayout]
    ∧ boundSets (scenePass triangleScene 0)
      = [[DescriptorSet.sceneUniform 0, DescriptorSet.shadowSampler]]
    ∧ (boundSets (scenePass triangleScene 0)).map (fun sets => (sets[0]?, sets[1]?, sets[2]?))
      = [(some (DescriptorSet.sceneUniform 0), some DescriptorSet.shadowSampler, none)]
    ∧ (boundSets (scenePass triangleScene 0)).map
        (fun sets => (sets.map DescriptorSet.layout)[1]?)
      = [some SetLayout.shadowSamplerSetLayout]
    ∧ (boundSets (scenePass modelAndMeshScene 0)).map (fun sets => sets[2]?)
      = [some DescriptorSet.shadowSampler, some DescriptorSet.shadowSampler] := by
  decide

end vulkan
